import Mathlib

/-!
# nRF24L01+ driver (`nRF24L01p.c`): shallow embedding and verified properties

The driver talks to the radio chip through three platform primitives: the byte
exchange `spi`, the chip-select line `CSN` and the chip-enable line `CE`.  The
embedding threads an explicit hardware state through every function.  That
state holds the two output lines, the state of the chip on the other side of
the bus (an arbitrary machine `Chip σ`) and the chronological trace of bus
events.

Conventions of the embedding:
* a byte (`unsigned char`, and `char` as CodeVisionAVR configures it by
  default) is a natural number in `0..255`; the byte returned by `spi` is
  reduced `% 256`;
* `int` is the 16-bit signed integer of the AVR target; `size` is an `Int`
  and the only arithmetic on it, `size - 1`, wraps to 16 bits;
* a C buffer is a `List Nat`; `data[i] = v` is `List.set` and `data[i]` is
  `List.getD _ i 0`, `NULL` is the empty list;
* global variables of the driver are the fields of `Driver`.
-/

set_option linter.unusedVariables false

namespace NRF24

/-! ## Exported types (`nRF24L01p.h`) -/

/-- Error code: `typedef enum {PARAMETER_ERROR, UNKNOWN_COMMAND, BAD_COMMAND, OK} ErrorCode;` -/
inductive ErrorCode where
  | PARAMETER_ERROR
  | UNKNOWN_COMMAND
  | BAD_COMMAND
  | OK
deriving DecidableEq, Repr

/-- Mode of operation: `typedef enum {NRF24_TRANSMITTER, NRF24_RECEIVER} Mode;` -/
inductive Mode where
  | NRF24_TRANSMITTER
  | NRF24_RECEIVER
deriving DecidableEq, Repr

/-- Answer format: `typedef struct { unsigned char status; ErrorCode error; } WriteAnswer;`.
A field a function never assigns holds an indeterminate value in C; the
embedding records that as `none`. -/
structure WriteAnswer where
  status : Nat
  error : Option ErrorCode
deriving DecidableEq, Repr

/-! ## Instruction set and memory map (`nRF24L01p.c`, private defines) -/

abbrev R_REGISTER : Nat := 0x00
abbrev W_REGISTER : Nat := 0x20
abbrev R_RX_PAYLOAD : Nat := 0x61
abbrev W_TX_PAYLOAD : Nat := 0xA0
abbrev FLUSH_TX : Nat := 0xE1
abbrev FLUSH_RX : Nat := 0xE2
abbrev REUSE_TX_PL : Nat := 0xE3
abbrev ACTIVATE : Nat := 0x50
abbrev R_RX_PL_WID : Nat := 0x60
abbrev W_ACK_PAYLOAD : Nat := 0xA8
abbrev W_TX_PAYLOAD_NOACK : Nat := 0xB0
abbrev NOP : Nat := 0xFF

abbrev CONFIG : Nat := 0x00
abbrev EN_AA : Nat := 0x01
abbrev EN_RXADDR : Nat := 0x02
abbrev SETUP_AW : Nat := 0x03
abbrev SETUP_RETR : Nat := 0x04
abbrev RF_CH : Nat := 0x05
abbrev RF_SETUP : Nat := 0x06
abbrev STATUS : Nat := 0x07
abbrev OBSERVE_TX : Nat := 0x08
abbrev RPD : Nat := 0x09
abbrev RX_ADDR_P0 : Nat := 0x0A
abbrev RX_ADDR_P1 : Nat := 0x0B
abbrev RX_ADDR_P2 : Nat := 0x0C
abbrev RX_ADDR_P3 : Nat := 0x0D
abbrev RX_ADDR_P4 : Nat := 0x0E
abbrev RX_ADDR_P5 : Nat := 0x0F
abbrev TX_ADDR : Nat := 0x10
abbrev RX_PW_P0 : Nat := 0x11
abbrev RX_PW_P1 : Nat := 0x12
abbrev RX_PW_P2 : Nat := 0x13
abbrev RX_PW_P3 : Nat := 0x14
abbrev RX_PW_P4 : Nat := 0x15
abbrev RX_PW_P5 : Nat := 0x16
abbrev FIFO_STATUS : Nat := 0x17
abbrev DYNPD : Nat := 0x1C
abbrev FEATURE : Nat := 0x1D

/-! ## Platform: bus lines, byte exchange, delays -/

/-- One observable event on the pins of the microcontroller. -/
inductive BusEvent where
  | csn (level : Bool)
  | ce (level : Bool)
  | spi (mosi miso : Nat)
  | delay_ms (n : Nat)
  | delay_us (n : Nat)
deriving DecidableEq, Repr

/-- The radio chip as seen from the bus: it observes the chip-select line and
answers each byte exchange with a byte.  Nothing is assumed about it. -/
structure Chip (σ : Type) where
  csn : σ → Bool → σ
  exchange : σ → Nat → Nat × σ

/-- Hardware state: the two output lines `CSN` (PORTB.2) and `CE` (PORTB.1),
the chip, and the trace of events so far (oldest first). -/
structure Hw (σ : Type) where
  CSN : Bool
  CE : Bool
  chip : σ
  trace : List BusEvent

/-- Assignment `CSN = v;`. -/
def setCSN {σ : Type} (c : Chip σ) (v : Bool) (hw : Hw σ) : Hw σ :=
  { hw with CSN := v, chip := c.csn hw.chip v, trace := hw.trace ++ [BusEvent.csn v] }

/-- Assignment `CE = v;`. -/
def setCE {σ : Type} (v : Bool) (hw : Hw σ) : Hw σ :=
  { hw with CE := v, trace := hw.trace ++ [BusEvent.ce v] }

/-- Library call `spi(b)`: sends `b`, returns the byte shifted in. -/
def spi {σ : Type} (c : Chip σ) (b : Nat) (hw : Hw σ) : Nat × Hw σ :=
  let r := c.exchange hw.chip b
  (r.1 % 256, { hw with chip := r.2, trace := hw.trace ++ [BusEvent.spi b (r.1 % 256)] })

/-- Library call `delay_ms(n)`. -/
def delay_ms {σ : Type} (n : Nat) (hw : Hw σ) : Hw σ :=
  { hw with trace := hw.trace ++ [BusEvent.delay_ms n] }

/-- Library call `delay_us(n)`. -/
def delay_us {σ : Type} (n : Nat) (hw : Hw σ) : Hw σ :=
  { hw with trace := hw.trace ++ [BusEvent.delay_us n] }

/-! ## `writeCommand` -/

/-- Reduction of an integer to the 16-bit signed range of `int`. -/
def wrap16 (x : Int) : Int := (x + 32768) % 65536 - 32768

/-- Number of iterations of `for(i=size-1; i>=0; i--)`: the start value
`size-1` is a 16-bit `int`, the loop runs for `i = size-1, ..., 0`. -/
def loopCount (size : Int) : Nat := (wrap16 (size - 1) + 1).toNat

/-- Loop body `data[i] = spi(NOP);` for `i = k-1` down to `0`. -/
def readLoop {σ : Type} (c : Chip σ) : Nat → List Nat → Hw σ → List Nat × Hw σ
  | 0, data, hw => (data, hw)
  | i + 1, data, hw =>
    let r := spi c NOP hw
    readLoop c i (data.set i r.1) r.2

/-- Loop body `spi(data[i]);` for `i = k-1` down to `0`. -/
def writeLoop {σ : Type} (c : Chip σ) : Nat → List Nat → Hw σ → Hw σ
  | 0, _, hw => hw
  | i + 1, data, hw => writeLoop c i data (spi c (data.getD i 0) hw).2

/-- What `writeCommand` leaves behind: the returned struct, the final value of
its local variable `error`, the caller's buffer and the hardware. -/
structure WriteResult (σ : Type) where
  returnValue : WriteAnswer
  error : ErrorCode
  data : List Nat
  hw : Hw σ

/-- Tail of `writeCommand`: `returnValue.status = answer; return returnValue;`.
The local `error` is never copied into `returnValue`. -/
def finish {σ : Type} (answer : Nat) (error : ErrorCode) (data : List Nat) (hw : Hw σ) :
    WriteResult σ :=
  { returnValue := { status := answer, error := none }, error := error, data := data, hw := hw }

/-- Block `CSN=0; answer=spi(ins); data[0] = spi(NOP); CSN=1;`. -/
def readOne {σ : Type} (c : Chip σ) (ins : Nat) (data : List Nat) (hw : Hw σ) : WriteResult σ :=
  let a := spi c ins (setCSN c false hw)
  let d := spi c NOP a.2
  finish a.1 ErrorCode.OK (data.set 0 d.1) (setCSN c true d.2)

/-- Block `CSN=0; answer=spi(ins); spi(data[0]); CSN=1;`. -/
def writeOne {σ : Type} (c : Chip σ) (ins : Nat) (data : List Nat) (hw : Hw σ) : WriteResult σ :=
  let a := spi c ins (setCSN c false hw)
  let d := spi c (data.getD 0 0) a.2
  finish a.1 ErrorCode.OK data (setCSN c true d.2)

/-- Block `CSN=0; answer=spi(ins); for(i=size-1;i>=0;i--) data[i] = spi(NOP); CSN=1;`. -/
def readMany {σ : Type} (c : Chip σ) (ins : Nat) (data : List Nat) (size : Int) (hw : Hw σ) :
    WriteResult σ :=
  let a := spi c ins (setCSN c false hw)
  let d := readLoop c (loopCount size) data a.2
  finish a.1 ErrorCode.OK d.1 (setCSN c true d.2)

/-- Block `CSN=0; answer=spi(ins); for(i=size-1;i>=0;i--) spi(data[i]); CSN=1;`. -/
def writeMany {σ : Type} (c : Chip σ) (ins : Nat) (data : List Nat) (size : Int) (hw : Hw σ) :
    WriteResult σ :=
  let a := spi c ins (setCSN c false hw)
  let h := writeLoop c (loopCount size) data a.2
  finish a.1 ErrorCode.OK data (setCSN c true h)

/-- Block `CSN=0; answer=spi(ins); CSN=1;`. -/
def commandOnly {σ : Type} (c : Chip σ) (ins : Nat) (data : List Nat) (hw : Hw σ) :
    WriteResult σ :=
  let a := spi c ins (setCSN c false hw)
  finish a.1 ErrorCode.OK data (setCSN c true a.2)

/-- Case labels of the first group of `switch(ins&0x1F)` in the read branch. -/
def readSingle : List Nat :=
  [CONFIG, EN_AA, EN_RXADDR, SETUP_AW, SETUP_RETR, RF_CH, RF_SETUP, STATUS, OBSERVE_TX, RPD,
   RX_ADDR_P2, RX_ADDR_P3, RX_ADDR_P4, RX_ADDR_P5, RX_PW_P0, RX_PW_P1, RX_PW_P2, RX_PW_P3,
   RX_PW_P4, RX_PW_P5, FIFO_STATUS, DYNPD, FEATURE]

/-- Case labels of the first group of `switch(ins&0x1F)` in the write branch. -/
def writeSingle : List Nat :=
  [CONFIG, EN_AA, EN_RXADDR, SETUP_AW, SETUP_RETR, RF_CH, RF_SETUP, STATUS,
   RX_ADDR_P2, RX_ADDR_P3, RX_ADDR_P4, RX_ADDR_P5, RX_PW_P0, RX_PW_P1, RX_PW_P2, RX_PW_P3,
   RX_PW_P4, RX_PW_P5, FIFO_STATUS, DYNPD, FEATURE]

/-- Case labels `RX_ADDR_P0`, `RX_ADDR_P1`, `TX_ADDR` (both branches). -/
def addressRegs : List Nat := [RX_ADDR_P0, RX_ADDR_P1, TX_ADDR]

/-- Function `WriteAnswer writeCommand(unsigned char ins, char* data, int size)`.
The initial values are `answer = 0` and `error = OK`; a rejected call leaves
both the buffer and the hardware alone. -/
def writeCommand {σ : Type} (c : Chip σ) (ins : Nat) (data : List Nat) (size : Int) (hw : Hw σ) :
    WriteResult σ :=
  if ins &&& 0xE0 = R_REGISTER then
    if ins &&& 0x1F ∈ readSingle then
      if size = 1 then readOne c ins data hw
      else finish 0 ErrorCode.PARAMETER_ERROR data hw
    else if ins &&& 0x1F ∈ addressRegs then
      if size ≤ 5 then readMany c ins data size hw
      else finish 0 ErrorCode.PARAMETER_ERROR data hw
    else finish 0 ErrorCode.UNKNOWN_COMMAND data hw
  else if ins &&& 0xE0 = W_REGISTER then
    if ins &&& 0x1F ∈ writeSingle then
      if size = 1 then writeOne c ins data hw
      else finish 0 ErrorCode.PARAMETER_ERROR data hw
    else if ins &&& 0x1F ∈ [OBSERVE_TX, RPD] then
      finish 0 ErrorCode.BAD_COMMAND data hw
    else if ins &&& 0x1F ∈ addressRegs then
      if size ≤ 5 then writeMany c ins data size hw
      else finish 0 ErrorCode.PARAMETER_ERROR data hw
    else finish 0 ErrorCode.UNKNOWN_COMMAND data hw
  else if ins &&& 0xE0 = W_ACK_PAYLOAD then
    if size ≤ 32 then writeMany c ins data size hw
    else finish 0 ErrorCode.PARAMETER_ERROR data hw
  else
    if ins = R_RX_PAYLOAD then
      if size ≤ 32 then readMany c ins data size hw
      else finish 0 ErrorCode.PARAMETER_ERROR data hw
    else if ins ∈ [W_TX_PAYLOAD, W_TX_PAYLOAD_NOACK] then
      if size ≤ 32 then writeMany c ins data size hw
      else finish 0 ErrorCode.PARAMETER_ERROR data hw
    else if ins ∈ [FLUSH_TX, FLUSH_RX, REUSE_TX_PL, NOP] then
      if size = 0 then commandOnly c ins data hw
      else finish 0 ErrorCode.PARAMETER_ERROR data hw
    else if ins = ACTIVATE then
      if size = 1 then writeOne c ins data hw
      else finish 0 ErrorCode.PARAMETER_ERROR data hw
    else if ins = R_RX_PL_WID then
      if size = 1 then readOne c ins data hw
      else finish 0 ErrorCode.PARAMETER_ERROR data hw
    else finish 0 ErrorCode.UNKNOWN_COMMAND data hw

/-! ## Driver state (private variables of `nRF24L01p.c`) -/

/-- Data rate: `typedef enum {NRF24_250Kbps, NRF24_1Mbps, NRF24_2Mbps} NRF24_BaudRate;` -/
inductive NRF24_BaudRate where
  | NRF24_250Kbps
  | NRF24_1Mbps
  | NRF24_2Mbps
deriving DecidableEq, Repr

/-- Address width: `typedef enum {NRF24_3Byte, NRF24_4Byte, NRF24_5Byte} NRF24_AddressWidth;` -/
inductive NRF24_AddressWidth where
  | NRF24_3Byte
  | NRF24_4Byte
  | NRF24_5Byte
deriving DecidableEq, Repr

/-- Power amplifier level: `typedef enum {NRF24_m18dBm, NRF24_m12dBm, NRF24_m6dBm, NRF24_0dBm} NRF24_TXPower;` -/
inductive NRF24_TXPower where
  | NRF24_m18dBm
  | NRF24_m12dBm
  | NRF24_m6dBm
  | NRF24_0dBm
deriving DecidableEq, Repr

/-- The global variables `Base_Addrs[5]`, `Temp_Addrs[5]`, `payload[33]`,
`receiveBytesAvailable`, `operationMode`, together with the hardware. -/
structure Driver (σ : Type) where
  Base_Addrs : List Nat
  Temp_Addrs : List Nat
  payload : List Nat
  receiveBytesAvailable : Nat
  operationMode : Mode
  hw : Hw σ

/-- State at program start: the initialisers of the globals (zero for the
globals without one). -/
def Driver.init {σ : Type} (hw : Hw σ) : Driver σ :=
  { Base_Addrs := [0x00, 0x01, 0x03, 0x07, 0x00]
    Temp_Addrs := [0x00, 0x01, 0x03, 0x07, 0x00]
    payload := List.replicate 33 0
    receiveBytesAvailable := 0
    operationMode := Mode.NRF24_TRANSMITTER
    hw := hw }

/-! ## Initialization and configuration functions

Each setter declares `char data[1];` and fills it by a register read before
using it; the embedding starts the local at `[0]`. -/

/-- Function `void setMode(Mode m)`. -/
def setMode {σ : Type} (c : Chip σ) (m : Mode) (s : Driver σ) : Driver σ :=
  let r := writeCommand c (R_REGISTER + CONFIG) [0] 1 s.hw
  let d := r.data.getD 0 0
  let d1 := if m = Mode.NRF24_TRANSMITTER then d &&& 0xFE
            else if m = Mode.NRF24_RECEIVER then d ||| 0x01 else d
  let w := writeCommand c (W_REGISTER + CONFIG) (r.data.set 0 d1) 1 r.hw
  { s with hw := w.hw }

/-- Function `void setCRCScheme(unsigned char num)`. -/
def setCRCScheme {σ : Type} (c : Chip σ) (num : Nat) (s : Driver σ) : Driver σ :=
  let r := writeCommand c (R_REGISTER + CONFIG) [0] 1 s.hw
  let d := r.data.getD 0 0
  let d1 := if num = 0 then d &&& 0xF7
            else if num = 1 then (d ||| 0x08) &&& 0xFB
            else if num = 2 then (d ||| 0x08) ||| 0x04
            else d
  let w := writeCommand c (W_REGISTER + CONFIG) (r.data.set 0 d1) 1 r.hw
  { s with hw := w.hw }

/-- Function `void setPowerUp()`. -/
def setPowerUp {σ : Type} (c : Chip σ) (s : Driver σ) : Driver σ :=
  let r := writeCommand c (R_REGISTER + CONFIG) [0] 1 s.hw
  let d1 := r.data.getD 0 0 ||| 0x02
  let w := writeCommand c (W_REGISTER + CONFIG) (r.data.set 0 d1) 1 r.hw
  { s with hw := w.hw }

/-- Function `void setPowerDown()`. -/
def setPowerDown {σ : Type} (c : Chip σ) (s : Driver σ) : Driver σ :=
  let r := writeCommand c (R_REGISTER + CONFIG) [0] 1 s.hw
  let d1 := r.data.getD 0 0 &&& 0xFD
  let w := writeCommand c (W_REGISTER + CONFIG) (r.data.set 0 d1) 1 r.hw
  { s with hw := w.hw }

/-- Function `void setBaudRate(NRF24_BaudRate br)`. -/
def setBaudRate {σ : Type} (c : Chip σ) (br : NRF24_BaudRate) (s : Driver σ) : Driver σ :=
  let r := writeCommand c (R_REGISTER + RF_SETUP) [0] 1 s.hw
  let d := r.data.getD 0 0
  let d1 := match br with
    | NRF24_BaudRate.NRF24_250Kbps => (d ||| 0x20) &&& 0xF7
    | NRF24_BaudRate.NRF24_1Mbps => (d &&& 0xDF) &&& 0xF7
    | NRF24_BaudRate.NRF24_2Mbps => (d &&& 0xDF) ||| 0x08
  let w := writeCommand c (W_REGISTER + RF_SETUP) (r.data.set 0 d1) 1 r.hw
  { s with hw := w.hw }

/-- Function `void setAutoAck(bool param)`. -/
def setAutoAck {σ : Type} (c : Chip σ) (param : Bool) (s : Driver σ) : Driver σ :=
  let r := writeCommand c (R_REGISTER + EN_AA) [0] 1 s.hw
  let d := r.data.getD 0 0
  let d1 := if param = true then d ||| 0x01 else d &&& 0xFE
  let w := writeCommand c (W_REGISTER + EN_AA) (r.data.set 0 d1) 1 r.hw
  { s with hw := w.hw }

/-- Function `void enableRxDataPipe(bool param)`. -/
def enableRxDataPipe {σ : Type} (c : Chip σ) (param : Bool) (s : Driver σ) : Driver σ :=
  let r := writeCommand c (R_REGISTER + EN_RXADDR) [0] 1 s.hw
  let d := r.data.getD 0 0
  let d1 := if param = true then d ||| 0x01 else d &&& 0xFE
  let w := writeCommand c (W_REGISTER + EN_RXADDR) (r.data.set 0 d1) 1 r.hw
  { s with hw := w.hw }

/-- Function `void setAddressWidth(NRF24_AddressWidth aw)`. -/
def setAddressWidth {σ : Type} (c : Chip σ) (aw : NRF24_AddressWidth) (s : Driver σ) :
    Driver σ :=
  let r := writeCommand c (R_REGISTER + SETUP_AW) [0] 1 s.hw
  let d := r.data.getD 0 0
  let d1 := match aw with
    | NRF24_AddressWidth.NRF24_3Byte => (d ||| 0x01) &&& 0xFD
    | NRF24_AddressWidth.NRF24_4Byte => (d &&& 0xFE) ||| 0x02
    | NRF24_AddressWidth.NRF24_5Byte => d ||| 0x03
  let w := writeCommand c (W_REGISTER + SETUP_AW) (r.data.set 0 d1) 1 r.hw
  { s with hw := w.hw }

/-- Function `void serRFChannel(unsigned char ch)`. -/
def serRFChannel {σ : Type} (c : Chip σ) (ch : Nat) (s : Driver σ) : Driver σ :=
  if ch ≤ 125 then
    let w := writeCommand c (W_REGISTER + RF_CH) [ch] 1 s.hw
    { s with hw := w.hw }
  else s

/-- Function `void setTXPower(NRF24_TXPower power)`. -/
def setTXPower {σ : Type} (c : Chip σ) (power : NRF24_TXPower) (s : Driver σ) : Driver σ :=
  let r := writeCommand c (R_REGISTER + RF_SETUP) [0] 1 s.hw
  let d := r.data.getD 0 0
  let d1 := match power with
    | NRF24_TXPower.NRF24_m18dBm => d &&& 0xF9
    | NRF24_TXPower.NRF24_m12dBm => (d ||| 0x02) &&& 0xFB
    | NRF24_TXPower.NRF24_m6dBm => (d &&& 0xFD) ||| 0x04
    | NRF24_TXPower.NRF24_0dBm => d ||| 0x06
  let w := writeCommand c (W_REGISTER + RF_SETUP) (r.data.set 0 d1) 1 r.hw
  { s with hw := w.hw }

/-- Function `void setDynamicPayloadLength(bool param)`: both registers are
written from `data[0] = 0`, the register reads are commented out in the source. -/
def setDynamicPayloadLength {σ : Type} (c : Chip σ) (param : Bool) (s : Driver σ) : Driver σ :=
  let d1 := (if param = true then 0 ||| 0x01 else 0 &&& 0xFE) &&& 0x3F
  let w1 := writeCommand c (W_REGISTER + DYNPD) [d1] 1 s.hw
  let d2 := (if param = true then 0 ||| 0x04 else 0 &&& 0xFB) &&& 0x07
  let w2 := writeCommand c (W_REGISTER + FEATURE) (w1.data.set 0 d2) 1 w1.hw
  { s with hw := w2.hw }

/-- Function `void setInterruptMask(bool RX_DR, bool TX_DS, bool MAX_RT)`. -/
def setInterruptMask {σ : Type} (c : Chip σ) (RX_DR TX_DS MAX_RT : Bool) (s : Driver σ) :
    Driver σ :=
  let r := writeCommand c (R_REGISTER + CONFIG) [0] 1 s.hw
  let d := r.data.getD 0 0
  let d1 := if RX_DR = true then d &&& 0xBF else d ||| 0x40
  let d2 := if TX_DS = true then d1 &&& 0xDF else d1 ||| 0x20
  let d3 := if MAX_RT = true then d2 &&& 0xEF else d2 ||| 0x10
  let w := writeCommand c (W_REGISTER + CONFIG) (r.data.set 0 d3) 1 r.hw
  { s with hw := w.hw }

/-- Function `void clearInterruptFlag(bool RX_DR, bool TX_DS, bool MAX_RT)`. -/
def clearInterruptFlag {σ : Type} (c : Chip σ) (RX_DR TX_DS MAX_RT : Bool) (s : Driver σ) :
    Driver σ :=
  let d0 : Nat := 0
  let d1 := if RX_DR = true then d0 ||| 0x40 else d0
  let d2 := if TX_DS = true then d1 ||| 0x20 else d1
  let d3 := if MAX_RT = true then d2 ||| 0x10 else d2
  let w := writeCommand c (W_REGISTER + STATUS) [d3] 1 s.hw
  { s with hw := w.hw }

/-- Function `void nRF_Config(Mode mode)`. -/
def nRF_Config {σ : Type} (c : Chip σ) (mode : Mode) (s : Driver σ) : Driver σ :=
  let s := { s with hw := setCE false (setCSN c true s.hw) }
  let s := { s with hw := delay_ms 110 s.hw }
  let s := { s with operationMode := mode }
  let s := setPowerDown c s
  let s := { s with hw := delay_ms 5 s.hw }
  let s := { s with hw := (writeCommand c (W_REGISTER + STATUS) [0x7E, 0, 0, 0, 0, 0, 0, 0, 0, 0] 1 s.hw).hw }
  let s := { s with hw := (writeCommand c FLUSH_TX [] 0 s.hw).hw }
  let s := { s with hw := (writeCommand c FLUSH_RX [] 0 s.hw).hw }
  let s := setAutoAck c false s
  let s := enableRxDataPipe c true s
  let s := setAddressWidth c NRF24_AddressWidth.NRF24_3Byte s
  let s := serRFChannel c 1 s
  let s := setTXPower c NRF24_TXPower.NRF24_0dBm s
  let s := setBaudRate c NRF24_BaudRate.NRF24_1Mbps s
  let w1 := writeCommand c (W_REGISTER + RX_ADDR_P0) s.Base_Addrs 5 s.hw
  let s := { s with Base_Addrs := w1.data, hw := w1.hw }
  let w2 := writeCommand c (W_REGISTER + TX_ADDR) s.Base_Addrs 5 s.hw
  let s := { s with Base_Addrs := w2.data, hw := w2.hw }
  let s := setDynamicPayloadLength c true s
  let s := setCRCScheme c 2 s
  if mode = Mode.NRF24_TRANSMITTER then
    let s := setInterruptMask c false true true s
    let s := setMode c Mode.NRF24_TRANSMITTER s
    let s := setPowerUp c s
    { s with hw := delay_ms 100 s.hw }
  else if mode = Mode.NRF24_RECEIVER then
    let s := setInterruptMask c true false false s
    let s := setMode c Mode.NRF24_RECEIVER s
    let s := setPowerUp c s
    let s := { s with hw := delay_ms 5 s.hw }
    { s with hw := setCE true s.hw }
  else s

/-! ## Input and output operation functions -/

/-- Function `void sendData(char *data, int size)`.  The buffer is only read
from (the opcode is `W_TX_PAYLOAD`), so only the driver state is returned. -/
def sendData {σ : Type} (c : Chip σ) (data : List Nat) (size : Int) (s : Driver σ) : Driver σ :=
  if s.Temp_Addrs.getD 4 0 = s.Base_Addrs.getD 4 0 ∧ s.Temp_Addrs.getD 3 0 = s.Base_Addrs.getD 3 0
      ∧ s.Temp_Addrs.getD 2 0 = s.Base_Addrs.getD 2 0 ∧ s.Temp_Addrs.getD 1 0 = s.Base_Addrs.getD 1 0
      ∧ s.Temp_Addrs.getD 0 0 = s.Base_Addrs.getD 0 0 then
    let w1 := writeCommand c FLUSH_TX [] 0 s.hw
    let w2 := writeCommand c W_TX_PAYLOAD data size w1.hw
    let hw3 := setCE true w2.hw
    let hw4 := delay_us (15 + 130) hw3
    { s with hw := setCE false hw4 }
  else s

/-- Function `unsigned char bytesAvailable()`. -/
def bytesAvailable {σ : Type} (s : Driver σ) : Nat := s.receiveBytesAvailable

/-- Library call `memcpy(dst, src, n)`: bytes `0 .. n-1` of `src` go to the
same indices of `dst`. -/
def memcpy (dst src : List Nat) : Nat → List Nat
  | 0 => dst
  | n + 1 => (memcpy dst src n).set n (src.getD n 0)

/-- Function `void readRxFIFO(char* data, unsigned char size)`: returns the
caller's buffer and the driver state.  The body does not use `size`. -/
def readRxFIFO {σ : Type} (data : List Nat) (size : Nat) (s : Driver σ) : List Nat × Driver σ :=
  (memcpy data s.payload s.receiveBytesAvailable, { s with receiveBytesAvailable := 0 })

/-- Function `unsigned char getStatus()`: `return writeCommand(NOP, NULL, 0).status;`. -/
def getStatus {σ : Type} (c : Chip σ) (s : Driver σ) : Nat × Driver σ :=
  let w := writeCommand c NOP [] 0 s.hw
  (w.returnValue.status, { s with hw := w.hw })

/-! ## Interrupt functions -/

/-- Interrupt service routine `pin_change_isr0`; `IRQ` is the level of the
interrupt pin (PINB.0) read by the handler, `dataTemp` its zeroed 32 byte local. -/
def pin_change_isr0 {σ : Type} (c : Chip σ) (IRQ : Bool) (s : Driver σ) : Driver σ :=
  let dataTemp : List Nat := List.replicate 32 0
  if IRQ = false then
    let s1 : Driver σ :=
      if s.operationMode = Mode.NRF24_TRANSMITTER then
        let st := getStatus c s
        if st.1 &&& W_REGISTER ≠ 0 then
          let r1 := writeCommand c (R_REGISTER + FIFO_STATUS) dataTemp 1 st.2.hw
          if r1.data.getD 0 0 &&& 0x01 = 0 then
            let r2 := writeCommand c R_RX_PL_WID r1.data 1 r1.hw
            if r2.data.getD 0 0 ≤ 32 then
              { st.2 with receiveBytesAvailable := r2.data.getD 0 0, hw := r2.hw }
            else
              let r3 := writeCommand c FLUSH_RX [] 0 r2.hw
              { st.2 with receiveBytesAvailable := 0, hw := r3.hw }
          else { st.2 with hw := r1.hw }
        else st.2
      else if s.operationMode = Mode.NRF24_RECEIVER then
        let r1 := writeCommand c R_RX_PL_WID dataTemp 1 s.hw
        if r1.data.getD 0 0 ≤ 32 ∧ s.receiveBytesAvailable = 0 then
          let n := r1.data.getD 0 0
          let r2 := writeCommand c R_RX_PAYLOAD s.payload (n : Int) r1.hw
          { s with receiveBytesAvailable := n, payload := r2.data, hw := r2.hw }
        else
          let r2 := writeCommand c FLUSH_RX [] 0 r1.hw
          { s with receiveBytesAvailable := 0, hw := r2.hw }
      else s
    let s2 := clearInterruptFlag c true true true s1
    let w := writeCommand c FLUSH_TX [] 0 s2.hw
    { s2 with hw := w.hw }
  else s

/-! ## Example chips and states -/

/-- A chip that answers the successive byte exchanges with the bytes of a
given list (and with 0 once the list is used up). -/
def scriptChip : Chip (List Nat) where
  csn := fun s _ => s
  exchange := fun s _ => (s.headD 0, s.tail)

/-- Hardware at rest: chip deselected, chip-enable low, no event yet. -/
def idle {σ : Type} (chip : σ) : Hw σ :=
  { CSN := true, CE := false, chip := chip, trace := [] }

/-- A receiver with an empty mailbox in front of a chip that reports a 3 byte
packet and delivers the bytes 3, 2, 1 on the wire. -/
def emptyReceiver : Driver (List Nat) :=
  { Driver.init (idle [14, 3, 14, 3, 2, 1, 14, 14, 14]) with
    operationMode := Mode.NRF24_RECEIVER }

/-- A receiver with an empty mailbox in front of a chip that reports a payload
width of 200. -/
def oversizeReceiver : Driver (List Nat) :=
  { Driver.init (idle [14, 200, 14, 14, 14, 14]) with
    operationMode := Mode.NRF24_RECEIVER }

/-- A receiver whose mailbox holds an unread 5 byte packet, facing a chip that
reports a 3 byte packet at the first interrupt and delivers the 2 byte
packet 21, 22 at the second. -/
def occupiedReceiver : Driver (List Nat) :=
  { Driver.init (idle [14, 3, 14, 14, 14, 14, 14, 2, 14, 22, 21, 14, 14, 14]) with
    operationMode := Mode.NRF24_RECEIVER
    payload := [1, 2, 3, 4, 5] ++ List.replicate 28 0
    receiveBytesAvailable := 5 }

/-! ## Validation outcome of `writeCommand` as a function of opcode and length -/

/-- The length rules `writeCommand` applies, one per `if` on `size` in its
body, plus the two outcomes that do not look at `size`. -/
inductive SizeRule where
  | one
  | atMost5
  | atMost32
  | zero
  | bad
  | unknown
deriving DecidableEq, Repr

/-- The rule `writeCommand` reaches for an opcode: the same tests on `ins`, in
the same order, as in `writeCommand`. -/
def sizeRule (ins : Nat) : SizeRule :=
  if ins &&& 0xE0 = R_REGISTER then
    if ins &&& 0x1F ∈ readSingle then SizeRule.one
    else if ins &&& 0x1F ∈ addressRegs then SizeRule.atMost5
    else SizeRule.unknown
  else if ins &&& 0xE0 = W_REGISTER then
    if ins &&& 0x1F ∈ writeSingle then SizeRule.one
    else if ins &&& 0x1F ∈ [OBSERVE_TX, RPD] then SizeRule.bad
    else if ins &&& 0x1F ∈ addressRegs then SizeRule.atMost5
    else SizeRule.unknown
  else if ins &&& 0xE0 = W_ACK_PAYLOAD then SizeRule.atMost32
  else
    if ins = R_RX_PAYLOAD then SizeRule.atMost32
    else if ins ∈ [W_TX_PAYLOAD, W_TX_PAYLOAD_NOACK] then SizeRule.atMost32
    else if ins ∈ [FLUSH_TX, FLUSH_RX, REUSE_TX_PL, NOP] then SizeRule.zero
    else if ins = ACTIVATE then SizeRule.one
    else if ins = R_RX_PL_WID then SizeRule.one
    else SizeRule.unknown

/-- Final value of the local `error` under a rule. -/
def outcome : SizeRule → Int → ErrorCode
  | SizeRule.one, size => if size = 1 then ErrorCode.OK else ErrorCode.PARAMETER_ERROR
  | SizeRule.atMost5, size => if size ≤ 5 then ErrorCode.OK else ErrorCode.PARAMETER_ERROR
  | SizeRule.atMost32, size => if size ≤ 32 then ErrorCode.OK else ErrorCode.PARAMETER_ERROR
  | SizeRule.zero, size => if size = 0 then ErrorCode.OK else ErrorCode.PARAMETER_ERROR
  | SizeRule.bad, _ => ErrorCode.BAD_COMMAND
  | SizeRule.unknown, _ => ErrorCode.UNKNOWN_COMMAND

/-! ## The size-validation table of the specification -/

/-- The four command classes of the size-validation table that carry a length rule. -/
inductive CmdClass where
  | singleByte
  | address
  | payload
  | control
deriving DecidableEq, Repr

/-- Register addresses `0x00-0x07, 0x0C-0x0F, 0x11-0x17, 0x1C, 0x1D`. -/
def singleByteAddrs : List Nat :=
  List.range' 0x00 8 ++ List.range' 0x0C 4 ++ List.range' 0x11 7 ++ [0x1C, 0x1D]

/-- Opcodes of a class: single-byte registers (read `0x00|a`, write `0x20|a`,
plus the reads of `0x08` and `0x09`), address registers (read or write of
`0x0A`, `0x0B`, `0x10`), payload commands, control-only commands. -/
def CmdClass.opcodes : CmdClass → List Nat
  | CmdClass.singleByte =>
      singleByteAddrs.map (fun a => 0x00 ||| a) ++ singleByteAddrs.map (fun a => 0x20 ||| a)
        ++ [0x08, 0x09]
  | CmdClass.address => [0x0A, 0x0B, 0x10, 0x2A, 0x2B, 0x30]
  | CmdClass.payload => [0x61, 0xA0]
  | CmdClass.control => [0xE1, 0xE2, 0xE3, 0xFF]

/-- Length rule of a class, as a test. -/
def CmdClass.rule : CmdClass → Int → Bool
  | CmdClass.singleByte, n => decide (n = 1)
  | CmdClass.address, n => decide (n ≤ 5)
  | CmdClass.payload, n => decide (n ≤ 32)
  | CmdClass.control, n => decide (n = 0)

/-- The rule `writeCommand` is expected to reach for a class. -/
def CmdClass.sizeRule : CmdClass → SizeRule
  | CmdClass.singleByte => SizeRule.one
  | CmdClass.address => SizeRule.atMost5
  | CmdClass.payload => SizeRule.atMost32
  | CmdClass.control => SizeRule.zero

/-- The recognised opcode map: every register read or write whose 5-bit
address is not `0x18-0x1B`, `0x1E`, `0x1F`, and the non-register opcodes
`R_RX_PAYLOAD`, `W_TX_PAYLOAD`, `W_TX_PAYLOAD_NOACK`, `0xA8-0xAF`, `FLUSH_TX`,
`FLUSH_RX`, `REUSE_TX_PL`, `NOP`, `ACTIVATE`, `R_RX_PL_WID`. -/
def inRecognisedMap (ins : Nat) : Bool :=
  if ins < 0x40 then !decide (ins &&& 0x1F ∈ [0x18, 0x19, 0x1A, 0x1B, 0x1E, 0x1F])
  else decide (ins ∈ [R_RX_PAYLOAD, W_TX_PAYLOAD, W_TX_PAYLOAD_NOACK, 0xA8, 0xA9, 0xAA, 0xAB,
    0xAC, 0xAD, 0xAE, 0xAF, FLUSH_TX, FLUSH_RX, REUSE_TX_PL, NOP, ACTIVATE, R_RX_PL_WID])

/-! ## Observations on traces -/

/-- Events of the trace `after` that were appended to the trace `before`. -/
def newEvents (before after : List BusEvent) : List BusEvent := after.drop before.length

/-- Scan of a trace for bus transactions; the first argument is the list of
bytes sent so far in the open transaction, if chip-select is low. -/
def transactionsFrom : Option (List Nat) → List BusEvent → List (List Nat)
  | _, [] => []
  | _, BusEvent.csn false :: t => transactionsFrom (some []) t
  | some x, BusEvent.csn true :: t => x :: transactionsFrom none t
  | none, BusEvent.csn true :: t => transactionsFrom none t
  | some x, BusEvent.spi m _ :: t => transactionsFrom (some (x ++ [m])) t
  | none, BusEvent.spi _ _ :: t => transactionsFrom none t
  | cur, BusEvent.ce _ :: t => transactionsFrom cur t
  | cur, BusEvent.delay_ms _ :: t => transactionsFrom cur t
  | cur, BusEvent.delay_us _ :: t => transactionsFrom cur t

/-- The bus transactions of a trace, oldest first: for each stretch from a
chip-select falling edge to the next rising edge, the bytes the driver sent
(opcode first). -/
def transactions (tr : List BusEvent) : List (List Nat) := transactionsFrom none tr

/-- The payload width the chip reports if an `R_RX_PL_WID` transaction starts
in hardware state `hw`: the byte that transaction leaves in `data[0]`. -/
def reportedWidth {σ : Type} (c : Chip σ) (hw : Hw σ) : Nat :=
  (writeCommand c R_RX_PL_WID [0] 1 hw).data.getD 0 0

/-- Bytes the loop `for(i=k-1;i>=0;i--) spi(data[i]);` puts on the wire, in
wire order: `data[k-1], ..., data[0]`. -/
def wireBytes (k : Nat) (data : List Nat) : List Nat :=
  (List.range k).reverse.map (fun i => data.getD i 0)

/-- The trace `after` extends the trace `before` by events that make up
exactly the transactions `txns` (listed by the bytes sent), with chip-select
released at the end. -/
def Emits (before after : List BusEvent) (txns : List (List Nat)) : Prop :=
  ∃ evs, after = before ++ evs ∧
    ∀ rest, transactionsFrom none (evs ++ rest) = txns ++ transactionsFrom none rest

/-! ## What the chip reports -/

/-- The value of register `reg` the chip reports if a register read starts in
hardware state `hw`: the byte that read leaves in `data[0]`. -/
def reportedRegister {σ : Type} (c : Chip σ) (reg : Nat) (hw : Hw σ) : Nat :=
  (writeCommand c (R_REGISTER + reg) [0] 1 hw).data.getD 0 0

/-- The byte the chip shifts out while the opcode `ins` is exchanged, when a
transaction starts in hardware state `hw`. -/
def opcodeAnswer {σ : Type} (c : Chip σ) (ins : Nat) (hw : Hw σ) : Nat :=
  (spi c ins (setCSN c false hw)).1

/-- `w` and `v` agree on every bit whose position is not listed in `field`. -/
def AgreeOutside (field : List Nat) (w v : Nat) : Prop :=
  ∀ i, i ∉ field → w.testBit i = v.testBit i

/-- A driver call (from `s` to `t`) performs a read-modify-write of register
`reg`: its transactions are one read of `reg` and one write of `reg`, and the
value written agrees with the value read on every bit outside `field`. -/
def ReadModifyWrite {σ : Type} (c : Chip σ) (reg : Nat) (field : List Nat) (s t : Driver σ) :
    Prop :=
  ∃ w, transactions (newEvents s.hw.trace t.hw.trace)
      = [[R_REGISTER + reg, NOP], [W_REGISTER + reg, w]]
    ∧ AgreeOutside field w (reportedRegister c reg s.hw)

/-- Test on the bytes `0..255`: `f v` is again a byte and agrees with `v` on
each of the bits `0..7` that is not listed in `field`. -/
def byteAgree (field : List Nat) (f : Nat → Nat) : Prop :=
  ∀ v, v < 256 → f v < 256 ∧ ∀ i, i < 8 → i ∉ field → (f v).testBit i = v.testBit i

instance (field : List Nat) (f : Nat → Nat) : Decidable (byteAgree field f) := by
  unfold byteAgree
  infer_instance

/-! ## Shape of one bus transaction -/

/-- Opcodes whose data bytes travel from the chip into the buffer: the register
reads, `R_RX_PAYLOAD` and `R_RX_PL_WID`. -/
def isReadOpcode (ins : Nat) : Bool :=
  decide (ins &&& 0xE0 = R_REGISTER) || decide (ins = R_RX_PAYLOAD) || decide (ins = R_RX_PL_WID)

/-- The call that led from `hw` to `r` performed one transaction with opcode
`ins` and `k` data bytes on buffer `b`: chip-select falls, the opcode is
exchanged (the byte received then is the returned status), `k` data bytes are
exchanged, chip-select rises and is high on return.  For a write (`rd = false`)
the bytes sent are `b[k-1], ..., b[0]` and the buffer is unchanged; for a read
(`rd = true`) the bytes sent are `NOP` and, if the buffer has `k` bytes, the
`j`-th byte received is stored in `b[k-j]`. -/
def TransactionShape {σ : Type} (c : Chip σ) (ins : Nat) (b : List Nat) (k : Nat) (rd : Bool)
    (hw : Hw σ) (r : WriteResult σ) : Prop :=
  ∃ miso : List Nat, miso.length = k
    ∧ r.hw.trace = hw.trace ++ BusEvent.csn false :: BusEvent.spi ins (opcodeAnswer c ins hw)
        :: (List.zipWith BusEvent.spi (if rd = true then List.replicate k NOP else wireBytes k b)
              miso ++ [BusEvent.csn true])
    ∧ r.hw.CSN = true
    ∧ r.returnValue.status = opcodeAnswer c ins hw
    ∧ (rd = false → r.data = b)
    ∧ (rd = true → k ≤ b.length →
        ∀ j, 1 ≤ j → j ≤ k → r.data.getD (k - j) 0 = miso.getD (j - 1) 0)

/-! ## A simulated chip that stores register writes -/

/-- Where the simulated chip stands inside a transaction: waiting for the
opcode, waiting for the data byte of a register command, or ignoring the rest
of the transaction. -/
inductive RegPhase where
  | opcode
  | data (ins : Nat)
  | ignore
deriving DecidableEq, Repr

/-- State of the simulated chip: its register file and its phase. -/
structure RegChip where
  regs : Nat → Nat
  phase : RegPhase

/-- A simulated chip that stores register writes.  Every edge of chip-select
starts afresh; the first byte of a transaction is the opcode and is answered
with the STATUS register; the next byte of a register read is answered with the
register, the next byte of a register write is stored in the register; all
other bytes are ignored and answered with 0. -/
def regChip : Chip RegChip where
  csn := fun st _ => { st with phase := RegPhase.opcode }
  exchange := fun st b =>
    match st.phase with
    | RegPhase.opcode =>
      (st.regs STATUS,
        { st with phase := if b &&& 0xE0 = R_REGISTER ∨ b &&& 0xE0 = W_REGISTER
                           then RegPhase.data b else RegPhase.ignore })
    | RegPhase.data ins =>
      if ins &&& 0xE0 = R_REGISTER then
        (st.regs (ins &&& 0x1F), { st with phase := RegPhase.ignore })
      else
        (0, { regs := fun r => if r = ins &&& 0x1F then b else st.regs r,
              phase := RegPhase.ignore })
    | RegPhase.ignore => (0, st)

/-- A simulated chip at rest with the given register file. -/
def regChipWith (regs : Nat → Nat) : Hw RegChip :=
  idle { regs := regs, phase := RegPhase.opcode }

/-- Encoding of an address width in the low two bits of SETUP_AW: `01` for 3
bytes, `10` for 4 bytes, `11` for 5 bytes. -/
def NRF24_AddressWidth.encoding : NRF24_AddressWidth → Nat
  | NRF24_AddressWidth.NRF24_3Byte => 0b01
  | NRF24_AddressWidth.NRF24_4Byte => 0b10
  | NRF24_AddressWidth.NRF24_5Byte => 0b11

/-- The hardware state in which the handler reads FIFO_STATUS: after the `NOP`
transaction of `getStatus`. -/
def hwAfterStatus {σ : Type} (c : Chip σ) (hw : Hw σ) : Hw σ :=
  (writeCommand c NOP [] 0 hw).hw

/-- The hardware state after a read of register `reg`. -/
def hwAfterRead {σ : Type} (c : Chip σ) (reg : Nat) (hw : Hw σ) : Hw σ :=
  (writeCommand c (R_REGISTER + reg) [0] 1 hw).hw

/-- A transmitter in front of a chip that answers status `0x2E` (data sent),
FIFO_STATUS `0x10` (RX FIFO not empty) and payload width 7. -/
def ackTransmitter : Driver (List Nat) :=
  { Driver.init (idle [0x2E, 14, 0x10, 14, 7, 14, 14, 14, 14]) with
    operationMode := Mode.NRF24_TRANSMITTER }

/-! ## Timeline of a trace: transactions, chip-enable changes and delays -/

/-- One step of a timeline: a delay, a change of chip-enable, or a whole bus
transaction given by the bytes the driver sent (opcode first). -/
inductive Step where
  | delayMs (n : Nat)
  | delayUs (n : Nat)
  | ce (level : Bool)
  | txn (mosi : List Nat)
deriving DecidableEq, Repr

/-- Scan of a trace for its timeline; the first argument is the list of bytes
sent so far in the open transaction, if chip-select is low. -/
def timelineFrom : Option (List Nat) → List BusEvent → List Step
  | _, [] => []
  | _, BusEvent.csn false :: t => timelineFrom (some []) t
  | some x, BusEvent.csn true :: t => Step.txn x :: timelineFrom none t
  | none, BusEvent.csn true :: t => timelineFrom none t
  | some x, BusEvent.spi m _ :: t => timelineFrom (some (x ++ [m])) t
  | none, BusEvent.spi _ _ :: t => timelineFrom none t
  | cur, BusEvent.ce v :: t => Step.ce v :: timelineFrom cur t
  | cur, BusEvent.delay_ms n :: t => Step.delayMs n :: timelineFrom cur t
  | cur, BusEvent.delay_us n :: t => Step.delayUs n :: timelineFrom cur t

/-- The timeline of a trace, oldest first. -/
def timeline (tr : List BusEvent) : List Step := timelineFrom none tr

/-- A step without the values of the data bytes: a transaction is reduced to
its opcode and the number of data bytes that follow it. -/
inductive Outline where
  | delayMs (n : Nat)
  | delayUs (n : Nat)
  | ce (level : Bool)
  | command (ins : Nat) (dataBytes : Nat)
deriving DecidableEq, Repr

/-- The outline of a step. -/
def Step.outline : Step → Outline
  | Step.delayMs n => Outline.delayMs n
  | Step.delayUs n => Outline.delayUs n
  | Step.ce v => Outline.ce v
  | Step.txn mosi => Outline.command (mosi.headD 0) (mosi.length - 1)

/-- The outline of a trace. -/
def outline (tr : List BusEvent) : List Outline := (timeline tr).map Step.outline

/-- The trace `after` extends the trace `before` by events whose timeline is
`steps`, with chip-select released at the end. -/
def Plays (before after : List BusEvent) (steps : List Step) : Prop :=
  ∃ evs, after = before ++ evs ∧
    ∀ rest, timelineFrom none (evs ++ rest) = steps ++ timelineFrom none rest
/-! ## Reachable driver states -/

/-- States the driver can be in: the state at program start, closed under every
exported function (each run against the chip `c`), under the interrupt handler
with either pin level, and under any change of the state of the chip between
two calls. -/
inductive Reachable {σ : Type} (c : Chip σ) : Driver σ → Prop where
  | start (hw : Hw σ) : Reachable c (Driver.init hw)
  | chip (s : Driver σ) (st : σ) : Reachable c s →
      Reachable c { s with hw := { s.hw with chip := st } }
  | config (s : Driver σ) (mode : Mode) : Reachable c s → Reachable c (nRF_Config c mode s)
  | mode (s : Driver σ) (m : Mode) : Reachable c s → Reachable c (setMode c m s)
  | crc (s : Driver σ) (num : Nat) : Reachable c s → Reachable c (setCRCScheme c num s)
  | powerUp (s : Driver σ) : Reachable c s → Reachable c (setPowerUp c s)
  | powerDown (s : Driver σ) : Reachable c s → Reachable c (setPowerDown c s)
  | baudRate (s : Driver σ) (br : NRF24_BaudRate) : Reachable c s →
      Reachable c (setBaudRate c br s)
  | autoAck (s : Driver σ) (param : Bool) : Reachable c s → Reachable c (setAutoAck c param s)
  | rxPipe (s : Driver σ) (param : Bool) : Reachable c s →
      Reachable c (enableRxDataPipe c param s)
  | addressWidth (s : Driver σ) (aw : NRF24_AddressWidth) : Reachable c s →
      Reachable c (setAddressWidth c aw s)
  | channel (s : Driver σ) (ch : Nat) : Reachable c s → Reachable c (serRFChannel c ch s)
  | txPower (s : Driver σ) (power : NRF24_TXPower) : Reachable c s →
      Reachable c (setTXPower c power s)
  | dynamicPayload (s : Driver σ) (param : Bool) : Reachable c s →
      Reachable c (setDynamicPayloadLength c param s)
  | command (s : Driver σ) (ins : Nat) (data : List Nat) (size : Int) : Reachable c s →
      Reachable c { s with hw := (writeCommand c ins data size s.hw).hw }
  | send (s : Driver σ) (data : List Nat) (size : Int) : Reachable c s →
      Reachable c (sendData c data size s)
  | read (s : Driver σ) (data : List Nat) (size : Nat) : Reachable c s →
      Reachable c (readRxFIFO data size s).2
  | status (s : Driver σ) : Reachable c s → Reachable c (getStatus c s).2
  | interrupt (s : Driver σ) (IRQ : Bool) : Reachable c s →
      Reachable c (pin_change_isr0 c IRQ s)
  | mask (s : Driver σ) (RX_DR TX_DS MAX_RT : Bool) : Reachable c s →
      Reachable c (setInterruptMask c RX_DR TX_DS MAX_RT s)
  | clearFlag (s : Driver σ) (RX_DR TX_DS MAX_RT : Bool) : Reachable c s →
      Reachable c (clearInterruptFlag c RX_DR TX_DS MAX_RT s)

/-- The condition of the `if` in `sendData`: the five bytes of `Temp_Addrs`
equal those of `Base_Addrs`. -/
def addressGuard {σ : Type} (s : Driver σ) : Prop :=
  s.Temp_Addrs.getD 4 0 = s.Base_Addrs.getD 4 0 ∧ s.Temp_Addrs.getD 3 0 = s.Base_Addrs.getD 3 0
    ∧ s.Temp_Addrs.getD 2 0 = s.Base_Addrs.getD 2 0 ∧ s.Temp_Addrs.getD 1 0 = s.Base_Addrs.getD 1 0
    ∧ s.Temp_Addrs.getD 0 0 = s.Base_Addrs.getD 0 0
/-! ## `nRF_Config` as a sequence of hardware steps -/

/-- Hardware part of a setter: read register `reg` into `data[0]`, write `f` of
that byte back. -/
def rmwHw {σ : Type} (c : Chip σ) (reg : Nat) (f : Nat → Nat) (hw : Hw σ) : Hw σ :=
  (writeCommand c (W_REGISTER + reg)
    ((writeCommand c (R_REGISTER + reg) [0] 1 hw).data.set 0
      (f ((writeCommand c (R_REGISTER + reg) [0] 1 hw).data.getD 0 0))) 1
    (writeCommand c (R_REGISTER + reg) [0] 1 hw).hw).hw

/-- Hardware part of one `writeCommand` call. -/
def cmdHw {σ : Type} (c : Chip σ) (ins : Nat) (data : List Nat) (size : Int) (hw : Hw σ) :
    Hw σ :=
  (writeCommand c ins data size hw).hw

/-- Hardware part of the two address writes of `nRF_Config`; the second call
gets the buffer as the first one left it. -/
def addressHw {σ : Type} (c : Chip σ) (base : List Nat) (hw : Hw σ) : Hw σ :=
  (writeCommand c (W_REGISTER + TX_ADDR)
    (writeCommand c (W_REGISTER + RX_ADDR_P0) base 5 hw).data 5
    (writeCommand c (W_REGISTER + RX_ADDR_P0) base 5 hw).hw).hw

/-- Hardware part of `setDynamicPayloadLength(1)`. -/
def dynamicPayloadHw {σ : Type} (c : Chip σ) (hw : Hw σ) : Hw σ :=
  (writeCommand c (W_REGISTER + FEATURE)
    ((writeCommand c (W_REGISTER + DYNPD) [(0 ||| 0x01) &&& 0x3F] 1 hw).data.set 0
      ((0 ||| 0x04) &&& 0x07)) 1
    (writeCommand c (W_REGISTER + DYNPD) [(0 ||| 0x01) &&& 0x3F] 1 hw).hw).hw

/-- Runs hardware steps one after the other. -/
def run {σ : Type} (steps : List (Hw σ → Hw σ)) (hw : Hw σ) : Hw σ :=
  steps.foldl (fun h f => f h) hw

/-- The hardware steps of `nRF_Config` up to and including `setCRCScheme(2)`,
in program order; `base` is the content of `Base_Addrs`. -/
def configCommon {σ : Type} (c : Chip σ) (base : List Nat) : List (Hw σ → Hw σ) :=
  [fun h => setCE false (setCSN c true h),
   delay_ms 110,
   rmwHw c CONFIG (fun d => d &&& 0xFD),
   delay_ms 5,
   cmdHw c (W_REGISTER + STATUS) [0x7E, 0, 0, 0, 0, 0, 0, 0, 0, 0] 1,
   cmdHw c FLUSH_TX [] 0,
   cmdHw c FLUSH_RX [] 0,
   rmwHw c EN_AA (fun d => d &&& 0xFE),
   rmwHw c EN_RXADDR (fun d => d ||| 0x01),
   rmwHw c SETUP_AW (fun d => (d ||| 0x01) &&& 0xFD),
   cmdHw c (W_REGISTER + RF_CH) [1] 1,
   rmwHw c RF_SETUP (fun d => d ||| 0x06),
   rmwHw c RF_SETUP (fun d => (d &&& 0xDF) &&& 0xF7),
   addressHw c base,
   dynamicPayloadHw c,
   rmwHw c CONFIG (fun d => (d ||| 0x08) ||| 0x04)]

/-- The hardware steps of the mode branch of `nRF_Config`. -/
def configBranch {σ : Type} (c : Chip σ) : Mode → List (Hw σ → Hw σ)
  | Mode.NRF24_TRANSMITTER =>
    [rmwHw c CONFIG (fun d => ((d ||| 0x40) &&& 0xDF) &&& 0xEF),
     rmwHw c CONFIG (fun d => d &&& 0xFE),
     rmwHw c CONFIG (fun d => d ||| 0x02),
     delay_ms 100]
  | Mode.NRF24_RECEIVER =>
    [rmwHw c CONFIG (fun d => ((d &&& 0xBF) ||| 0x20) ||| 0x10),
     rmwHw c CONFIG (fun d => d ||| 0x01),
     rmwHw c CONFIG (fun d => d ||| 0x02),
     delay_ms 5,
     setCE true]

/-- The driver state with its hardware replaced by `f` of it. -/
def withHw {σ : Type} (f : Hw σ → Hw σ) (s : Driver σ) : Driver σ :=
  { s with hw := f s.hw }

/-- Every run of the hardware step `f` extends the trace by events with
outline `o`, whatever the chip answers. -/
def Performs {σ : Type} (f : Hw σ → Hw σ) (o : List Outline) : Prop :=
  ∀ hw, ∃ steps, Plays hw.trace (f hw).trace steps ∧ steps.map Step.outline = o

/-- Outline of `nRF_Config` up to and including `setCRCScheme(2)`. -/
def outlineCommon : List Outline :=
  [Outline.ce false,
   Outline.delayMs 110,
   Outline.command (R_REGISTER + CONFIG) 1, Outline.command (W_REGISTER + CONFIG) 1,
   Outline.delayMs 5,
   Outline.command (W_REGISTER + STATUS) 1,
   Outline.command FLUSH_TX 0,
   Outline.command FLUSH_RX 0,
   Outline.command (R_REGISTER + EN_AA) 1, Outline.command (W_REGISTER + EN_AA) 1,
   Outline.command (R_REGISTER + EN_RXADDR) 1, Outline.command (W_REGISTER + EN_RXADDR) 1,
   Outline.command (R_REGISTER + SETUP_AW) 1, Outline.command (W_REGISTER + SETUP_AW) 1,
   Outline.command (W_REGISTER + RF_CH) 1,
   Outline.command (R_REGISTER + RF_SETUP) 1, Outline.command (W_REGISTER + RF_SETUP) 1,
   Outline.command (R_REGISTER + RF_SETUP) 1, Outline.command (W_REGISTER + RF_SETUP) 1,
   Outline.command (W_REGISTER + RX_ADDR_P0) 5,
   Outline.command (W_REGISTER + TX_ADDR) 5,
   Outline.command (W_REGISTER + DYNPD) 1,
   Outline.command (W_REGISTER + FEATURE) 1,
   Outline.command (R_REGISTER + CONFIG) 1, Outline.command (W_REGISTER + CONFIG) 1]

/-- Outline of the mode branch of `nRF_Config`: `setInterruptMask`, `setMode`,
`setPowerUp`, the settle delay and, for the receiver, `CE = 1`. -/
def outlineBranch : Mode → List Outline
  | Mode.NRF24_TRANSMITTER =>
    [Outline.command (R_REGISTER + CONFIG) 1, Outline.command (W_REGISTER + CONFIG) 1,
     Outline.command (R_REGISTER + CONFIG) 1, Outline.command (W_REGISTER + CONFIG) 1,
     Outline.command (R_REGISTER + CONFIG) 1, Outline.command (W_REGISTER + CONFIG) 1,
     Outline.delayMs 100]
  | Mode.NRF24_RECEIVER =>
    [Outline.command (R_REGISTER + CONFIG) 1, Outline.command (W_REGISTER + CONFIG) 1,
     Outline.command (R_REGISTER + CONFIG) 1, Outline.command (W_REGISTER + CONFIG) 1,
     Outline.command (R_REGISTER + CONFIG) 1, Outline.command (W_REGISTER + CONFIG) 1,
     Outline.delayMs 5,
     Outline.ce true]
/-- Encoding of a power level in bits 2:1 of RF_SETUP, as `setTXPower` writes
it: `00` for -18 dBm, `01` for -12 dBm, `10` for -6 dBm, `11` for 0 dBm. -/
def NRF24_TXPower.encoding : NRF24_TXPower → Nat
  | NRF24_TXPower.NRF24_m18dBm => 0b00
  | NRF24_TXPower.NRF24_m12dBm => 0b01
  | NRF24_TXPower.NRF24_m6dBm => 0b10
  | NRF24_TXPower.NRF24_0dBm => 0b11

/-- A transmitter whose mailbox buffer still holds `0xAA, 0xBB, 0xCC` from
earlier, in front of a chip that answers status `0x2E` (data sent),
FIFO_STATUS `0x10` (RX FIFO not empty) and payload width 3. -/
def staleTransmitter : Driver (List Nat) :=
  { Driver.init (idle [0x2E, 14, 0x10, 14, 3, 14, 14, 14, 14]) with
    payload := [0xAA, 0xBB, 0xCC] ++ List.replicate 30 0
    operationMode := Mode.NRF24_TRANSMITTER }

/-- Opcodes of the calls of `writeCommand` on the Transmitter path of the
interrupt handler and in its common tail. -/
def transmitterOpcodes : List Nat :=
  [NOP, R_REGISTER + FIFO_STATUS, R_RX_PL_WID, FLUSH_RX, W_REGISTER + STATUS, FLUSH_TX]

/-! ## Dialogue of a trace: transactions with the bytes sent and received -/

/-- One step of a dialogue: a delay, a change of chip-enable, or a whole bus
transaction given by the pairs (byte sent, byte received), opcode first. -/
inductive Talk where
  | delayMs (n : Nat)
  | delayUs (n : Nat)
  | ce (level : Bool)
  | txn (bytes : List (Nat × Nat))
deriving DecidableEq, Repr

/-- Scan of a trace for its dialogue; the first argument is the list of byte
pairs exchanged so far in the open transaction, if chip-select is low. -/
def dialogueFrom : Option (List (Nat × Nat)) → List BusEvent → List Talk
  | _, [] => []
  | _, BusEvent.csn false :: t => dialogueFrom (some []) t
  | some x, BusEvent.csn true :: t => Talk.txn x :: dialogueFrom none t
  | none, BusEvent.csn true :: t => dialogueFrom none t
  | some x, BusEvent.spi m a :: t => dialogueFrom (some (x ++ [(m, a)])) t
  | none, BusEvent.spi _ _ :: t => dialogueFrom none t
  | cur, BusEvent.ce v :: t => Talk.ce v :: dialogueFrom cur t
  | cur, BusEvent.delay_ms n :: t => Talk.delayMs n :: dialogueFrom cur t
  | cur, BusEvent.delay_us n :: t => Talk.delayUs n :: dialogueFrom cur t

/-- The dialogue of a trace, oldest first. -/
def dialogue (tr : List BusEvent) : List Talk := dialogueFrom none tr

/-- One entry of a bring-up script: a millisecond delay, a level of
chip-enable, a command without data bytes, a register write with given data
bytes (in wire order), or a register update: a read of the register directly
followed by a write of `f v` to it, `v` being the byte the chip answered to the
read. -/
inductive Expect where
  | delayMs (n : Nat)
  | ce (level : Bool)
  | command (ins : Nat)
  | write (reg : Nat) (data : List Nat)
  | update (reg : Nat) (f : Nat → Nat)

/-- Test whether a dialogue is exactly the script: entry by entry, in order,
with nothing before, between or after.  An update entry takes two
transactions, `[R_REGISTER + reg, NOP]` answered `v` on the second byte and
then `[W_REGISTER + reg, f v]`. -/
def follows : List Expect → List Talk → Bool
  | [], [] => true
  | Expect.delayMs n :: es, Talk.delayMs m :: ts => decide (m = n) && follows es ts
  | Expect.ce v :: es, Talk.ce w :: ts => decide (w = v) && follows es ts
  | Expect.command ins :: es, Talk.txn [(m, _)] :: ts => decide (m = ins) && follows es ts
  | Expect.write reg data :: es, Talk.txn ((m, _) :: bs) :: ts =>
    decide (m = W_REGISTER + reg) && decide (bs.map Prod.fst = data) && follows es ts
  | Expect.update reg f :: es, Talk.txn [(m1, _), (n1, v)] :: Talk.txn [(m2, _), (w, _)] :: ts =>
    decide (m1 = R_REGISTER + reg) && decide (n1 = NOP) && decide (m2 = W_REGISTER + reg)
      && decide (w = f v) && follows es ts
  | _, _ => false

/-- The trace `after` extends the trace `before` by events whose dialogue is
`talks`, with chip-select released at the end. -/
def Says (before after : List BusEvent) (talks : List Talk) : Prop :=
  ∃ evs, after = before ++ evs ∧
    ∀ rest, dialogueFrom none (evs ++ rest) = talks ++ dialogueFrom none rest

/-- Every run of the hardware step `f` extends the trace by a dialogue that is
exactly the script `es`, whatever the chip answers. -/
def Enacts {σ : Type} (f : Hw σ → Hw σ) (es : List Expect) : Prop :=
  ∀ hw, ∃ talks, Says hw.trace (f hw).trace talks
    ∧ ∀ more ts, follows (es ++ more) (talks ++ ts) = follows more ts

/-- Script of `nRF_Config` up to and including `setCRCScheme(2)`; `base` is the
content of `Base_Addrs`. -/
def scriptCommon (base : List Nat) : List Expect :=
  [Expect.ce false,
   Expect.delayMs 110,
   Expect.update CONFIG (fun d => d &&& 0xFD),
   Expect.delayMs 5,
   Expect.write STATUS [0x7E],
   Expect.command FLUSH_TX,
   Expect.command FLUSH_RX,
   Expect.update EN_AA (fun d => d &&& 0xFE),
   Expect.update EN_RXADDR (fun d => d ||| 0x01),
   Expect.update SETUP_AW (fun d => (d ||| 0x01) &&& 0xFD),
   Expect.write RF_CH [1],
   Expect.update RF_SETUP (fun d => d ||| 0x06),
   Expect.update RF_SETUP (fun d => (d &&& 0xDF) &&& 0xF7),
   Expect.write RX_ADDR_P0 (wireBytes 5 base),
   Expect.write TX_ADDR (wireBytes 5 base),
   Expect.write DYNPD [0x01],
   Expect.write FEATURE [0x04],
   Expect.update CONFIG (fun d => (d ||| 0x08) ||| 0x04)]

/-- Script of the mode branch of `nRF_Config`. -/
def scriptBranch : Mode → List Expect
  | Mode.NRF24_TRANSMITTER =>
    [Expect.update CONFIG (fun d => ((d ||| 0x40) &&& 0xDF) &&& 0xEF),
     Expect.update CONFIG (fun d => d &&& 0xFE),
     Expect.update CONFIG (fun d => d ||| 0x02),
     Expect.delayMs 100]
  | Mode.NRF24_RECEIVER =>
    [Expect.update CONFIG (fun d => ((d &&& 0xBF) ||| 0x20) ||| 0x10),
     Expect.update CONFIG (fun d => d ||| 0x01),
     Expect.update CONFIG (fun d => d ||| 0x02),
     Expect.delayMs 5,
     Expect.ce true]

/-! # Verified properties -/

/-! ## Lemmas on `writeCommand` -/

theorem writeCommand_error {σ : Type} (c : Chip σ) (ins : Nat) (data : List Nat) (size : Int)
    (hw : Hw σ) : (writeCommand c ins data size hw).error = outcome (sizeRule ins) size := by
  simp only [writeCommand, sizeRule]
  repeat' split
  all_goals simp only [outcome, finish, readOne, writeOne, readMany, writeMany, commandOnly,
    if_true, if_false, *]

theorem writeCommand_returnValue_error {σ : Type} (c : Chip σ) (ins : Nat) (data : List Nat)
    (size : Int) (hw : Hw σ) : (writeCommand c ins data size hw).returnValue.error = none := by
  simp only [writeCommand]
  repeat' split
  all_goals simp only [finish, readOne, writeOne, readMany, writeMany, commandOnly]

/-- A call that ends with `error` different from `OK` touched neither the
hardware nor the buffer, and returns status 0. -/
theorem writeCommand_of_rejected {σ : Type} (c : Chip σ) (ins : Nat) (data : List Nat)
    (size : Int) (hw : Hw σ) (h : (writeCommand c ins data size hw).error ≠ ErrorCode.OK) :
    (writeCommand c ins data size hw).hw = hw ∧ (writeCommand c ins data size hw).data = data
      ∧ (writeCommand c ins data size hw).returnValue.status = 0 := by
  revert h
  simp only [writeCommand]
  repeat' split
  all_goals simp [finish, readOne, writeOne, readMany, writeMany, commandOnly]

set_option maxRecDepth 100000 in
theorem sizeRule_of_class : ∀ k : CmdClass, ∀ ins ∈ k.opcodes, sizeRule ins = k.sizeRule := by
  intro k
  cases k <;> decide

set_option maxRecDepth 100000 in
theorem sizeRule_bad_iff : ∀ ins, ins < 256 →
    (sizeRule ins = SizeRule.bad ↔ ins = 0x28 ∨ ins = 0x29) := by
  decide

set_option maxRecDepth 100000 in
theorem sizeRule_unknown_iff : ∀ ins, ins < 256 →
    (sizeRule ins = SizeRule.unknown ↔
      (inRecognisedMap ins = false ∨ (0xA8 ≤ ins ∧ ins ≤ 0xAF))) := by
  decide

theorem outcome_eq_bad (r : SizeRule) (size : Int) :
    outcome r size = ErrorCode.BAD_COMMAND ↔ r = SizeRule.bad := by
  cases r <;> simp [outcome] <;> split_ifs <;> simp

theorem outcome_eq_unknown (r : SizeRule) (size : Int) :
    outcome r size = ErrorCode.UNKNOWN_COMMAND ↔ r = SizeRule.unknown := by
  cases r <;> simp [outcome] <;> split_ifs <;> simp

/-- The part of the opcode map that holds on the code: inside `0..255`, the
outcome is `UNKNOWN_COMMAND` exactly for the opcodes outside the recognised
map and for `0xA8..0xAF`. -/
theorem writeCommand_unknown_iff {σ : Type} (c : Chip σ) (ins : Nat) (hins : ins < 256)
    (data : List Nat) (size : Int) (hw : Hw σ) :
    (writeCommand c ins data size hw).error = ErrorCode.UNKNOWN_COMMAND ↔
      (inRecognisedMap ins = false ∨ (0xA8 ≤ ins ∧ ins ≤ 0xAF)) := by
  rw [writeCommand_error, outcome_eq_unknown]
  exact sizeRule_unknown_iff ins hins

/-! ## Claims on the command dispatcher -/

/-- C1: for an opcode of one of the four classes of the size-validation table
and any length, `writeCommand` ends with `error = OK` when the length rule of
the class holds and with `PARAMETER_ERROR` otherwise. -/
theorem writeCommand_size_validation {σ : Type} (c : Chip σ) (k : CmdClass) (ins : Nat)
    (hins : ins ∈ k.opcodes) (data : List Nat) (size : Int) (hw : Hw σ) :
    (writeCommand c ins data size hw).error =
      if k.rule size = true then ErrorCode.OK else ErrorCode.PARAMETER_ERROR := by
  rw [writeCommand_error, sizeRule_of_class k ins hins]
  cases k <;> simp [CmdClass.sizeRule, CmdClass.rule, outcome]

theorem writeCommand_size_validation_witness :
    0x27 ∈ CmdClass.singleByte.opcodes ∧
      (writeCommand scriptChip 0x27 [0x70] 2 (idle [14])).error =
        if CmdClass.singleByte.rule 2 = true then ErrorCode.OK else ErrorCode.PARAMETER_ERROR :=
  ⟨by decide, writeCommand_size_validation scriptChip CmdClass.singleByte 0x27 (by decide)
    [0x70] 2 (idle [14])⟩

/-- C2: the struct returned by `writeCommand` never receives the validation
outcome: its `error` field is left unassigned on every path, also when the
local `error` is `PARAMETER_ERROR` (here `NOP` with length 1). -/
theorem writeCommand_error_not_returned :
    (∀ (σ : Type) (c : Chip σ) (ins : Nat) (data : List Nat) (size : Int) (hw : Hw σ),
        (writeCommand c ins data size hw).returnValue.error = none) ∧
      (writeCommand scriptChip NOP [] 1 (idle [])).error = ErrorCode.PARAMETER_ERROR ∧
      (writeCommand scriptChip NOP [] 1 (idle [])).returnValue.error ≠
        some ErrorCode.PARAMETER_ERROR :=
  ⟨fun _ c ins data size hw => writeCommand_returnValue_error c ins data size hw,
    by decide, by decide⟩

/-- C3: for the write-with-ack opcodes `0xA8 | pipe`, pipe `0..5`, and every
length, `writeCommand` ends with `UNKNOWN_COMMAND` and performs no transaction:
the test `(ins&0xE0) == W_ACK_PAYLOAD` never holds. -/
theorem writeCommand_ack_payload_unknown {σ : Type} (c : Chip σ) (pipe : Nat) (hp : pipe ≤ 5)
    (data : List Nat) (size : Int) (hw : Hw σ) :
    (writeCommand c (W_ACK_PAYLOAD ||| pipe) data size hw).error = ErrorCode.UNKNOWN_COMMAND ∧
      (writeCommand c (W_ACK_PAYLOAD ||| pipe) data size hw).hw = hw := by
  have he : (writeCommand c (W_ACK_PAYLOAD ||| pipe) data size hw).error
      = ErrorCode.UNKNOWN_COMMAND := by
    rw [writeCommand_error, outcome_eq_unknown]
    interval_cases pipe <;> decide
  exact ⟨he, (writeCommand_of_rejected c _ data size hw (by rw [he]; decide)).1⟩

theorem writeCommand_ack_payload_unknown_witness :
    (0 : Nat) ≤ 5 ∧
      (writeCommand scriptChip (W_ACK_PAYLOAD ||| 0) [0x55] 1 (idle [14])).error
        = ErrorCode.UNKNOWN_COMMAND ∧
      (writeCommand scriptChip (W_ACK_PAYLOAD ||| 0) [0x55] 1 (idle [14])).hw = idle [14] :=
  ⟨by decide, writeCommand_ack_payload_unknown scriptChip 0 (by decide) [0x55] 1 (idle [14])⟩

/-- C4: the opcode `0xA8` (`W_ACK_PAYLOAD`), which belongs to the recognised
map, ends with `UNKNOWN_COMMAND` for every buffer and length. -/
theorem writeCommand_unknown_inside_map :
    inRecognisedMap W_ACK_PAYLOAD = true ∧
      ∀ (σ : Type) (c : Chip σ) (data : List Nat) (size : Int) (hw : Hw σ),
        (writeCommand c W_ACK_PAYLOAD data size hw).error = ErrorCode.UNKNOWN_COMMAND := by
  refine ⟨by decide, fun _ c data size hw => ?_⟩
  rw [writeCommand_error, outcome_eq_unknown]
  decide

/-- C5: writing `OBSERVE_TX` or `RPD` ends with `BAD_COMMAND` for every length,
reading either of them with length 1 ends with `OK`, and no other opcode ends
with `BAD_COMMAND`. -/
theorem writeCommand_bad_command {σ : Type} (c : Chip σ) (data : List Nat) (size : Int)
    (hw : Hw σ) :
    (writeCommand c (W_REGISTER + OBSERVE_TX) data size hw).error = ErrorCode.BAD_COMMAND ∧
    (writeCommand c (W_REGISTER + RPD) data size hw).error = ErrorCode.BAD_COMMAND ∧
    (writeCommand c (R_REGISTER + OBSERVE_TX) data 1 hw).error = ErrorCode.OK ∧
    (writeCommand c (R_REGISTER + RPD) data 1 hw).error = ErrorCode.OK ∧
    ∀ ins, ins < 256 → (writeCommand c ins data size hw).error = ErrorCode.BAD_COMMAND →
      ins = W_REGISTER + OBSERVE_TX ∨ ins = W_REGISTER + RPD := by
  refine ⟨?_, ?_, ?_, ?_, ?_⟩
  · rw [writeCommand_error, outcome_eq_bad]; decide
  · rw [writeCommand_error, outcome_eq_bad]; decide
  · rw [writeCommand_error]; decide
  · rw [writeCommand_error]; decide
  · intro ins hins h
    rw [writeCommand_error, outcome_eq_bad] at h
    exact (sizeRule_bad_iff ins hins).1 h

theorem writeCommand_bad_command_witness :
    (0x28 : Nat) < 256 ∧
      (writeCommand scriptChip 0x28 [1] 1 (idle [14])).error = ErrorCode.BAD_COMMAND ∧
      ((0x28 : Nat) = W_REGISTER + OBSERVE_TX ∨ (0x28 : Nat) = W_REGISTER + RPD) :=
  ⟨by decide, by decide,
    (writeCommand_bad_command scriptChip [1] 1 (idle [14])).2.2.2.2 0x28 (by decide) (by decide)⟩

/-! ## Evaluation of `writeCommand` at the opcodes the driver uses -/

theorem writeCommand_R_RX_PL_WID {σ : Type} (c : Chip σ) (data : List Nat) (hw : Hw σ) :
    writeCommand c R_RX_PL_WID data 1 hw = readOne c R_RX_PL_WID data hw := by
  simp +decide [writeCommand]

theorem writeCommand_FLUSH_RX {σ : Type} (c : Chip σ) (data : List Nat) (hw : Hw σ) :
    writeCommand c FLUSH_RX data 0 hw = commandOnly c FLUSH_RX data hw := by
  simp +decide [writeCommand]

theorem writeCommand_FLUSH_TX {σ : Type} (c : Chip σ) (data : List Nat) (hw : Hw σ) :
    writeCommand c FLUSH_TX data 0 hw = commandOnly c FLUSH_TX data hw := by
  simp +decide [writeCommand]

theorem writeCommand_W_STATUS {σ : Type} (c : Chip σ) (data : List Nat) (hw : Hw σ) :
    writeCommand c (W_REGISTER + STATUS) data 1 hw = writeOne c (W_REGISTER + STATUS) data hw := by
  simp +decide [writeCommand]

theorem writeCommand_R_RX_PAYLOAD {σ : Type} (c : Chip σ) (data : List Nat) (size : Int)
    (h : size ≤ 32) (hw : Hw σ) :
    writeCommand c R_RX_PAYLOAD data size hw = readMany c R_RX_PAYLOAD data size hw := by
  simp +decide [writeCommand, h]

theorem writeCommand_W_TX_PAYLOAD {σ : Type} (c : Chip σ) (data : List Nat) (size : Int)
    (h : size ≤ 32) (hw : Hw σ) :
    writeCommand c W_TX_PAYLOAD data size hw = writeMany c W_TX_PAYLOAD data size hw := by
  simp +decide [writeCommand, h]

/-! ## Buffers, loops and traces -/

theorem loopCount_natCast (n : Nat) (h : n ≤ 32767) : loopCount (n : Int) = n := by
  unfold loopCount wrap16
  omega

theorem memcpy_length (dst src : List Nat) (n : Nat) : (memcpy dst src n).length = dst.length := by
  induction n with
  | zero => rfl
  | succ n ih => simp [memcpy, ih]

theorem memcpy_eq (dst src : List Nat) (n : Nat) (hd : n ≤ dst.length) (hs : n ≤ src.length) :
    memcpy dst src n = src.take n ++ dst.drop n := by
  induction n with
  | zero => simp [memcpy]
  | succ n ih =>
    have hn : n < src.length := by omega
    have hdn : n < dst.length := by omega
    simp only [memcpy]
    rw [ih (by omega) (by omega)]
    apply List.ext_getElem
    · simp; omega
    · intro i h1 h2
      simp only [List.getElem_set, List.getElem_append, List.length_take, List.getElem_take,
        List.getElem_drop]
      have hmin : min n src.length = n := by omega
      have hmin1 : min (n + 1) src.length = n + 1 := by omega
      simp only [hmin, hmin1]
      by_cases hi : n = i
      · subst hi
        simp [List.getD_eq_getElem?_getD, List.getElem?_eq_getElem hn]
      · simp only [hi, if_false]
        by_cases hlt : i < n
        · have : i < n + 1 := by omega
          simp [hlt, this]
        · have : ¬ i < n + 1 := by omega
          simp only [hlt, this, dite_false]
          congr 1
          omega

theorem drop_set_self (data : List Nat) (k v : Nat) (hk : k < data.length) :
    (data.set k v).drop k = v :: data.drop (k + 1) := by
  have h : k < (data.set k v).length := by simpa using hk
  rw [List.drop_eq_getElem_cons h, List.getElem_set_self, List.drop_set_of_lt _ _ (Nat.lt_succ_self k)]

theorem readLoop_script (k : Nat) : ∀ (data : List Nat) (hw : Hw (List Nat)) (w rest : List Nat),
    hw.chip = w ++ rest → w.length = k → k ≤ data.length →
    (readLoop scriptChip k data hw).1 = (w.reverse.map (fun b => b % 256)) ++ data.drop k := by
  induction k with
  | zero =>
    intro data hw w rest _ hw0 _
    have : w = [] := List.length_eq_zero.mp hw0
    simp [readLoop, this]
  | succ k ih =>
    intro data hw w rest hc hlen hk
    match w, hlen with
    | b :: w', hlen =>
      have hlen' : w'.length = k := by simpa using hlen
      simp only [readLoop]
      rw [ih _ _ w' rest (by simp [spi, scriptChip, hc]) hlen' (by simp; omega)]
      simp only [spi, scriptChip, hc, List.cons_append, List.headD_cons, List.reverse_cons,
        List.map_append, List.map_cons, List.map_nil, List.append_assoc, List.singleton_append]
      rw [drop_set_self data k (b % 256) (by omega)]
      simp

theorem wireBytes_succ (k : Nat) (data : List Nat) :
    wireBytes (k + 1) data = data.getD k 0 :: wireBytes k data := by
  simp [wireBytes, List.range_succ]

theorem wireBytes_length (data : List Nat) : wireBytes data.length data = data.reverse := by
  unfold wireBytes
  rw [List.map_reverse]
  congr 1
  apply List.ext_getElem
  · simp
  · intro i h1 h2
    simp [List.getD_eq_getElem?_getD, List.getElem?_eq_getElem h2]

theorem setCSN_trace {σ : Type} (c : Chip σ) (v : Bool) (hw : Hw σ) :
    (setCSN c v hw).trace = hw.trace ++ [BusEvent.csn v] := rfl

theorem setCSN_chip {σ : Type} (c : Chip σ) (v : Bool) (hw : Hw σ) :
    (setCSN c v hw).chip = c.csn hw.chip v := rfl

theorem spi_trace {σ : Type} (c : Chip σ) (b : Nat) (hw : Hw σ) :
    (spi c b hw).2.trace = hw.trace ++ [BusEvent.spi b ((c.exchange hw.chip b).1 % 256)] := rfl

theorem writeLoop_trace {σ : Type} (c : Chip σ) (k : Nat) (data : List Nat) :
    ∀ hw : Hw σ, ∃ evs, (writeLoop c k data hw).trace = hw.trace ++ evs ∧
      ∀ x rest, transactionsFrom (some x) (evs ++ rest)
        = transactionsFrom (some (x ++ wireBytes k data)) rest := by
  induction k with
  | zero =>
    intro hw
    exact ⟨[], by simp [writeLoop], by simp [wireBytes]⟩
  | succ k ih =>
    intro hw
    obtain ⟨evs, h1, h2⟩ := ih (spi c (data.getD k 0) hw).2
    refine ⟨BusEvent.spi (data.getD k 0) ((c.exchange hw.chip (data.getD k 0)).1 % 256) :: evs,
      ?_, ?_⟩
    · simp only [writeLoop, h1]
      simp [spi]
    · intro x rest
      rw [List.cons_append, wireBytes_succ]
      simp only [transactionsFrom]
      rw [h2]
      simp

theorem Emits.refl (t : List BusEvent) : Emits t t [] :=
  ⟨[], by simp, by simp⟩

theorem Emits.trans {a b d : List BusEvent} {t1 t2 : List (List Nat)} (h1 : Emits a b t1)
    (h2 : Emits b d t2) : Emits a d (t1 ++ t2) := by
  obtain ⟨e1, rfl, k1⟩ := h1
  obtain ⟨e2, rfl, k2⟩ := h2
  refine ⟨e1 ++ e2, by simp, ?_⟩
  intro rest
  rw [List.append_assoc, k1, k2, List.append_assoc]

theorem Emits.transactions_newEvents {a b : List BusEvent} {t : List (List Nat)}
    (h : Emits a b t) : transactions (newEvents a b) = t := by
  obtain ⟨e, rfl, k⟩ := h
  have := k []
  simpa [newEvents, transactions, transactionsFrom] using this

theorem emits_commandOnly {σ : Type} (c : Chip σ) (ins : Nat) (data : List Nat) (hw : Hw σ) :
    Emits hw.trace (commandOnly c ins data hw).hw.trace [[ins]] :=
  ⟨[BusEvent.csn false, BusEvent.spi ins ((c.exchange (c.csn hw.chip false) ins).1 % 256),
      BusEvent.csn true],
    by simp [commandOnly, finish, setCSN, spi], by intro rest; simp [transactionsFrom]⟩

theorem emits_writeMany {σ : Type} (c : Chip σ) (ins : Nat) (data : List Nat) (n : Nat)
    (hn : n ≤ 32767) (hw : Hw σ) :
    Emits hw.trace (writeMany c ins data (n : Int) hw).hw.trace [ins :: wireBytes n data] := by
  obtain ⟨evs, h1, h2⟩ := writeLoop_trace c n data (spi c ins (setCSN c false hw)).2
  refine ⟨[BusEvent.csn false, BusEvent.spi ins ((c.exchange (c.csn hw.chip false) ins).1 % 256)]
      ++ evs ++ [BusEvent.csn true], ?_, ?_⟩
  · simp only [writeMany, finish, loopCount_natCast n hn]
    rw [setCSN_trace, h1, spi_trace, setCSN_trace, setCSN_chip]
    simp
  · intro rest
    simp [transactionsFrom, h2]

theorem emits_setCE {σ : Type} (v : Bool) (hw : Hw σ) : Emits hw.trace (setCE v hw).trace [] :=
  ⟨[BusEvent.ce v], by simp [setCE], by intro rest; simp [transactionsFrom]⟩

theorem emits_delay_us {σ : Type} (n : Nat) (hw : Hw σ) :
    Emits hw.trace (delay_us n hw).trace [] :=
  ⟨[BusEvent.delay_us n], by simp [delay_us], by intro rest; simp [transactionsFrom]⟩

theorem sendData_transactions {σ : Type} (c : Chip σ) (d : List Nat) (L : Nat) (hL : L ≤ 32)
    (s : Driver σ) :
    transactions (newEvents s.hw.trace (sendData c d (L : Int) s).hw.trace)
      = [[FLUSH_TX], W_TX_PAYLOAD :: wireBytes L d] ∨
    transactions (newEvents s.hw.trace (sendData c d (L : Int) s).hw.trace) = [] := by
  unfold sendData
  split_ifs with hg
  · left
    have hL' : (L : Int) ≤ 32 := by exact_mod_cast hL
    simp only [writeCommand_FLUSH_TX, writeCommand_W_TX_PAYLOAD c d (L : Int) hL']
    have e1 := emits_commandOnly c FLUSH_TX [] s.hw
    have e2 := emits_writeMany c W_TX_PAYLOAD d L (by omega) (commandOnly c FLUSH_TX [] s.hw).hw
    have e3 := emits_setCE true (writeMany c W_TX_PAYLOAD d (L : Int)
      (commandOnly c FLUSH_TX [] s.hw).hw).hw
    have e4 := emits_delay_us (15 + 130) (setCE true (writeMany c W_TX_PAYLOAD d (L : Int)
      (commandOnly c FLUSH_TX [] s.hw).hw).hw)
    have e5 := emits_setCE false (delay_us (15 + 130) (setCE true (writeMany c W_TX_PAYLOAD d
      (L : Int) (commandOnly c FLUSH_TX [] s.hw).hw).hw))
    have := ((((e1.trans e2).trans e3).trans e4).trans e5).transactions_newEvents
    simpa using this
  · right
    simp [newEvents, transactions, transactionsFrom]

/-! ## The interrupt handler against a scripted chip -/

theorem readOne_script_data (ins : Nat) (data : List Nat) (hw : Hw (List Nat)) (a b : Nat)
    (rest : List Nat) (hc : hw.chip = a :: b :: rest) :
    (readOne scriptChip ins data hw).data = data.set 0 (b % 256) ∧
      (readOne scriptChip ins data hw).hw.chip = rest := by
  simp [readOne, finish, spi, setCSN, scriptChip, hc]

theorem isr_receive_script (s : Driver (List Nat)) (L : Nat) (hL : L ≤ 32) (st1 st2 : Nat)
    (wire rest : List Nat) (hm : s.operationMode = Mode.NRF24_RECEIVER)
    (h0 : s.receiveBytesAvailable = 0) (hp : L ≤ s.payload.length)
    (hc : s.hw.chip = st1 :: L :: st2 :: (wire ++ rest)) (hwl : wire.length = L) :
    (pin_change_isr0 scriptChip false s).receiveBytesAvailable = L ∧
      (pin_change_isr0 scriptChip false s).payload
        = wire.reverse.map (fun b => b % 256) ++ s.payload.drop L := by
  obtain ⟨hd, hch⟩ := readOne_script_data R_RX_PL_WID (List.replicate 32 0) s.hw st1 L _ hc
  have hmod : L % 256 = L := Nat.mod_eq_of_lt (by omega)
  have hw0 : ((List.replicate 32 0).set 0 L).getD 0 0 = L := by
    simp [List.replicate]
  have hLi : (L : Int) ≤ 32 := by exact_mod_cast hL
  rw [hmod] at hd
  simp only [pin_change_isr0, hm, if_true, writeCommand_R_RX_PL_WID, hd, hw0, h0, hL, and_self,
    writeCommand_R_RX_PAYLOAD _ _ _ hLi, clearInterruptFlag, reduceCtorEq, if_false]
  refine ⟨trivial, ?_⟩
  simp only [readMany, finish, loopCount_natCast L (by omega)]
  refine readLoop_script L s.payload _ wire rest ?_ hwl hp
  show (readOne scriptChip R_RX_PL_WID (List.replicate 32 0) s.hw).hw.chip.tail = wire ++ rest
  rw [hch]
  rfl

/-! ## Claims on the receive path and the mailbox -/

/-- C6: round trip through the receive path.  Let `d` be a payload of length
`L`, `1 ≤ L ≤ 32`, and `wire` the data bytes of the `W_TX_PAYLOAD` transaction
that `sendData d L` puts on the bus.  If the receiving chip reports width `L`
and returns `wire`, in that order, to `R_RX_PAYLOAD`, then one falling-edge
interrupt in Receiver mode with an empty mailbox gives `bytesAvailable = L`,
and `readRxFIFO` then stores `d[0..L-1]`, in index order, in the first `L`
bytes of the destination. -/
theorem send_receive_roundtrip {σ : Type} (cT : Chip σ) (sT : Driver σ) (d : List Nat) (L : Nat)
    (hlen : d.length = L) (h1 : 1 ≤ L) (h32 : L ≤ 32) (hbytes : ∀ b ∈ d, b < 256)
    (wire : List Nat)
    (hwire : transactions (newEvents sT.hw.trace (sendData cT d (L : Int) sT).hw.trace)
      = [[FLUSH_TX], W_TX_PAYLOAD :: wire])
    (sR : Driver (List Nat)) (st1 st2 : Nat) (rest : List Nat)
    (hm : sR.operationMode = Mode.NRF24_RECEIVER) (h0 : bytesAvailable sR = 0)
    (hp : sR.payload.length = 33) (hc : sR.hw.chip = st1 :: L :: st2 :: (wire ++ rest))
    (dest : List Nat) (hdest : L ≤ dest.length) :
    bytesAvailable (pin_change_isr0 scriptChip false sR) = L ∧
      (readRxFIFO dest L (pin_change_isr0 scriptChip false sR)).1 = d ++ dest.drop L := by
  have hw : wire = d.reverse := by
    rcases sendData_transactions cT d L h32 sT with h | h
    · rw [h] at hwire
      have := (List.cons.inj (List.cons.inj (List.cons.inj hwire).2).1).2
      rw [← this, ← hlen, wireBytes_length]
    · rw [h] at hwire
      exact absurd hwire (by simp)
  have hmap : List.map (fun b => b % 256) d = d := by
    conv_rhs => rw [← List.map_id d]
    exact List.map_congr_left (fun b hb => Nat.mod_eq_of_lt (hbytes b hb))
  obtain ⟨ha, hpay⟩ := isr_receive_script sR L h32 st1 st2 wire rest hm h0 (by omega) hc
    (by rw [hw, List.length_reverse, hlen])
  rw [hw, List.reverse_reverse, hmap] at hpay
  refine ⟨ha, ?_⟩
  simp only [readRxFIFO, ha, hpay]
  rw [memcpy_eq _ _ L hdest (by simp; omega), ← hlen, List.take_left']
  rfl

theorem send_receive_roundtrip_witness :
    transactions (newEvents (Driver.init (idle ([] : List Nat))).hw.trace
        (sendData scriptChip [1, 2, 3] 3 (Driver.init (idle []))).hw.trace)
        = [[FLUSH_TX], W_TX_PAYLOAD :: [3, 2, 1]] ∧
      bytesAvailable (pin_change_isr0 scriptChip false emptyReceiver) = 3 ∧
      (readRxFIFO [0, 0, 0] 3 (pin_change_isr0 scriptChip false emptyReceiver)).1
        = [1, 2, 3] ++ List.drop 3 [0, 0, 0] :=
  ⟨by decide,
    send_receive_roundtrip scriptChip (Driver.init (idle [])) [1, 2, 3] 3 rfl (by decide)
      (by decide) (by decide) [3, 2, 1] (by decide) emptyReceiver 14 14 [14, 14, 14] rfl rfl
      (by decide) rfl [0, 0, 0] (by decide)⟩

/-- C7: a receiver whose mailbox holds an unread 5 byte packet reports
`bytesAvailable = 0` after the next interrupt, and the interrupt after that
stores a new 2 byte packet over the unread one, `readRxFIFO` never being
called. -/
theorem pin_change_isr0_discards_unread_packet :
    bytesAvailable occupiedReceiver = 5 ∧
      bytesAvailable (pin_change_isr0 scriptChip false occupiedReceiver) = 0 ∧
      bytesAvailable (pin_change_isr0 scriptChip false
        (pin_change_isr0 scriptChip false occupiedReceiver)) = 2 ∧
      (pin_change_isr0 scriptChip false
        (pin_change_isr0 scriptChip false occupiedReceiver)).payload.take 5
          = [21, 22, 3, 4, 5] := by
  decide

/-- C8: in Receiver mode, a falling-edge interrupt that finds the mailbox
occupied runs, whatever the chip answers, exactly the transactions
`R_RX_PL_WID`, `FLUSH_RX`, clear of the three flags, `FLUSH_TX` (so no
`R_RX_PAYLOAD`), leaves the mailbox buffer as it was and sets the availability
to 0. -/
theorem pin_change_isr0_mailbox_occupied {σ : Type} (c : Chip σ) (s : Driver σ)
    (hm : s.operationMode = Mode.NRF24_RECEIVER) (hn : 0 < bytesAvailable s) :
    transactions (newEvents s.hw.trace (pin_change_isr0 c false s).hw.trace)
        = [[R_RX_PL_WID, NOP], [FLUSH_RX], [W_REGISTER + STATUS, 0x70], [FLUSH_TX]]
      ∧ (pin_change_isr0 c false s).payload = s.payload
      ∧ bytesAvailable (pin_change_isr0 c false s) = 0 := by
  have hn0 : s.receiveBytesAvailable ≠ 0 := by
    unfold bytesAvailable at hn
    omega
  simp [pin_change_isr0, hm, hn0, clearInterruptFlag, writeCommand_R_RX_PL_WID,
    writeCommand_FLUSH_RX, writeCommand_FLUSH_TX, writeCommand_W_STATUS, readOne, writeOne,
    commandOnly, finish, setCSN, spi, newEvents, transactions, transactionsFrom, bytesAvailable]

theorem pin_change_isr0_mailbox_occupied_witness :
    transactions (newEvents occupiedReceiver.hw.trace
        (pin_change_isr0 scriptChip false occupiedReceiver).hw.trace)
        = [[R_RX_PL_WID, NOP], [FLUSH_RX], [W_REGISTER + STATUS, 0x70], [FLUSH_TX]]
      ∧ (pin_change_isr0 scriptChip false occupiedReceiver).payload = occupiedReceiver.payload
      ∧ bytesAvailable (pin_change_isr0 scriptChip false occupiedReceiver) = 0 :=
  pin_change_isr0_mailbox_occupied scriptChip occupiedReceiver rfl (by decide)

/-- C9: in Receiver mode, when the chip reports a payload width of 33 or more
(the width is a byte, so at most 255), a falling-edge interrupt runs exactly
the transactions `R_RX_PL_WID`, `FLUSH_RX`, clear of the three flags,
`FLUSH_TX`, and leaves `bytesAvailable = 0`, whatever the mailbox held. -/
theorem pin_change_isr0_oversized_width {σ : Type} (c : Chip σ) (s : Driver σ)
    (hm : s.operationMode = Mode.NRF24_RECEIVER) (hw : 33 ≤ reportedWidth c s.hw) :
    reportedWidth c s.hw ≤ 255
      ∧ transactions (newEvents s.hw.trace (pin_change_isr0 c false s).hw.trace)
        = [[R_RX_PL_WID, NOP], [FLUSH_RX], [W_REGISTER + STATUS, 0x70], [FLUSH_TX]]
      ∧ bytesAvailable (pin_change_isr0 c false s) = 0 := by
  simp only [reportedWidth, writeCommand_R_RX_PL_WID, readOne, finish, List.set_cons_zero,
    List.getD_cons_zero] at hw ⊢
  refine ⟨by simp only [spi]; omega, ?_⟩
  have hgt : ¬ (spi c NOP (spi c R_RX_PL_WID (setCSN c false s.hw)).2).1 ≤ 32 := by omega
  simp only [pin_change_isr0, hm, writeCommand_R_RX_PL_WID, readOne, finish, List.replicate,
    List.set_cons_zero, List.getD_cons_zero, hgt, false_and, if_false, if_true, reduceCtorEq]
  simp [clearInterruptFlag, writeCommand_FLUSH_RX, writeCommand_FLUSH_TX, writeCommand_W_STATUS,
    writeOne, commandOnly, finish, setCSN, spi, newEvents, transactions, transactionsFrom,
    bytesAvailable]

theorem pin_change_isr0_oversized_width_witness :
    33 ≤ reportedWidth scriptChip oversizeReceiver.hw ∧
      reportedWidth scriptChip oversizeReceiver.hw ≤ 255
      ∧ transactions (newEvents oversizeReceiver.hw.trace
          (pin_change_isr0 scriptChip false oversizeReceiver).hw.trace)
        = [[R_RX_PL_WID, NOP], [FLUSH_RX], [W_REGISTER + STATUS, 0x70], [FLUSH_TX]]
      ∧ bytesAvailable (pin_change_isr0 scriptChip false oversizeReceiver) = 0 :=
  ⟨by decide, pin_change_isr0_oversized_width scriptChip oversizeReceiver rfl (by decide)⟩

/-- C10: `readRxFIFO` copies as many bytes as the mailbox holds, whatever the
capacity passed: with 5 bytes buffered and capacity 2 it writes destination
indices 0 to 4, and its result is the same for any two capacities. -/
theorem readRxFIFO_ignores_capacity :
    (readRxFIFO [0, 0, 0, 0, 0, 0] 2 occupiedReceiver).1 = [1, 2, 3, 4, 5, 0] ∧
      ∀ (σ : Type) (data : List Nat) (c1 c2 : Nat) (s : Driver σ),
        readRxFIFO data c1 s = readRxFIFO data c2 s :=
  ⟨by decide, fun _ _ _ _ _ => rfl⟩

/-! ## Single-byte register access -/

theorem writeCommand_read_single {σ : Type} (c : Chip σ) (reg : Nat) (h : reg ∈ readSingle)
    (data : List Nat) (hw : Hw σ) :
    writeCommand c (R_REGISTER + reg) data 1 hw = readOne c (R_REGISTER + reg) data hw := by
  simp only [readSingle, List.mem_cons, List.mem_singleton, List.not_mem_nil, or_false] at h
  rcases h with h | h | h | h | h | h | h | h | h | h | h | h | h | h | h | h | h | h | h | h
    | h | h | h <;> subst h <;> simp +decide [writeCommand]

theorem writeCommand_write_single {σ : Type} (c : Chip σ) (reg : Nat) (h : reg ∈ writeSingle)
    (data : List Nat) (hw : Hw σ) :
    writeCommand c (W_REGISTER + reg) data 1 hw = writeOne c (W_REGISTER + reg) data hw := by
  simp only [writeSingle, List.mem_cons, List.mem_singleton, List.not_mem_nil, or_false] at h
  rcases h with h | h | h | h | h | h | h | h | h | h | h | h | h | h | h | h | h | h | h | h
    | h <;> subst h <;> simp +decide [writeCommand]

theorem emits_readOne {σ : Type} (c : Chip σ) (ins : Nat) (data : List Nat) (hw : Hw σ) :
    Emits hw.trace (readOne c ins data hw).hw.trace [[ins, NOP]] :=
  ⟨[BusEvent.csn false, BusEvent.spi ins ((c.exchange (c.csn hw.chip false) ins).1 % 256),
      BusEvent.spi NOP ((c.exchange (c.exchange (c.csn hw.chip false) ins).2 NOP).1 % 256),
      BusEvent.csn true],
    by simp [readOne, finish, setCSN, spi], by intro rest; simp [transactionsFrom]⟩

theorem emits_writeOne {σ : Type} (c : Chip σ) (ins : Nat) (data : List Nat) (hw : Hw σ) :
    Emits hw.trace (writeOne c ins data hw).hw.trace [[ins, data.getD 0 0]] :=
  ⟨[BusEvent.csn false, BusEvent.spi ins ((c.exchange (c.csn hw.chip false) ins).1 % 256),
      BusEvent.spi (data.getD 0 0)
        ((c.exchange (c.exchange (c.csn hw.chip false) ins).2 (data.getD 0 0)).1 % 256),
      BusEvent.csn true],
    by simp [writeOne, finish, setCSN, spi], by intro rest; simp [transactionsFrom]⟩

/-- Shape shared by the setters: read `reg` into `data[0]`, write `d` back. -/
theorem read_then_write_transactions {σ : Type} (c : Chip σ) (reg : Nat) (h : reg ∈ writeSingle)
    (d : Nat) (hw : Hw σ) :
    transactions (newEvents hw.trace
        (writeCommand c (W_REGISTER + reg)
          ((writeCommand c (R_REGISTER + reg) [0] 1 hw).data.set 0 d) 1
          (writeCommand c (R_REGISTER + reg) [0] 1 hw).hw).hw.trace)
      = [[R_REGISTER + reg, NOP], [W_REGISTER + reg, d]] := by
  have hr : reg ∈ readSingle := by
    revert h
    simp only [readSingle, writeSingle, List.mem_cons, List.mem_singleton, List.not_mem_nil,
      or_false]
    tauto
  rw [writeCommand_write_single c reg h, writeCommand_read_single c reg hr]
  have e1 := emits_readOne c (R_REGISTER + reg) [0] hw
  have e2 := emits_writeOne c (W_REGISTER + reg)
    ((readOne c (R_REGISTER + reg) [0] hw).data.set 0 d) (readOne c (R_REGISTER + reg) [0] hw).hw
  have := (e1.trans e2).transactions_newEvents
  simpa [readOne, finish] using this

/-! ## Claim on the mailbox counter -/

/-- C11: after `readRxFIFO`, for every mailbox state, destination and capacity,
`bytesAvailable` returns 0; `bytesAvailable` only reads the counter
`receiveBytesAvailable` (it returns a value and has no state to hand back), so
asking twice gives the same answer. -/
theorem bytesAvailable_after_readRxFIFO :
    ∀ (σ : Type) (data : List Nat) (capacity : Nat) (s : Driver σ),
      bytesAvailable (readRxFIFO data capacity s).2 = 0 ∧
        bytesAvailable s = s.receiveBytesAvailable :=
  fun _ _ _ _ => ⟨rfl, rfl⟩

/-! ## Bits of a byte -/

theorem agreeOutside_of_byteAgree (field : List Nat) (f : Nat → Nat) (h : byteAgree field f)
    (v : Nat) (hv : v < 256) : AgreeOutside field (f v) v := by
  intro i hi
  obtain ⟨hlt, hb⟩ := h v hv
  by_cases h8 : i < 8
  · exact hb i h8 hi
  · have hp : 256 ≤ 2 ^ i := by
      calc 256 = 2 ^ 8 := by norm_num
        _ ≤ 2 ^ i := Nat.pow_le_pow_right (by norm_num) (by omega)
    rw [Nat.testBit_eq_false_of_lt (lt_of_lt_of_le hlt hp),
      Nat.testBit_eq_false_of_lt (lt_of_lt_of_le hv hp)]

theorem reportedRegister_lt {σ : Type} (c : Chip σ) (reg : Nat) (h : reg ∈ writeSingle)
    (hw : Hw σ) : reportedRegister c reg hw < 256 := by
  have hr : reg ∈ readSingle := by
    revert h
    simp only [readSingle, writeSingle, List.mem_cons, List.mem_singleton, List.not_mem_nil,
      or_false]
    tauto
  simp only [reportedRegister, writeCommand_read_single c reg hr, readOne, finish,
    List.set_cons_zero, List.getD_cons_zero, spi]
  omega

/-- A setter that reads `reg`, writes `f` of the value read and touches nothing
else performs a read-modify-write outside `field` as soon as `f` passes the
byte test. -/
theorem readModifyWrite_of {σ : Type} (c : Chip σ) (reg : Nat) (h : reg ∈ writeSingle)
    (field : List Nat) (f : Nat → Nat) (hf : byteAgree field f) (s t : Driver σ)
    (ht : t.hw = (writeCommand c (W_REGISTER + reg)
          ((writeCommand c (R_REGISTER + reg) [0] 1 s.hw).data.set 0
            (f ((writeCommand c (R_REGISTER + reg) [0] 1 s.hw).data.getD 0 0))) 1
          (writeCommand c (R_REGISTER + reg) [0] 1 s.hw).hw).hw) :
    ReadModifyWrite c reg field s t := by
  refine ⟨f (reportedRegister c reg s.hw), ?_, ?_⟩
  · rw [ht]
    exact read_then_write_transactions c reg h _ s.hw
  · exact agreeOutside_of_byteAgree field f hf _ (reportedRegister_lt c reg h s.hw)

/-! ## Claims on `setMode` -/

set_option maxRecDepth 1000000 in
/-- C16: with `v` the CONFIG value the chip reports, `setMode(Receiver)` runs a
read of CONFIG and a write of `v | 0x01`, `setMode(Transmitter)` a read and a
write of `v & 0xFE`; both written values agree with `v` on every bit but bit 0;
on a chip reporting `0b01000010`, `setMode(Receiver)` writes `0b01000011`. -/
theorem setMode_writes_back :
    (∀ (σ : Type) (c : Chip σ) (s : Driver σ),
      transactions (newEvents s.hw.trace (setMode c Mode.NRF24_RECEIVER s).hw.trace)
          = [[R_REGISTER + CONFIG, NOP],
             [W_REGISTER + CONFIG, reportedRegister c CONFIG s.hw ||| 0x01]]
        ∧ transactions (newEvents s.hw.trace (setMode c Mode.NRF24_TRANSMITTER s).hw.trace)
          = [[R_REGISTER + CONFIG, NOP],
             [W_REGISTER + CONFIG, reportedRegister c CONFIG s.hw &&& 0xFE]]
        ∧ AgreeOutside [0] (reportedRegister c CONFIG s.hw ||| 0x01)
            (reportedRegister c CONFIG s.hw)
        ∧ AgreeOutside [0] (reportedRegister c CONFIG s.hw &&& 0xFE)
            (reportedRegister c CONFIG s.hw))
      ∧ reportedRegister scriptChip CONFIG (idle [14, 0b01000010, 14, 0]) = 0b01000010
      ∧ transactions (setMode scriptChip Mode.NRF24_RECEIVER
            (Driver.init (idle [14, 0b01000010, 14, 0]))).hw.trace
          = [[R_REGISTER + CONFIG, NOP], [W_REGISTER + CONFIG, 0b01000011]] := by
  refine ⟨fun σ c s => ⟨?_, ?_, ?_, ?_⟩, by decide, by decide⟩
  · exact read_then_write_transactions c CONFIG (by decide) _ s.hw
  · exact read_then_write_transactions c CONFIG (by decide) _ s.hw
  · exact agreeOutside_of_byteAgree [0] (fun v => v ||| 0x01) (by decide) _
      (reportedRegister_lt c CONFIG (by decide) s.hw)
  · exact agreeOutside_of_byteAgree [0] (fun v => v &&& 0xFE) (by decide) _
      (reportedRegister_lt c CONFIG (by decide) s.hw)

set_option maxRecDepth 1000000 in
/-- C17: `setMode` leaves the recorded mode `operationMode` as it was, whatever
the argument: after `nRF_Config(Transmitter)` and then `setMode(Receiver)` the
recorded mode is still Transmitter although the Receiver bit was written to
CONFIG. -/
theorem setMode_keeps_operationMode :
    (∀ (σ : Type) (c : Chip σ) (m : Mode) (s : Driver σ),
        (setMode c m s).operationMode = s.operationMode)
      ∧ (setMode scriptChip Mode.NRF24_RECEIVER
          (nRF_Config scriptChip Mode.NRF24_TRANSMITTER (Driver.init (idle [])))).operationMode
        = Mode.NRF24_TRANSMITTER
      ∧ (transactions (newEvents
            (nRF_Config scriptChip Mode.NRF24_TRANSMITTER (Driver.init (idle []))).hw.trace
            (setMode scriptChip Mode.NRF24_RECEIVER
              (nRF_Config scriptChip Mode.NRF24_TRANSMITTER
                (Driver.init (idle [])))).hw.trace))
        = [[R_REGISTER + CONFIG, NOP], [W_REGISTER + CONFIG, 0x01]] := by
  refine ⟨fun _ _ _ _ => rfl, ?_, ?_⟩
  · rfl
  · decide

/-! ## The setters as read-modify-write operations -/

set_option maxRecDepth 1000000 in
theorem byteAgree_crc0 : byteAgree [2, 3] (fun d => d &&& 0xF7) := by decide

set_option maxRecDepth 1000000 in
theorem byteAgree_crc1 : byteAgree [2, 3] (fun d => (d ||| 0x08) &&& 0xFB) := by decide

set_option maxRecDepth 1000000 in
theorem byteAgree_crc2 : byteAgree [2, 3] (fun d => (d ||| 0x08) ||| 0x04) := by decide

set_option maxRecDepth 1000000 in
theorem byteAgree_id : byteAgree [2, 3] (fun d => d) := by decide

set_option maxRecDepth 1000000 in
theorem byteAgree_powerUp : byteAgree [1] (fun d => d ||| 0x02) := by decide

set_option maxRecDepth 1000000 in
theorem byteAgree_powerDown : byteAgree [1] (fun d => d &&& 0xFD) := by decide

set_option maxRecDepth 1000000 in
theorem byteAgree_baud250 : byteAgree [3, 5] (fun d => (d ||| 0x20) &&& 0xF7) := by decide

set_option maxRecDepth 1000000 in
theorem byteAgree_baud1M : byteAgree [3, 5] (fun d => (d &&& 0xDF) &&& 0xF7) := by decide

set_option maxRecDepth 1000000 in
theorem byteAgree_baud2M : byteAgree [3, 5] (fun d => (d &&& 0xDF) ||| 0x08) := by decide

set_option maxRecDepth 1000000 in
theorem byteAgree_bit0set : byteAgree [0] (fun d => d ||| 0x01) := by decide

set_option maxRecDepth 1000000 in
theorem byteAgree_bit0clear : byteAgree [0] (fun d => d &&& 0xFE) := by decide

set_option maxRecDepth 1000000 in
theorem byteAgree_aw3 : byteAgree [0, 1] (fun d => (d ||| 0x01) &&& 0xFD) := by decide

set_option maxRecDepth 1000000 in
theorem byteAgree_aw4 : byteAgree [0, 1] (fun d => (d &&& 0xFE) ||| 0x02) := by decide

set_option maxRecDepth 1000000 in
theorem byteAgree_aw5 : byteAgree [0, 1] (fun d => d ||| 0x03) := by decide

set_option maxRecDepth 1000000 in
theorem byteAgree_pwr18 : byteAgree [1, 2] (fun d => d &&& 0xF9) := by decide

set_option maxRecDepth 1000000 in
theorem byteAgree_pwr12 : byteAgree [1, 2] (fun d => (d ||| 0x02) &&& 0xFB) := by decide

set_option maxRecDepth 1000000 in
theorem byteAgree_pwr6 : byteAgree [1, 2] (fun d => (d &&& 0xFD) ||| 0x04) := by decide

set_option maxRecDepth 1000000 in
theorem byteAgree_pwr0 : byteAgree [1, 2] (fun d => d ||| 0x06) := by decide

set_option maxRecDepth 1000000 in
theorem byteAgree_mask000 : byteAgree [4, 5, 6] (fun d => ((d ||| 0x40) ||| 0x20) ||| 0x10) := by decide

set_option maxRecDepth 1000000 in
theorem byteAgree_mask001 : byteAgree [4, 5, 6] (fun d => ((d ||| 0x40) ||| 0x20) &&& 0xEF) := by decide

set_option maxRecDepth 1000000 in
theorem byteAgree_mask010 : byteAgree [4, 5, 6] (fun d => ((d ||| 0x40) &&& 0xDF) ||| 0x10) := by decide

set_option maxRecDepth 1000000 in
theorem byteAgree_mask011 : byteAgree [4, 5, 6] (fun d => ((d ||| 0x40) &&& 0xDF) &&& 0xEF) := by decide

set_option maxRecDepth 1000000 in
theorem byteAgree_mask100 : byteAgree [4, 5, 6] (fun d => ((d &&& 0xBF) ||| 0x20) ||| 0x10) := by decide

set_option maxRecDepth 1000000 in
theorem byteAgree_mask101 : byteAgree [4, 5, 6] (fun d => ((d &&& 0xBF) ||| 0x20) &&& 0xEF) := by decide

set_option maxRecDepth 1000000 in
theorem byteAgree_mask110 : byteAgree [4, 5, 6] (fun d => ((d &&& 0xBF) &&& 0xDF) ||| 0x10) := by decide

set_option maxRecDepth 1000000 in
theorem byteAgree_mask111 : byteAgree [4, 5, 6] (fun d => ((d &&& 0xBF) &&& 0xDF) &&& 0xEF) := by decide

theorem setCRCScheme_rmw {σ : Type} (c : Chip σ) (num : Nat) (s : Driver σ) :
    ReadModifyWrite c CONFIG [2, 3] s (setCRCScheme c num s) := by
  by_cases h0 : num = 0
  · subst h0
    exact readModifyWrite_of c CONFIG (by decide) [2, 3] (fun d => d &&& 0xF7) byteAgree_crc0 s
      (setCRCScheme c 0 s) (by simp only [setCRCScheme, if_true])
  · by_cases h1 : num = 1
    · subst h1
      exact readModifyWrite_of c CONFIG (by decide) [2, 3] (fun d => (d ||| 0x08) &&& 0xFB) byteAgree_crc1 s
        (setCRCScheme c 1 s) (by simp only [setCRCScheme, if_true, if_false, OfNat.ofNat_ne_zero, one_ne_zero])
    · by_cases h2 : num = 2
      · subst h2
        exact readModifyWrite_of c CONFIG (by decide) [2, 3] (fun d => (d ||| 0x08) ||| 0x04) byteAgree_crc2 s
          (setCRCScheme c 2 s) (by simp only [setCRCScheme, if_true, if_false, OfNat.ofNat_ne_zero, OfNat.ofNat_ne_one])
      · exact readModifyWrite_of c CONFIG (by decide) [2, 3] (fun d => d) byteAgree_id s
          (setCRCScheme c num s) (by simp only [setCRCScheme, h0, h1, h2, if_false])

theorem setPowerUp_rmw {σ : Type} (c : Chip σ) (s : Driver σ) :
    ReadModifyWrite c CONFIG [1] s (setPowerUp c s) := by
  exact readModifyWrite_of c CONFIG (by decide) [1] (fun d => d ||| 0x02) byteAgree_powerUp s
    (setPowerUp c s) (by simp only [setPowerUp])

theorem setPowerDown_rmw {σ : Type} (c : Chip σ) (s : Driver σ) :
    ReadModifyWrite c CONFIG [1] s (setPowerDown c s) := by
  exact readModifyWrite_of c CONFIG (by decide) [1] (fun d => d &&& 0xFD) byteAgree_powerDown s
    (setPowerDown c s) (by simp only [setPowerDown])

theorem setBaudRate_rmw {σ : Type} (c : Chip σ) (br : NRF24_BaudRate) (s : Driver σ) :
    ReadModifyWrite c RF_SETUP [3, 5] s (setBaudRate c br s) := by
  cases br
  · exact readModifyWrite_of c RF_SETUP (by decide) [3, 5] (fun d => (d ||| 0x20) &&& 0xF7) byteAgree_baud250 s
      (setBaudRate c NRF24_BaudRate.NRF24_250Kbps s) (by simp only [setBaudRate, if_true, if_false, Bool.false_eq_true])
  · exact readModifyWrite_of c RF_SETUP (by decide) [3, 5] (fun d => (d &&& 0xDF) &&& 0xF7) byteAgree_baud1M s
      (setBaudRate c NRF24_BaudRate.NRF24_1Mbps s) (by simp only [setBaudRate, if_true, if_false, Bool.false_eq_true])
  · exact readModifyWrite_of c RF_SETUP (by decide) [3, 5] (fun d => (d &&& 0xDF) ||| 0x08) byteAgree_baud2M s
      (setBaudRate c NRF24_BaudRate.NRF24_2Mbps s) (by simp only [setBaudRate, if_true, if_false, Bool.false_eq_true])

theorem setAutoAck_rmw {σ : Type} (c : Chip σ) (param : Bool) (s : Driver σ) :
    ReadModifyWrite c EN_AA [0] s (setAutoAck c param s) := by
  cases param
  · exact readModifyWrite_of c EN_AA (by decide) [0] (fun d => d &&& 0xFE) byteAgree_bit0clear s
      (setAutoAck c false s) (by simp only [setAutoAck, if_true, if_false, Bool.false_eq_true])
  · exact readModifyWrite_of c EN_AA (by decide) [0] (fun d => d ||| 0x01) byteAgree_bit0set s
      (setAutoAck c true s) (by simp only [setAutoAck, if_true, if_false, Bool.false_eq_true])

theorem enableRxDataPipe_rmw {σ : Type} (c : Chip σ) (param : Bool) (s : Driver σ) :
    ReadModifyWrite c EN_RXADDR [0] s (enableRxDataPipe c param s) := by
  cases param
  · exact readModifyWrite_of c EN_RXADDR (by decide) [0] (fun d => d &&& 0xFE) byteAgree_bit0clear s
      (enableRxDataPipe c false s) (by simp only [enableRxDataPipe, if_true, if_false, Bool.false_eq_true])
  · exact readModifyWrite_of c EN_RXADDR (by decide) [0] (fun d => d ||| 0x01) byteAgree_bit0set s
      (enableRxDataPipe c true s) (by simp only [enableRxDataPipe, if_true, if_false, Bool.false_eq_true])

theorem setAddressWidth_rmw {σ : Type} (c : Chip σ) (aw : NRF24_AddressWidth) (s : Driver σ) :
    ReadModifyWrite c SETUP_AW [0, 1] s (setAddressWidth c aw s) := by
  cases aw
  · exact readModifyWrite_of c SETUP_AW (by decide) [0, 1] (fun d => (d ||| 0x01) &&& 0xFD) byteAgree_aw3 s
      (setAddressWidth c NRF24_AddressWidth.NRF24_3Byte s) (by simp only [setAddressWidth, if_true, if_false, Bool.false_eq_true])
  · exact readModifyWrite_of c SETUP_AW (by decide) [0, 1] (fun d => (d &&& 0xFE) ||| 0x02) byteAgree_aw4 s
      (setAddressWidth c NRF24_AddressWidth.NRF24_4Byte s) (by simp only [setAddressWidth, if_true, if_false, Bool.false_eq_true])
  · exact readModifyWrite_of c SETUP_AW (by decide) [0, 1] (fun d => d ||| 0x03) byteAgree_aw5 s
      (setAddressWidth c NRF24_AddressWidth.NRF24_5Byte s) (by simp only [setAddressWidth, if_true, if_false, Bool.false_eq_true])

theorem setTXPower_rmw {σ : Type} (c : Chip σ) (power : NRF24_TXPower) (s : Driver σ) :
    ReadModifyWrite c RF_SETUP [1, 2] s (setTXPower c power s) := by
  cases power
  · exact readModifyWrite_of c RF_SETUP (by decide) [1, 2] (fun d => d &&& 0xF9) byteAgree_pwr18 s
      (setTXPower c NRF24_TXPower.NRF24_m18dBm s) (by simp only [setTXPower, if_true, if_false, Bool.false_eq_true])
  · exact readModifyWrite_of c RF_SETUP (by decide) [1, 2] (fun d => (d ||| 0x02) &&& 0xFB) byteAgree_pwr12 s
      (setTXPower c NRF24_TXPower.NRF24_m12dBm s) (by simp only [setTXPower, if_true, if_false, Bool.false_eq_true])
  · exact readModifyWrite_of c RF_SETUP (by decide) [1, 2] (fun d => (d &&& 0xFD) ||| 0x04) byteAgree_pwr6 s
      (setTXPower c NRF24_TXPower.NRF24_m6dBm s) (by simp only [setTXPower, if_true, if_false, Bool.false_eq_true])
  · exact readModifyWrite_of c RF_SETUP (by decide) [1, 2] (fun d => d ||| 0x06) byteAgree_pwr0 s
      (setTXPower c NRF24_TXPower.NRF24_0dBm s) (by simp only [setTXPower, if_true, if_false, Bool.false_eq_true])

theorem setInterruptMask_rmw {σ : Type} (c : Chip σ) (RX_DR TX_DS MAX_RT : Bool) (s : Driver σ) :
    ReadModifyWrite c CONFIG [4, 5, 6] s (setInterruptMask c RX_DR TX_DS MAX_RT s) := by
  cases RX_DR <;> cases TX_DS <;> cases MAX_RT
  · exact readModifyWrite_of c CONFIG (by decide) [4, 5, 6] (fun d => ((d ||| 0x40) ||| 0x20) ||| 0x10) byteAgree_mask000 s
      (setInterruptMask c false false false s) (by simp only [setInterruptMask, if_true, if_false, Bool.false_eq_true])
  · exact readModifyWrite_of c CONFIG (by decide) [4, 5, 6] (fun d => ((d ||| 0x40) ||| 0x20) &&& 0xEF) byteAgree_mask001 s
      (setInterruptMask c false false true s) (by simp only [setInterruptMask, if_true, if_false, Bool.false_eq_true])
  · exact readModifyWrite_of c CONFIG (by decide) [4, 5, 6] (fun d => ((d ||| 0x40) &&& 0xDF) ||| 0x10) byteAgree_mask010 s
      (setInterruptMask c false true false s) (by simp only [setInterruptMask, if_true, if_false, Bool.false_eq_true])
  · exact readModifyWrite_of c CONFIG (by decide) [4, 5, 6] (fun d => ((d ||| 0x40) &&& 0xDF) &&& 0xEF) byteAgree_mask011 s
      (setInterruptMask c false true true s) (by simp only [setInterruptMask, if_true, if_false, Bool.false_eq_true])
  · exact readModifyWrite_of c CONFIG (by decide) [4, 5, 6] (fun d => ((d &&& 0xBF) ||| 0x20) ||| 0x10) byteAgree_mask100 s
      (setInterruptMask c true false false s) (by simp only [setInterruptMask, if_true, if_false, Bool.false_eq_true])
  · exact readModifyWrite_of c CONFIG (by decide) [4, 5, 6] (fun d => ((d &&& 0xBF) ||| 0x20) &&& 0xEF) byteAgree_mask101 s
      (setInterruptMask c true false true s) (by simp only [setInterruptMask, if_true, if_false, Bool.false_eq_true])
  · exact readModifyWrite_of c CONFIG (by decide) [4, 5, 6] (fun d => ((d &&& 0xBF) &&& 0xDF) ||| 0x10) byteAgree_mask110 s
      (setInterruptMask c true true false s) (by simp only [setInterruptMask, if_true, if_false, Bool.false_eq_true])
  · exact readModifyWrite_of c CONFIG (by decide) [4, 5, 6] (fun d => ((d &&& 0xBF) &&& 0xDF) &&& 0xEF) byteAgree_mask111 s
      (setInterruptMask c true true true s) (by simp only [setInterruptMask, if_true, if_false, Bool.false_eq_true])

/-! ## Claim on the setters -/

/-- C18: each of the nine setters runs exactly one read and one write of its
target register, and the value written agrees with the value the chip reported
on every bit outside the field of the setter: CONFIG bits 3:2 (`setCRCScheme`),
CONFIG bit 1 (`setPowerUp`, `setPowerDown`), RF_SETUP bits 5 and 3
(`setBaudRate`), EN_AA bit 0, EN_RXADDR bit 0, SETUP_AW bits 1:0, RF_SETUP bits
2:1 (`setTXPower`), CONFIG bits 6:4 (`setInterruptMask`). -/
theorem setters_read_modify_write {σ : Type} (c : Chip σ) (s : Driver σ) :
    (∀ num, ReadModifyWrite c CONFIG [2, 3] s (setCRCScheme c num s))
      ∧ ReadModifyWrite c CONFIG [1] s (setPowerUp c s)
      ∧ ReadModifyWrite c CONFIG [1] s (setPowerDown c s)
      ∧ (∀ br, ReadModifyWrite c RF_SETUP [3, 5] s (setBaudRate c br s))
      ∧ (∀ param, ReadModifyWrite c EN_AA [0] s (setAutoAck c param s))
      ∧ (∀ param, ReadModifyWrite c EN_RXADDR [0] s (enableRxDataPipe c param s))
      ∧ (∀ aw, ReadModifyWrite c SETUP_AW [0, 1] s (setAddressWidth c aw s))
      ∧ (∀ power, ReadModifyWrite c RF_SETUP [1, 2] s (setTXPower c power s))
      ∧ (∀ RX_DR TX_DS MAX_RT, ReadModifyWrite c CONFIG [4, 5, 6] s
          (setInterruptMask c RX_DR TX_DS MAX_RT s)) :=
  ⟨fun num => setCRCScheme_rmw c num s, setPowerUp_rmw c s, setPowerDown_rmw c s,
    fun br => setBaudRate_rmw c br s, fun param => setAutoAck_rmw c param s,
    fun param => enableRxDataPipe_rmw c param s, fun aw => setAddressWidth_rmw c aw s,
    fun power => setTXPower_rmw c power s,
    fun RX_DR TX_DS MAX_RT => setInterruptMask_rmw c RX_DR TX_DS MAX_RT s⟩

/-! ## The loops of `writeCommand` in detail -/

theorem loopCount_of_gt (n : Int) (h1 : -32768 < n) (h2 : n ≤ 32767) :
    loopCount n = n.toNat := by
  unfold loopCount wrap16
  omega

theorem readLoop_spec {σ : Type} (c : Chip σ) (k : Nat) : ∀ (data : List Nat) (hw : Hw σ),
    ∃ miso : List Nat, miso.length = k
      ∧ (readLoop c k data hw).2.trace = hw.trace ++ miso.map (BusEvent.spi NOP)
      ∧ (readLoop c k data hw).2.CSN = hw.CSN
      ∧ (∀ j, k ≤ j → (readLoop c k data hw).1.getD j 0 = data.getD j 0)
      ∧ (k ≤ data.length → ∀ j, j < k →
          (readLoop c k data hw).1.getD j 0 = miso.getD (k - 1 - j) 0) := by
  induction k with
  | zero =>
    intro data hw
    exact ⟨[], rfl, by simp [readLoop], rfl, fun j _ => rfl, fun _ j hj => absurd hj (by omega)⟩
  | succ k ih =>
    intro data hw
    obtain ⟨miso, hlen, htr, hcsn, hkeep, hget⟩ := ih (data.set k (spi c NOP hw).1) (spi c NOP hw).2
    refine ⟨(spi c NOP hw).1 :: miso, by simp [hlen], ?_, ?_, ?_, ?_⟩
    · simp only [readLoop, htr]
      simp [spi]
    · simp only [readLoop, hcsn]
      rfl
    · intro j hj
      simp only [readLoop]
      rw [hkeep j (by omega)]
      simp only [List.getD_eq_getElem?_getD]
      rw [List.getElem?_set_ne (by omega)]
    · intro hk j hj
      simp only [readLoop]
      by_cases hjk : j = k
      · subst hjk
        rw [hkeep j (le_refl j)]
        simp only [List.getD_eq_getElem?_getD]
        rw [List.getElem?_set_self (by omega)]
        simp
      · have hlt : j < k := by omega
        rw [hget (by simp; omega) j hlt]
        have : k + 1 - 1 - j = (k - 1 - j) + 1 := by omega
        rw [this]
        simp [List.getD_eq_getElem?_getD]

theorem writeLoop_spec {σ : Type} (c : Chip σ) (k : Nat) (data : List Nat) : ∀ hw : Hw σ,
    ∃ miso : List Nat, miso.length = k
      ∧ (writeLoop c k data hw).trace
          = hw.trace ++ List.zipWith BusEvent.spi (wireBytes k data) miso
      ∧ (writeLoop c k data hw).CSN = hw.CSN := by
  induction k with
  | zero =>
    intro hw
    exact ⟨[], rfl, by simp [writeLoop, wireBytes], rfl⟩
  | succ k ih =>
    intro hw
    obtain ⟨miso, hlen, htr, hcsn⟩ := ih (spi c (data.getD k 0) hw).2
    refine ⟨(spi c (data.getD k 0) hw).1 :: miso, by simp [hlen], ?_, ?_⟩
    · simp only [writeLoop, htr, wireBytes_succ, List.zipWith_cons_cons]
      simp [spi]
    · simp only [writeLoop, hcsn]
      rfl

/-! ## Every accepted call is one transaction -/

theorem isReadOpcode_false (ins : Nat) (h1 : ins &&& 0xE0 ≠ R_REGISTER) (h2 : ins ≠ R_RX_PAYLOAD)
    (h3 : ins ≠ R_RX_PL_WID) : isReadOpcode ins = false := by
  simp [isReadOpcode, h1, h2, h3]

theorem isReadOpcode_of_write (ins : Nat) (h : ins &&& 0xE0 = W_REGISTER) :
    isReadOpcode ins = false := by
  refine isReadOpcode_false ins ?_ ?_ ?_
  · rw [h]; decide
  · rintro rfl; revert h; decide
  · rintro rfl; revert h; decide

theorem isReadOpcode_of_ack (ins : Nat) (h : ins &&& 0xE0 = W_ACK_PAYLOAD) :
    isReadOpcode ins = false := by
  refine isReadOpcode_false ins ?_ ?_ ?_
  · rw [h]; decide
  · rintro rfl; revert h; decide
  · rintro rfl; revert h; decide

theorem writeCommand_accepted_cases {σ : Type} (c : Chip σ) (ins : Nat) (b : List Nat) (n : Int)
    (hw : Hw σ) (hacc : (writeCommand c ins b n hw).error = ErrorCode.OK) :
    (isReadOpcode ins = true ∧ n = 1 ∧ writeCommand c ins b n hw = readOne c ins b hw)
    ∨ (isReadOpcode ins = false ∧ n = 1 ∧ writeCommand c ins b n hw = writeOne c ins b hw)
    ∨ (isReadOpcode ins = true ∧ n ≤ 32 ∧ writeCommand c ins b n hw = readMany c ins b n hw)
    ∨ (isReadOpcode ins = false ∧ n ≤ 32 ∧ writeCommand c ins b n hw = writeMany c ins b n hw)
    ∨ (isReadOpcode ins = false ∧ n = 0 ∧ writeCommand c ins b n hw = commandOnly c ins b hw) := by
  unfold writeCommand at hacc
  by_cases h1 : ins &&& 0xE0 = R_REGISTER
  · have hr : isReadOpcode ins = true := by simp [isReadOpcode, h1]
    simp only [h1, if_true] at hacc
    by_cases h2 : ins &&& 0x1F ∈ readSingle
    · simp only [h2, if_true] at hacc
      by_cases h3 : n = 1
      · refine Or.inl ⟨hr, h3, ?_⟩
        simp +decide only [writeCommand, h1, h2, h3, if_true]
      · simp only [h3, if_false] at hacc
        exact absurd hacc (by simp [finish])
    · simp only [h2, if_false] at hacc
      by_cases h3 : ins &&& 0x1F ∈ addressRegs
      · simp only [h3, if_true] at hacc
        by_cases h4 : n ≤ 5
        · refine Or.inr (Or.inr (Or.inl ⟨hr, by omega, ?_⟩))
          simp +decide only [writeCommand, h1, h2, h3, h4, if_true, if_false]
        · simp only [h4, if_false] at hacc
          exact absurd hacc (by simp [finish])
      · simp only [h3, if_false] at hacc
        exact absurd hacc (by simp [finish])
  · simp only [h1, if_false] at hacc
    by_cases h2 : ins &&& 0xE0 = W_REGISTER
    · have hr := isReadOpcode_of_write ins h2
      simp only [h2, if_true] at hacc
      by_cases h3 : ins &&& 0x1F ∈ writeSingle
      · simp only [h3, if_true] at hacc
        by_cases h4 : n = 1
        · refine Or.inr (Or.inl ⟨hr, h4, ?_⟩)
          simp +decide only [writeCommand, h1, h2, h3, h4, if_true, if_false]
        · simp only [h4, if_false] at hacc
          exact absurd hacc (by simp [finish])
      · simp only [h3, if_false] at hacc
        by_cases h4 : ins &&& 0x1F ∈ [OBSERVE_TX, RPD]
        · simp only [h4, if_true] at hacc
          exact absurd hacc (by simp [finish])
        · simp only [h4, if_false] at hacc
          by_cases h5 : ins &&& 0x1F ∈ addressRegs
          · simp only [h5, if_true] at hacc
            by_cases h6 : n ≤ 5
            · refine Or.inr (Or.inr (Or.inr (Or.inl ⟨hr, by omega, ?_⟩)))
              simp +decide only [writeCommand, h1, h2, h3, h4, h5, h6, if_true, if_false]
            · simp only [h6, if_false] at hacc
              exact absurd hacc (by simp [finish])
          · simp only [h5, if_false] at hacc
            exact absurd hacc (by simp [finish])
    · simp only [h2, if_false] at hacc
      by_cases h3 : ins &&& 0xE0 = W_ACK_PAYLOAD
      · have hr := isReadOpcode_of_ack ins h3
        simp only [h3, if_true] at hacc
        by_cases h4 : n ≤ 32
        · refine Or.inr (Or.inr (Or.inr (Or.inl ⟨hr, h4, ?_⟩)))
          simp +decide only [writeCommand, h1, h2, h3, h4, if_true, if_false]
        · simp only [h4, if_false] at hacc
          exact absurd hacc (by simp [finish])
      · simp only [h3, if_false] at hacc
        by_cases h4 : ins = R_RX_PAYLOAD
        · have hr : isReadOpcode ins = true := by simp [isReadOpcode, h4]
          simp only [h4, if_true] at hacc
          by_cases h5 : n ≤ 32
          · refine Or.inr (Or.inr (Or.inl ⟨hr, h5, ?_⟩))
            simp +decide only [writeCommand, h1, h2, h3, h4, h5, if_true, if_false]
          · simp only [h5, if_false] at hacc
            exact absurd hacc (by simp [finish])
        · simp only [h4, if_false] at hacc
          by_cases h5 : ins ∈ [W_TX_PAYLOAD, W_TX_PAYLOAD_NOACK]
          · have hr : isReadOpcode ins = false := by
              refine isReadOpcode_false ins h1 h4 ?_
              rintro rfl; revert h5; decide
            simp only [h5, if_true] at hacc
            by_cases h6 : n ≤ 32
            · refine Or.inr (Or.inr (Or.inr (Or.inl ⟨hr, h6, ?_⟩)))
              simp +decide only [writeCommand, h1, h2, h3, h4, h5, h6, if_true, if_false]
            · simp only [h6, if_false] at hacc
              exact absurd hacc (by simp [finish])
          · simp only [h5, if_false] at hacc
            by_cases h6 : ins ∈ [FLUSH_TX, FLUSH_RX, REUSE_TX_PL, NOP]
            · have hr : isReadOpcode ins = false := by
                refine isReadOpcode_false ins h1 h4 ?_
                rintro rfl; revert h6; decide
              simp only [h6, if_true] at hacc
              by_cases h7 : n = 0
              · refine Or.inr (Or.inr (Or.inr (Or.inr ⟨hr, h7, ?_⟩)))
                simp +decide only [writeCommand, h1, h2, h3, h4, h5, h6, h7, if_true, if_false]
              · simp only [h7, if_false] at hacc
                exact absurd hacc (by simp [finish])
            · simp only [h6, if_false] at hacc
              by_cases h7 : ins = ACTIVATE
              · have hr : isReadOpcode ins = false := by
                  refine isReadOpcode_false ins h1 h4 ?_
                  rw [h7]; decide
                simp only [h7, if_true] at hacc
                by_cases h8 : n = 1
                · refine Or.inr (Or.inl ⟨hr, h8, ?_⟩)
                  simp +decide only [writeCommand, h1, h2, h3, h4, h5, h6, h7, h8, if_true, if_false]
                · simp only [h8, if_false] at hacc
                  exact absurd hacc (by simp [finish])
              · simp only [h7, if_false] at hacc
                by_cases h8 : ins = R_RX_PL_WID
                · have hr : isReadOpcode ins = true := by simp [isReadOpcode, h8]
                  simp only [h8, if_true] at hacc
                  by_cases h9 : n = 1
                  · refine Or.inl ⟨hr, h9, ?_⟩
                    simp +decide only [writeCommand, h1, h2, h3, h4, h5, h6, h7, h8, h9, if_true, if_false]
                  · simp only [h9, if_false] at hacc
                    exact absurd hacc (by simp [finish])
                · simp only [h8, if_false] at hacc
                  exact absurd hacc (by simp [finish])

theorem writeCommand_NOP {σ : Type} (c : Chip σ) (data : List Nat) (hw : Hw σ) :
    writeCommand c NOP data 0 hw = commandOnly c NOP data hw := by
  simp +decide [writeCommand]

theorem zipWith_replicate_spi (k : Nat) (miso : List Nat) (h : miso.length = k) :
    List.zipWith BusEvent.spi (List.replicate k NOP) miso = miso.map (BusEvent.spi NOP) := by
  induction miso generalizing k with
  | nil => simp
  | cons a t ih =>
    cases k with
    | zero => simp at h
    | succ k =>
      simp only [List.replicate_succ, List.zipWith_cons_cons, List.map_cons]
      rw [ih k (by simpa using h)]

theorem shape_readOne {σ : Type} (c : Chip σ) (ins : Nat) (b : List Nat) (hw : Hw σ) :
    TransactionShape c ins b 1 true hw (readOne c ins b hw) := by
  refine ⟨[(spi c NOP (spi c ins (setCSN c false hw)).2).1], rfl, ?_, rfl, rfl, ?_, ?_⟩
  · simp [readOne, finish, setCSN, spi, opcodeAnswer]
  · intro h
    cases h
  · intro _ hb j h1 h2
    have hj : j = 1 := by omega
    subst hj
    cases b with
    | nil => simp at hb
    | cons x t => simp [readOne, finish]

theorem shape_writeOne {σ : Type} (c : Chip σ) (ins : Nat) (b : List Nat) (hw : Hw σ) :
    TransactionShape c ins b 1 false hw (writeOne c ins b hw) := by
  refine ⟨[(spi c (b.getD 0 0) (spi c ins (setCSN c false hw)).2).1], rfl, ?_, rfl, rfl,
    fun _ => rfl, ?_⟩
  · simp [writeOne, finish, setCSN, spi, opcodeAnswer, wireBytes, List.range_succ]
  · intro h
    cases h

theorem shape_commandOnly {σ : Type} (c : Chip σ) (ins : Nat) (b : List Nat) (hw : Hw σ) :
    TransactionShape c ins b 0 false hw (commandOnly c ins b hw) := by
  refine ⟨[], rfl, ?_, rfl, rfl, fun _ => rfl, ?_⟩
  · simp [commandOnly, finish, setCSN, spi, opcodeAnswer, wireBytes]
  · intro h
    cases h

theorem shape_readMany {σ : Type} (c : Chip σ) (ins : Nat) (b : List Nat) (n : Int) (hw : Hw σ) :
    TransactionShape c ins b (loopCount n) true hw (readMany c ins b n hw) := by
  obtain ⟨miso, hlen, htr, hcsn, _, hget⟩ :=
    readLoop_spec c (loopCount n) b (spi c ins (setCSN c false hw)).2
  refine ⟨miso, hlen, ?_, rfl, rfl, ?_, ?_⟩
  · simp only [readMany, finish, if_true, zipWith_replicate_spi _ miso hlen]
    rw [setCSN_trace, htr, spi_trace, setCSN_trace, setCSN_chip]
    simp [opcodeAnswer, spi, setCSN]
  · intro h
    cases h
  · intro _ hb j h1 h2
    simp only [readMany, finish]
    rw [hget hb (loopCount n - j) (by omega)]
    congr 1
    omega

theorem shape_writeMany {σ : Type} (c : Chip σ) (ins : Nat) (b : List Nat) (n : Int)
    (hw : Hw σ) :
    TransactionShape c ins b (loopCount n) false hw (writeMany c ins b n hw) := by
  obtain ⟨miso, hlen, htr, hcsn⟩ :=
    writeLoop_spec c (loopCount n) b (spi c ins (setCSN c false hw)).2
  refine ⟨miso, hlen, ?_, rfl, rfl, fun _ => rfl, ?_⟩
  · simp only [writeMany, finish]
    rw [setCSN_trace, htr, spi_trace, setCSN_trace, setCSN_chip]
    simp [opcodeAnswer, spi, setCSN]
  · intro h
    cases h

/-- Every accepted call whose length is above the least 16-bit integer is one
transaction with `max(n, 0)` data bytes. -/
theorem writeCommand_shape {σ : Type} (c : Chip σ) (ins : Nat) (b : List Nat) (n : Int)
    (hw : Hw σ) (hacc : (writeCommand c ins b n hw).error = ErrorCode.OK) (hn : -32768 < n) :
    TransactionShape c ins b n.toNat (isReadOpcode ins) hw (writeCommand c ins b n hw) := by
  rcases writeCommand_accepted_cases c ins b n hw hacc with
    ⟨hr, h1, he⟩ | ⟨hr, h1, he⟩ | ⟨hr, h1, he⟩ | ⟨hr, h1, he⟩ | ⟨hr, h1, he⟩
  · rw [he, hr, h1]
    exact shape_readOne c ins b hw
  · rw [he, hr, h1]
    exact shape_writeOne c ins b hw
  · rw [he, hr, ← loopCount_of_gt n hn (by omega)]
    exact shape_readMany c ins b n hw
  · rw [he, hr, ← loopCount_of_gt n hn (by omega)]
    exact shape_writeMany c ins b n hw
  · rw [he, hr, h1]
    exact shape_commandOnly c ins b hw

theorem writeCommand_shape_exists {σ : Type} (c : Chip σ) (ins : Nat) (b : List Nat) (n : Int)
    (hw : Hw σ) (hacc : (writeCommand c ins b n hw).error = ErrorCode.OK) :
    ∃ k, TransactionShape c ins b k (isReadOpcode ins) hw (writeCommand c ins b n hw) := by
  rcases writeCommand_accepted_cases c ins b n hw hacc with
    ⟨hr, _, he⟩ | ⟨hr, _, he⟩ | ⟨hr, _, he⟩ | ⟨hr, _, he⟩ | ⟨hr, _, he⟩
  · exact ⟨1, by rw [he, hr]; exact shape_readOne c ins b hw⟩
  · exact ⟨1, by rw [he, hr]; exact shape_writeOne c ins b hw⟩
  · exact ⟨loopCount n, by rw [he, hr]; exact shape_readMany c ins b n hw⟩
  · exact ⟨loopCount n, by rw [he, hr]; exact shape_writeMany c ins b n hw⟩
  · exact ⟨0, by rw [he, hr]; exact shape_commandOnly c ins b hw⟩

theorem wireBytes_len (k : Nat) (data : List Nat) : (wireBytes k data).length = k := by
  simp [wireBytes]

theorem shape_trace_length {σ : Type} {c : Chip σ} {ins : Nat} {b : List Nat} {k : Nat}
    {rd : Bool} {hw : Hw σ} {r : WriteResult σ} (h : TransactionShape c ins b k rd hw r) :
    r.hw.trace.length = hw.trace.length + k + 3 := by
  obtain ⟨miso, hlen, htr, -⟩ := h
  rw [htr]
  cases rd
  · simp [List.length_zipWith, hlen, wireBytes_len]
    omega
  · simp [List.length_zipWith, hlen]
    omega

/-! ## Claims on the transaction format and the status byte -/

/-- C14 (as stated, refuted): the call `writeCommand(W_TX_PAYLOAD, b, -32768)`
is accepted, but its trace is not one transaction with `max(n, 0) = 0` data
bytes: the loop start `size - 1` wraps to 32767 and 32768 data bytes are
exchanged. -/
theorem writeCommand_least_int_not_shape :
    (writeCommand scriptChip W_TX_PAYLOAD [] (-32768) (idle [])).error = ErrorCode.OK
      ∧ ¬ TransactionShape scriptChip W_TX_PAYLOAD [] (Int.toNat (max (-32768) 0))
          (isReadOpcode W_TX_PAYLOAD) (idle [])
          (writeCommand scriptChip W_TX_PAYLOAD [] (-32768) (idle [])) := by
  have hk : loopCount (-32768) = 32768 := by
    unfold loopCount wrap16
    omega
  have hz : Int.toNat (max (-32768) 0) = 0 := by
    rw [max_eq_right (by omega)]
    rfl
  have hle : (-32768 : Int) ≤ 32 := by omega
  refine ⟨?_, ?_⟩
  · rw [writeCommand_W_TX_PAYLOAD scriptChip [] (-32768) hle]
    rfl
  · rw [writeCommand_W_TX_PAYLOAD scriptChip [] (-32768) hle, hz]
    intro h0
    have h1 := shape_trace_length h0
    have h2 := shape_trace_length (shape_writeMany scriptChip W_TX_PAYLOAD [] (-32768) (idle []))
    rw [hk] at h2
    omega

/-- C14 (amended): every accepted `writeCommand` call with buffer `b` and a
length `n` above -32768 is one bus transaction: chip-select falls once, the
opcode is exchanged, `max(n, 0)` data bytes are exchanged, chip-select rises
once and is high on return; a write sends `b[n-1], ..., b[0]` in that order and
leaves the buffer alone, a read sends `NOP` bytes and, when the buffer has `n`
bytes, stores the `k`-th byte received in `b[n-k]`. -/
theorem writeCommand_is_one_transaction {σ : Type} (c : Chip σ) (ins : Nat) (b : List Nat)
    (n : Int) (hw : Hw σ) (hacc : (writeCommand c ins b n hw).error = ErrorCode.OK)
    (hn : -32768 < n) :
    TransactionShape c ins b (Int.toNat (max n 0)) (isReadOpcode ins) hw
      (writeCommand c ins b n hw) := by
  have h : Int.toNat (max n 0) = n.toNat := by
    rcases le_total n 0 with h | h
    · rw [max_eq_right h]
      simp [Int.toNat_of_nonpos h]
    · rw [max_eq_left h]
  rw [h]
  exact writeCommand_shape c ins b n hw hacc hn

theorem writeCommand_is_one_transaction_witness :
    (writeCommand scriptChip R_RX_PAYLOAD [0, 0, 0] 3 (idle [14, 9, 8, 7])).error = ErrorCode.OK
      ∧ (-32768 : Int) < 3
      ∧ TransactionShape scriptChip R_RX_PAYLOAD [0, 0, 0] (Int.toNat (max 3 0))
          (isReadOpcode R_RX_PAYLOAD) (idle [14, 9, 8, 7])
          (writeCommand scriptChip R_RX_PAYLOAD [0, 0, 0] 3 (idle [14, 9, 8, 7])) :=
  ⟨by decide, by decide,
    writeCommand_is_one_transaction scriptChip R_RX_PAYLOAD [0, 0, 0] 3 (idle [14, 9, 8, 7])
      (by decide) (by decide)⟩

/-- C15: for every accepted call, the status in the returned `WriteAnswer` is
the byte received while the opcode byte was exchanged, the first exchange after
chip-select fell; `getStatus` returns that byte of a `NOP` transaction without
data. -/
theorem writeCommand_status_is_opcode_answer {σ : Type} (c : Chip σ) (ins : Nat) (b : List Nat)
    (n : Int) (hw : Hw σ) (hacc : (writeCommand c ins b n hw).error = ErrorCode.OK) :
    (writeCommand c ins b n hw).returnValue.status = opcodeAnswer c ins hw
      ∧ (newEvents hw.trace (writeCommand c ins b n hw).hw.trace).take 2
          = [BusEvent.csn false,
             BusEvent.spi ins (writeCommand c ins b n hw).returnValue.status]
      ∧ ∀ s : Driver σ, (getStatus c s).1 = opcodeAnswer c NOP s.hw
          ∧ transactions (newEvents s.hw.trace (getStatus c s).2.hw.trace) = [[NOP]] := by
  obtain ⟨k, miso, _, htr, _, hst, _⟩ := writeCommand_shape_exists c ins b n hw hacc
  refine ⟨hst, ?_, ?_⟩
  · rw [htr, hst]
    simp [newEvents]
  · intro s
    refine ⟨?_, ?_⟩
    · simp only [getStatus, writeCommand_NOP]
      rfl
    · simp only [getStatus, writeCommand_NOP]
      exact (emits_commandOnly c NOP [] s.hw).transactions_newEvents

theorem writeCommand_status_is_opcode_answer_witness :
    (writeCommand scriptChip R_RX_PL_WID [0] 1 (idle [14, 5])).error = ErrorCode.OK
      ∧ (writeCommand scriptChip R_RX_PL_WID [0] 1 (idle [14, 5])).returnValue.status = 14
      ∧ (writeCommand scriptChip R_RX_PL_WID [0] 1 (idle [14, 5])).returnValue.status
          = opcodeAnswer scriptChip R_RX_PL_WID (idle [14, 5]) :=
  ⟨by decide, by decide,
    (writeCommand_status_is_opcode_answer scriptChip R_RX_PL_WID [0] 1 (idle [14, 5])
      (by decide)).1⟩

/-! ## Every call of `writeCommand` adds whole transactions to the trace -/

theorem transactionsFrom_csn_false (o : Option (List Nat)) (t : List BusEvent) :
    transactionsFrom o (BusEvent.csn false :: t) = transactionsFrom (some []) t := by
  cases o <;> rfl

theorem transactionsFrom_spi (x : List Nat) (m a : Nat) (t : List BusEvent) :
    transactionsFrom (some x) (BusEvent.spi m a :: t) = transactionsFrom (some (x ++ [m])) t :=
  rfl

theorem transactionsFrom_csn_true (x : List Nat) (t : List BusEvent) :
    transactionsFrom (some x) (BusEvent.csn true :: t) = x :: transactionsFrom none t := rfl

theorem transactionsFrom_zipWith (mosi : List Nat) : ∀ (miso x : List Nat) (rest : List BusEvent),
    miso.length = mosi.length →
    transactionsFrom (some x) (List.zipWith BusEvent.spi mosi miso ++ rest)
      = transactionsFrom (some (x ++ mosi)) rest := by
  induction mosi with
  | nil =>
    intro miso x rest h
    simp
  | cons m t ih =>
    intro miso x rest h
    cases miso with
    | nil => simp at h
    | cons a miso =>
      rw [List.zipWith_cons_cons, List.cons_append, transactionsFrom_spi,
        ih miso (x ++ [m]) rest (by simpa using h)]
      simp

theorem emits_of_shape {σ : Type} {c : Chip σ} {ins : Nat} {b : List Nat} {k : Nat} {rd : Bool}
    {hw : Hw σ} {r : WriteResult σ} (h : TransactionShape c ins b k rd hw r) :
    Emits hw.trace r.hw.trace
      [ins :: (if rd = true then List.replicate k NOP else wireBytes k b)] := by
  obtain ⟨miso, hlen, htr, -⟩ := h
  refine ⟨_, htr, ?_⟩
  intro rest
  have hl : miso.length
      = (if rd = true then List.replicate k NOP else wireBytes k b).length := by
    cases rd <;> simp [hlen, wireBytes_len]
  rw [List.cons_append, List.cons_append, List.append_assoc, transactionsFrom_csn_false,
    transactionsFrom_spi, transactionsFrom_zipWith _ miso _ _ hl, List.singleton_append,
    transactionsFrom_csn_true]
  simp

theorem writeCommand_emits {σ : Type} (c : Chip σ) (ins : Nat) (b : List Nat) (n : Int)
    (hw : Hw σ) : ∃ t, Emits hw.trace (writeCommand c ins b n hw).hw.trace t := by
  by_cases hacc : (writeCommand c ins b n hw).error = ErrorCode.OK
  · obtain ⟨k, hk⟩ := writeCommand_shape_exists c ins b n hw hacc
    exact ⟨_, emits_of_shape hk⟩
  · rw [(writeCommand_of_rejected c ins b n hw hacc).1]
    exact ⟨[], Emits.refl _⟩

theorem emits_step {σ : Type} (c : Chip σ) (ins : Nat) (b : List Nat) (n : Int) (hw : Hw σ)
    (a : List BusEvent) (h : ∃ t, Emits a hw.trace t) :
    ∃ t, Emits a (writeCommand c ins b n hw).hw.trace t := by
  obtain ⟨t1, h1⟩ := h
  obtain ⟨t2, h2⟩ := writeCommand_emits c ins b n hw
  exact ⟨t1 ++ t2, h1.trans h2⟩

/-! ## Claims on the interrupt handler -/

/-- C13: whatever the driver state, the mode and the answers of the chip, the
transactions of a falling-edge interrupt end with the write of `0x70` to
STATUS followed by `FLUSH_TX`. -/
theorem pin_change_isr0_ends_with_cleanup :
    ∀ (σ : Type) (c : Chip σ) (s : Driver σ),
      [[W_REGISTER + STATUS, 0x70], [FLUSH_TX]]
        <:+ transactions (newEvents s.hw.trace (pin_change_isr0 c false s).hw.trace) := by
  intro σ c s
  have key : ∀ s1 : Driver σ, (∃ t, Emits s.hw.trace s1.hw.trace t) →
      [[W_REGISTER + STATUS, 0x70], [FLUSH_TX]] <:+ transactions (newEvents s.hw.trace
        (writeCommand c FLUSH_TX [] 0 (clearInterruptFlag c true true true s1).hw).hw.trace) := by
    intro s1 h
    obtain ⟨t, ht⟩ := h
    have e1 : Emits s1.hw.trace (clearInterruptFlag c true true true s1).hw.trace
        [[W_REGISTER + STATUS, 0x70]] := by
      simp only [clearInterruptFlag, if_true, writeCommand_W_STATUS]
      exact emits_writeOne c (W_REGISTER + STATUS) [0x70] s1.hw
    have e2 : Emits (clearInterruptFlag c true true true s1).hw.trace
        (writeCommand c FLUSH_TX [] 0 (clearInterruptFlag c true true true s1).hw).hw.trace
        [[FLUSH_TX]] := by
      rw [writeCommand_FLUSH_TX]
      exact emits_commandOnly c FLUSH_TX [] _
    rw [((ht.trans e1).trans e2).transactions_newEvents]
    exact ⟨t, by simp⟩
  unfold pin_change_isr0
  simp only [if_true]
  refine key _ ?_
  simp only [getStatus]
  repeat' split
  all_goals
    try dsimp only
    repeat apply emits_step
    exact ⟨[], Emits.refl _⟩

theorem readOne_getD {σ : Type} (c : Chip σ) (ins : Nat) (x : Nat) (t : List Nat) (hw : Hw σ) :
    (readOne c ins (x :: t) hw).data.getD 0 0 = (readOne c ins [0] hw).data.getD 0 0 := by
  simp [readOne, finish]

theorem readOne_hw {σ : Type} (c : Chip σ) (ins : Nat) (d1 d2 : List Nat) (hw : Hw σ) :
    (readOne c ins d1 hw).hw = (readOne c ins d2 hw).hw := rfl

theorem readOne_data_cons {σ : Type} (c : Chip σ) (ins : Nat) (x : Nat) (t : List Nat)
    (hw : Hw σ) :
    (readOne c ins (x :: t) hw).data = (readOne c ins [0] hw).data.getD 0 0 :: t := by
  simp [readOne, finish]

/-- C12: the handler in Transmitter mode on a falling edge.  With `st` the
status byte answered to `NOP`, `fifo` the FIFO_STATUS value and `w` the payload
width the chip reports next: if `st` has bit `0x20` set and `fifo` has bit 0
clear, then `w ≤ 32` gives `bytesAvailable = w`, and `w ≥ 33` (at most 255)
gives a `FLUSH_RX` transaction and `bytesAvailable = 0`; if bit `0x20` of `st`
is clear or bit 0 of `fifo` is set, the availability is unchanged. -/
theorem pin_change_isr0_transmitter {σ : Type} (c : Chip σ) (s : Driver σ)
    (hm : s.operationMode = Mode.NRF24_TRANSMITTER) :
    (opcodeAnswer c NOP s.hw &&& 0x20 ≠ 0 →
        reportedRegister c FIFO_STATUS (hwAfterStatus c s.hw) &&& 0x01 = 0 →
        reportedWidth c (hwAfterRead c FIFO_STATUS (hwAfterStatus c s.hw)) ≤ 32 →
        bytesAvailable (pin_change_isr0 c false s)
          = reportedWidth c (hwAfterRead c FIFO_STATUS (hwAfterStatus c s.hw)))
    ∧ (opcodeAnswer c NOP s.hw &&& 0x20 ≠ 0 →
        reportedRegister c FIFO_STATUS (hwAfterStatus c s.hw) &&& 0x01 = 0 →
        33 ≤ reportedWidth c (hwAfterRead c FIFO_STATUS (hwAfterStatus c s.hw)) →
        reportedWidth c (hwAfterRead c FIFO_STATUS (hwAfterStatus c s.hw)) ≤ 255
        ∧ transactions (newEvents s.hw.trace (pin_change_isr0 c false s).hw.trace)
          = [[NOP], [R_REGISTER + FIFO_STATUS, NOP], [R_RX_PL_WID, NOP], [FLUSH_RX],
             [W_REGISTER + STATUS, 0x70], [FLUSH_TX]]
        ∧ bytesAvailable (pin_change_isr0 c false s) = 0)
    ∧ (opcodeAnswer c NOP s.hw &&& 0x20 = 0
          ∨ reportedRegister c FIFO_STATUS (hwAfterStatus c s.hw) &&& 0x01 ≠ 0 →
        bytesAvailable (pin_change_isr0 c false s) = bytesAvailable s) := by
  have hF : FIFO_STATUS ∈ readSingle := by decide
  have hst : (writeCommand c NOP [] 0 s.hw).returnValue.status = opcodeAnswer c NOP s.hw := by
    rw [writeCommand_NOP]
    rfl
  have hfifo : (writeCommand c (R_REGISTER + FIFO_STATUS) (List.replicate 32 0) 1
        (writeCommand c NOP [] 0 s.hw).hw).data.getD 0 0
      = reportedRegister c FIFO_STATUS (hwAfterStatus c s.hw) := by
    simp only [reportedRegister, hwAfterStatus, writeCommand_read_single c FIFO_STATUS hF]
    exact readOne_getD c _ 0 _ _
  have hhw : (writeCommand c (R_REGISTER + FIFO_STATUS) (List.replicate 32 0) 1
        (writeCommand c NOP [] 0 s.hw).hw).hw
      = hwAfterRead c FIFO_STATUS (hwAfterStatus c s.hw) := by
    simp only [hwAfterRead, hwAfterStatus, writeCommand_read_single c FIFO_STATUS hF]
    exact readOne_hw c _ _ _ _
  have hwid : ∀ (d : List Nat) (hw : Hw σ), d = List.replicate 32 0 ∨ (∃ x t, d = x :: t) →
      (writeCommand c R_RX_PL_WID d 1 hw).data.getD 0 0 = reportedWidth c hw := by
    intro d hw hd
    simp only [reportedWidth, writeCommand_R_RX_PL_WID]
    rcases hd with rfl | ⟨x, t, rfl⟩
    · exact readOne_getD c _ 0 _ _
    · exact readOne_getD c _ x t _
  have hdata : ∃ x t, (writeCommand c (R_REGISTER + FIFO_STATUS) (List.replicate 32 0) 1
        (writeCommand c NOP [] 0 s.hw).hw).data = x :: t := by
    rw [writeCommand_read_single c FIFO_STATUS hF]
    exact ⟨_, _, readOne_data_cons c _ 0 _ _⟩
  refine ⟨?_, ?_, ?_⟩
  · intro h1 h2 h3
    have h1' : opcodeAnswer c NOP s.hw &&& W_REGISTER ≠ 0 := h1
    simp only [pin_change_isr0, hm, if_true, getStatus, hst, h1', ne_eq, not_false_eq_true,
      hfifo, h2, hhw, hwid _ _ (Or.inr hdata), h3, clearInterruptFlag, bytesAvailable]
  · intro h1 h2 h3
    have h1' : opcodeAnswer c NOP s.hw &&& W_REGISTER ≠ 0 := h1
    have h3' : ¬ reportedWidth c (hwAfterRead c FIFO_STATUS (hwAfterStatus c s.hw)) ≤ 32 := by
      omega
    refine ⟨?_, ?_, ?_⟩
    · simp only [reportedWidth, writeCommand_R_RX_PL_WID, readOne, finish, List.set_cons_zero,
        List.getD_cons_zero, spi]
      omega
    · have c1 : (writeCommand c NOP [] 0 s.hw).returnValue.status &&& W_REGISTER ≠ 0 := by
        rw [hst]
        exact h1
      have c2 : (writeCommand c (R_REGISTER + FIFO_STATUS) (List.replicate 32 0) 1
          (writeCommand c NOP [] 0 s.hw).hw).data.getD 0 0 &&& 0x01 = 0 := by
        rw [hfifo]
        exact h2
      have c3 : ¬ (writeCommand c R_RX_PL_WID
          (writeCommand c (R_REGISTER + FIFO_STATUS) (List.replicate 32 0) 1
            (writeCommand c NOP [] 0 s.hw).hw).data 1
          (writeCommand c (R_REGISTER + FIFO_STATUS) (List.replicate 32 0) 1
            (writeCommand c NOP [] 0 s.hw).hw).hw).data.getD 0 0 ≤ 32 := by
        rw [hwid _ _ (Or.inr hdata), hhw]
        exact h3'
      simp only [pin_change_isr0, hm, if_true, getStatus, c1, ne_eq, not_false_eq_true, c2, c3,
        if_false, clearInterruptFlag]
      simp only [writeCommand_NOP, writeCommand_read_single c FIFO_STATUS hF,
        writeCommand_R_RX_PL_WID, writeCommand_FLUSH_RX, writeCommand_W_STATUS,
        writeCommand_FLUSH_TX]
      have e1 := emits_commandOnly c NOP [] s.hw
      have e2 := emits_readOne c (R_REGISTER + FIFO_STATUS) (List.replicate 32 0)
        (commandOnly c NOP [] s.hw).hw
      have e3 := emits_readOne c R_RX_PL_WID
        (readOne c (R_REGISTER + FIFO_STATUS) (List.replicate 32 0)
          (commandOnly c NOP [] s.hw).hw).data
        (readOne c (R_REGISTER + FIFO_STATUS) (List.replicate 32 0)
          (commandOnly c NOP [] s.hw).hw).hw
      have e4 := emits_commandOnly c FLUSH_RX [] (readOne c R_RX_PL_WID
        (readOne c (R_REGISTER + FIFO_STATUS) (List.replicate 32 0)
          (commandOnly c NOP [] s.hw).hw).data
        (readOne c (R_REGISTER + FIFO_STATUS) (List.replicate 32 0)
          (commandOnly c NOP [] s.hw).hw).hw).hw
      have e5 := emits_writeOne c (W_REGISTER + STATUS) [0 ||| 0x40 ||| 0x20 ||| 0x10]
        (commandOnly c FLUSH_RX [] (readOne c R_RX_PL_WID
          (readOne c (R_REGISTER + FIFO_STATUS) (List.replicate 32 0)
            (commandOnly c NOP [] s.hw).hw).data
          (readOne c (R_REGISTER + FIFO_STATUS) (List.replicate 32 0)
            (commandOnly c NOP [] s.hw).hw).hw).hw).hw
      have e6 := emits_commandOnly c FLUSH_TX [] (writeOne c (W_REGISTER + STATUS)
        [0 ||| 0x40 ||| 0x20 ||| 0x10]
        (commandOnly c FLUSH_RX [] (readOne c R_RX_PL_WID
          (readOne c (R_REGISTER + FIFO_STATUS) (List.replicate 32 0)
            (commandOnly c NOP [] s.hw).hw).data
          (readOne c (R_REGISTER + FIFO_STATUS) (List.replicate 32 0)
            (commandOnly c NOP [] s.hw).hw).hw).hw).hw).hw
      have := (((((e1.trans e2).trans e3).trans e4).trans e5).trans e6).transactions_newEvents
      simpa using this
    · simp only [pin_change_isr0, hm, if_true, getStatus, hst, h1', ne_eq, not_false_eq_true,
        hfifo, h2, hhw, hwid _ _ (Or.inr hdata), h3', if_false, clearInterruptFlag,
        bytesAvailable]
  · intro h
    rcases h with h | h
    · have h' : ¬ (opcodeAnswer c NOP s.hw &&& W_REGISTER ≠ 0) := by
        simpa using h
      simp only [pin_change_isr0, hm, if_true, getStatus, hst, h', if_false, clearInterruptFlag,
        bytesAvailable]
    · by_cases h1 : opcodeAnswer c NOP s.hw &&& W_REGISTER ≠ 0
      · simp only [pin_change_isr0, hm, if_true, getStatus, hst, h1, ne_eq, not_false_eq_true,
          hfifo, h, if_false, clearInterruptFlag, bytesAvailable]
      · simp only [pin_change_isr0, hm, if_true, getStatus, hst, h1, if_false,
          clearInterruptFlag, bytesAvailable]

theorem pin_change_isr0_transmitter_witness :
    ackTransmitter.operationMode = Mode.NRF24_TRANSMITTER
      ∧ reportedWidth scriptChip
          (hwAfterRead scriptChip FIFO_STATUS (hwAfterStatus scriptChip ackTransmitter.hw)) = 7
      ∧ bytesAvailable (pin_change_isr0 scriptChip false ackTransmitter)
          = reportedWidth scriptChip
              (hwAfterRead scriptChip FIFO_STATUS (hwAfterStatus scriptChip ackTransmitter.hw)) :=
  ⟨rfl, by decide,
    (pin_change_isr0_transmitter scriptChip ackTransmitter rfl).1 (by decide) (by decide)
      (by decide)⟩

/-! ## Claims on `setDynamicPayloadLength` and the address width -/

theorem writeCommand_write_single_trans {σ : Type} (c : Chip σ) (reg : Nat)
    (h : reg ∈ writeSingle) (data : List Nat) (hw : Hw σ) :
    Emits hw.trace (writeCommand c (W_REGISTER + reg) data 1 hw).hw.trace
      [[W_REGISTER + reg, data.getD 0 0]] := by
  rw [writeCommand_write_single c reg h]
  exact emits_writeOne c (W_REGISTER + reg) data hw

/-- C19 (as stated, refuted): on the simulated chip with DYNPD = `0x3E`,
`setDynamicPayloadLength(1)` leaves DYNPD = `0x01`: bit 1 of DYNPD has changed,
so not only bit 0 is affected. -/
theorem setDynamicPayloadLength_clears_other_bits :
    (setDynamicPayloadLength regChip true
        (Driver.init (regChipWith (fun _ => 0x3E)))).hw.chip.regs DYNPD = 0x01
      ∧ ¬ AgreeOutside [0]
          ((setDynamicPayloadLength regChip true
            (Driver.init (regChipWith (fun _ => 0x3E)))).hw.chip.regs DYNPD)
          ((Driver.init (regChipWith (fun _ => 0x3E))).hw.chip.regs DYNPD) := by
  have h : (setDynamicPayloadLength regChip true
      (Driver.init (regChipWith (fun _ => 0x3E)))).hw.chip.regs DYNPD = 0x01 := by decide
  refine ⟨h, ?_⟩
  intro hag
  have h1 := hag 1 (by decide)
  rw [h] at h1
  revert h1
  decide

/-- C19 (amended): `setDynamicPayloadLength` reads no register; it writes
DYNPD and then FEATURE, with `0x01` and `0x04` when enabling and `0x00` and
`0x00` when disabling, whatever the registers held: bit 0 of DYNPD and bit 2 of
FEATURE take the requested value and every other bit is written as 0.  On the
simulated chip the two registers hold exactly these values afterwards. -/
theorem setDynamicPayloadLength_overwrites :
    (∀ (σ : Type) (c : Chip σ) (param : Bool) (s : Driver σ),
      transactions (newEvents s.hw.trace (setDynamicPayloadLength c param s).hw.trace)
        = [[W_REGISTER + DYNPD, if param = true then 0x01 else 0x00],
           [W_REGISTER + FEATURE, if param = true then 0x04 else 0x00]])
    ∧ (∀ (regs : Nat → Nat) (param : Bool),
        (setDynamicPayloadLength regChip param (Driver.init (regChipWith regs))).hw.chip.regs
            DYNPD = (if param = true then 0x01 else 0x00)
        ∧ (setDynamicPayloadLength regChip param (Driver.init (regChipWith regs))).hw.chip.regs
            FEATURE = (if param = true then 0x04 else 0x00)) := by
  refine ⟨?_, ?_⟩
  · intro σ c param s
    have e1 := fun d => writeCommand_write_single_trans c DYNPD (by decide) [d] s.hw
    have e2 := fun d1 d2 => writeCommand_write_single_trans c FEATURE (by decide)
      ((writeCommand c (W_REGISTER + DYNPD) [d1] 1 s.hw).data.set 0 d2)
      (writeCommand c (W_REGISTER + DYNPD) [d1] 1 s.hw).hw
    have hd : ∀ d1 d2, ((writeCommand c (W_REGISTER + DYNPD) [d1] 1 s.hw).data.set 0 d2).getD 0 0
        = d2 := by
      intro d1 d2
      rw [writeCommand_write_single c DYNPD (by decide)]
      simp [writeOne, finish]
    cases param
    · have := ((e1 ((0 &&& 0xFE) &&& 0x3F)).trans
        (e2 ((0 &&& 0xFE) &&& 0x3F) ((0 &&& 0xFB) &&& 0x07))).transactions_newEvents
      rw [hd] at this
      simpa [setDynamicPayloadLength] using this
    · have := ((e1 ((0 ||| 0x01) &&& 0x3F)).trans
        (e2 ((0 ||| 0x01) &&& 0x3F) ((0 ||| 0x04) &&& 0x07))).transactions_newEvents
      rw [hd] at this
      simpa [setDynamicPayloadLength] using this
  · intro regs param
    cases param
    · constructor <;>
        simp +decide [setDynamicPayloadLength, writeCommand_write_single, writeOne, finish, spi,
          setCSN, regChip, regChipWith, idle, Driver.init]
    · constructor <;>
        simp +decide [setDynamicPayloadLength, writeCommand_write_single, writeOne, finish, spi,
          setCSN, regChip, regChipWith, idle, Driver.init]

/-! ## Register reads and writes against the simulated chip -/

theorem regChip_read {reg : Nat} (h : reg ∈ writeSingle) (data : List Nat) (hw : Hw RegChip) :
    (writeCommand regChip (R_REGISTER + reg) (0 :: data) 1 hw).data.getD 0 0
        = hw.chip.regs reg % 256
      ∧ (writeCommand regChip (R_REGISTER + reg) (0 :: data) 1 hw).hw.chip.regs
        = hw.chip.regs := by
  have hr : reg ∈ readSingle := by
    revert h
    simp only [readSingle, writeSingle, List.mem_cons, List.mem_singleton, List.not_mem_nil,
      or_false]
    tauto
  rw [writeCommand_read_single regChip reg hr]
  simp only [writeSingle, List.mem_cons, List.mem_singleton, List.not_mem_nil, or_false] at h
  rcases h with h | h | h | h | h | h | h | h | h | h | h | h | h | h | h | h | h | h | h | h
    | h <;> subst h <;> exact ⟨rfl, rfl⟩

theorem regChip_write {reg : Nat} (h : reg ∈ writeSingle) (data : List Nat) (hw : Hw RegChip) :
    (writeCommand regChip (W_REGISTER + reg) data 1 hw).hw.chip.regs
      = fun r => if r = reg then data.getD 0 0 else hw.chip.regs r := by
  rw [writeCommand_write_single regChip reg h]
  simp only [writeSingle, List.mem_cons, List.mem_singleton, List.not_mem_nil, or_false] at h
  rcases h with h | h | h | h | h | h | h | h | h | h | h | h | h | h | h | h | h | h | h | h
    | h <;> subst h <;> rfl

/-- On the simulated chip, a setter that reads `reg` and writes `f` of the value
read leaves `f (old % 256)` in `reg`, and a read of `reg` then reports it. -/
theorem regChip_read_then_write {reg : Nat} (h : reg ∈ writeSingle) (f : Nat → Nat)
    (hw : Hw RegChip) :
    (writeCommand regChip (W_REGISTER + reg)
        ((writeCommand regChip (R_REGISTER + reg) [0] 1 hw).data.set 0
          (f ((writeCommand regChip (R_REGISTER + reg) [0] 1 hw).data.getD 0 0))) 1
        (writeCommand regChip (R_REGISTER + reg) [0] 1 hw).hw).hw.chip.regs reg
      = f (hw.chip.regs reg % 256) := by
  rw [regChip_write h, (regChip_read h [] hw).1]
  simp only [if_true]
  have hr : reg ∈ readSingle := by
    revert h
    simp only [readSingle, writeSingle, List.mem_cons, List.mem_singleton, List.not_mem_nil,
      or_false]
    tauto
  rw [writeCommand_read_single regChip reg hr]
  simp [readOne, finish]

set_option maxRecDepth 1000000 in
theorem addressWidth_bits : ∀ x, x < 256 →
    ((x ||| 0x01) &&& 0xFD) % 256 &&& 0b11 = 0b01
    ∧ ((x &&& 0xFE) ||| 0x02) % 256 &&& 0b11 = 0b10
    ∧ (x ||| 0x03) % 256 &&& 0b11 = 0b11 := by
  decide

theorem land_three_of_mod (w : Nat) : w &&& 0b11 = w % 256 &&& 0b11 := by
  have h256 : (256 : Nat) = 2 ^ 8 := by norm_num
  have h3 : (2 ^ 8 - 1 &&& 0b11 : Nat) = 0b11 := by decide
  rw [h256, ← Nat.and_pow_two_sub_one_eq_mod, Nat.and_assoc, h3]

/-- C20: on the simulated chip, for every prior register file and each address
width, after `setAddressWidth` the SETUP_AW register, and the value a read of
SETUP_AW reports, have low two bits `01` (3 bytes), `10` (4 bytes), `11`
(5 bytes); the three encodings are distinct. -/
theorem setAddressWidth_reads_back :
    (∀ (s : Driver RegChip) (aw : NRF24_AddressWidth),
      (setAddressWidth regChip aw s).hw.chip.regs SETUP_AW &&& 0b11 = aw.encoding
        ∧ reportedRegister regChip SETUP_AW (setAddressWidth regChip aw s).hw &&& 0b11
            = aw.encoding)
      ∧ NRF24_AddressWidth.NRF24_5Byte.encoding = 0b11
      ∧ ∀ a b : NRF24_AddressWidth, a.encoding = b.encoding → a = b := by
  refine ⟨?_, rfl, ?_⟩
  · intro s aw
    have hS : SETUP_AW ∈ writeSingle := by decide
    have hx := addressWidth_bits (s.hw.chip.regs SETUP_AW % 256) (Nat.mod_lt _ (by norm_num))
    have hrep : ∀ hw : Hw RegChip, reportedRegister regChip SETUP_AW hw
        = hw.chip.regs SETUP_AW % 256 := fun hw => (regChip_read hS [] hw).1
    rw [hrep]
    cases aw
    · have h := regChip_read_then_write hS (fun d => (d ||| 0x01) &&& 0xFD) s.hw
      simp only [setAddressWidth]
      rw [h, land_three_of_mod]
      exact ⟨hx.1, hx.1⟩
    · have h := regChip_read_then_write hS (fun d => (d &&& 0xFE) ||| 0x02) s.hw
      simp only [setAddressWidth]
      rw [h, land_three_of_mod]
      exact ⟨hx.2.1, hx.2.1⟩
    · have h := regChip_read_then_write hS (fun d => d ||| 0x03) s.hw
      simp only [setAddressWidth]
      rw [h, land_three_of_mod]
      exact ⟨hx.2.2, hx.2.2⟩
  · intro a b
    cases a <;> cases b <;> simp [NRF24_AddressWidth.encoding]

/-! ## Timelines of the building blocks -/

theorem timelineFrom_csn_false (o : Option (List Nat)) (t : List BusEvent) :
    timelineFrom o (BusEvent.csn false :: t) = timelineFrom (some []) t := by
  cases o <;> rfl

theorem timelineFrom_spi (x : List Nat) (m a : Nat) (t : List BusEvent) :
    timelineFrom (some x) (BusEvent.spi m a :: t) = timelineFrom (some (x ++ [m])) t := rfl

theorem timelineFrom_csn_true (x : List Nat) (t : List BusEvent) :
    timelineFrom (some x) (BusEvent.csn true :: t) = Step.txn x :: timelineFrom none t := rfl

theorem timelineFrom_zipWith (mosi : List Nat) : ∀ (miso x : List Nat) (rest : List BusEvent),
    miso.length = mosi.length →
    timelineFrom (some x) (List.zipWith BusEvent.spi mosi miso ++ rest)
      = timelineFrom (some (x ++ mosi)) rest := by
  induction mosi with
  | nil =>
    intro miso x rest h
    simp
  | cons m t ih =>
    intro miso x rest h
    cases miso with
    | nil => simp at h
    | cons a miso =>
      rw [List.zipWith_cons_cons, List.cons_append, timelineFrom_spi,
        ih miso (x ++ [m]) rest (by simpa using h)]
      simp

theorem plays_refl (t : List BusEvent) : Plays t t [] :=
  ⟨[], by simp, by simp⟩

theorem plays_trans {a b d : List BusEvent} {t1 t2 : List Step} (h1 : Plays a b t1)
    (h2 : Plays b d t2) : Plays a d (t1 ++ t2) := by
  obtain ⟨e1, rfl, k1⟩ := h1
  obtain ⟨e2, rfl, k2⟩ := h2
  refine ⟨e1 ++ e2, by simp, ?_⟩
  intro rest
  rw [List.append_assoc, k1, k2, List.append_assoc]

theorem plays_timeline_newEvents {a b : List BusEvent} {t : List Step} (h : Plays a b t) :
    timeline (newEvents a b) = t := by
  obtain ⟨e, rfl, k⟩ := h
  have := k []
  simpa [newEvents, timeline, timelineFrom] using this

theorem plays_of_shape {σ : Type} {c : Chip σ} {ins : Nat} {b : List Nat} {k : Nat} {rd : Bool}
    {hw : Hw σ} {r : WriteResult σ} (h : TransactionShape c ins b k rd hw r) :
    Plays hw.trace r.hw.trace
      [Step.txn (ins :: (if rd = true then List.replicate k NOP else wireBytes k b))] := by
  obtain ⟨miso, hlen, htr, -⟩ := h
  refine ⟨_, htr, ?_⟩
  intro rest
  have hl : miso.length
      = (if rd = true then List.replicate k NOP else wireBytes k b).length := by
    cases rd <;> simp [hlen, wireBytes_len]
  rw [List.cons_append, List.cons_append, List.append_assoc, timelineFrom_csn_false,
    timelineFrom_spi, timelineFrom_zipWith _ miso _ _ hl, List.singleton_append,
    timelineFrom_csn_true]
  simp

theorem plays_setCE {σ : Type} (v : Bool) (hw : Hw σ) :
    Plays hw.trace (setCE v hw).trace [Step.ce v] :=
  ⟨[BusEvent.ce v], by simp [setCE], by intro rest; simp [timelineFrom]⟩

theorem plays_delay_us {σ : Type} (n : Nat) (hw : Hw σ) :
    Plays hw.trace (delay_us n hw).trace [Step.delayUs n] :=
  ⟨[BusEvent.delay_us n], by simp [delay_us], by intro rest; simp [timelineFrom]⟩

theorem plays_delay_ms {σ : Type} (n : Nat) (hw : Hw σ) :
    Plays hw.trace (delay_ms n hw).trace [Step.delayMs n] :=
  ⟨[BusEvent.delay_ms n], by simp [delay_ms], by intro rest; simp [timelineFrom]⟩

theorem plays_setCSN_true {σ : Type} (c : Chip σ) (hw : Hw σ) :
    Plays hw.trace (setCSN c true hw).trace [] :=
  ⟨[BusEvent.csn true], by simp [setCSN], by intro rest; simp [timelineFrom]⟩

/-! ## Invariants of the reachable states -/

theorem writeCommand_data_of_write {σ : Type} (c : Chip σ) (ins : Nat) (b : List Nat) (n : Int)
    (hw : Hw σ) (h : isReadOpcode ins = false) : (writeCommand c ins b n hw).data = b := by
  by_cases hacc : (writeCommand c ins b n hw).error = ErrorCode.OK
  · obtain ⟨k, miso, _, _, _, _, hd, _⟩ := writeCommand_shape_exists c ins b n hw hacc
    exact hd h
  · exact (writeCommand_of_rejected c ins b n hw hacc).2.1

theorem readLoop_length {σ : Type} (c : Chip σ) (k : Nat) : ∀ (data : List Nat) (hw : Hw σ),
    (readLoop c k data hw).1.length = data.length := by
  induction k with
  | zero => intro data hw; rfl
  | succ k ih =>
    intro data hw
    simp only [readLoop]
    rw [ih]
    simp

theorem writeCommand_data_length {σ : Type} (c : Chip σ) (ins : Nat) (b : List Nat) (n : Int)
    (hw : Hw σ) : (writeCommand c ins b n hw).data.length = b.length := by
  by_cases hacc : (writeCommand c ins b n hw).error = ErrorCode.OK
  · rcases writeCommand_accepted_cases c ins b n hw hacc with
      ⟨_, _, he⟩ | ⟨_, _, he⟩ | ⟨_, _, he⟩ | ⟨_, _, he⟩ | ⟨_, _, he⟩
    · rw [he]; simp [readOne, finish]
    · rw [he]; rfl
    · rw [he]; exact readLoop_length c _ _ _
    · rw [he]; rfl
    · rw [he]; rfl
  · rw [(writeCommand_of_rejected c ins b n hw hacc).2.1]

/-! ## `nRF_Config` step by step -/

theorem run_nil {σ : Type} (hw : Hw σ) : run [] hw = hw := rfl

theorem run_cons {σ : Type} (f : Hw σ → Hw σ) (l : List (Hw σ → Hw σ)) (hw : Hw σ) :
    run (f :: l) hw = run l (f hw) := rfl

theorem run_append {σ : Type} (l1 l2 : List (Hw σ → Hw σ)) (hw : Hw σ) :
    run (l1 ++ l2) hw = run l2 (run l1 hw) := by
  simp [run]

theorem writeCommand_data_address {σ : Type} (c : Chip σ) (b : List Nat) (n : Int) (hw : Hw σ) :
    (writeCommand c (W_REGISTER + RX_ADDR_P0) b n hw).data = b
      ∧ (writeCommand c (W_REGISTER + TX_ADDR) b n hw).data = b :=
  ⟨writeCommand_data_of_write c _ b n hw (by decide),
    writeCommand_data_of_write c _ b n hw (by decide)⟩

theorem withHw_run {σ : Type} {s : Driver σ} {b t p : List Nat} {r : Nat} {m : Mode}
    {l : List (Hw σ → Hw σ)} {h : Hw σ} (f : Hw σ → Hw σ) (hs : s = ⟨b, t, p, r, m, run l h⟩) :
    withHw f s = ⟨b, t, p, r, m, run (l ++ [f]) h⟩ := by
  subst hs
  rw [run_append]
  rfl

theorem address_run {σ : Type} (c : Chip σ) {s : Driver σ} {b t p : List Nat} {r : Nat}
    {m : Mode} {l : List (Hw σ → Hw σ)} {h : Hw σ} (hs : s = ⟨b, t, p, r, m, run l h⟩) :
    (⟨(writeCommand c (W_REGISTER + TX_ADDR)
        (writeCommand c (W_REGISTER + RX_ADDR_P0) s.Base_Addrs 5 s.hw).data 5
        (writeCommand c (W_REGISTER + RX_ADDR_P0) s.Base_Addrs 5 s.hw).hw).data,
      s.Temp_Addrs, s.payload, s.receiveBytesAvailable, s.operationMode,
      (writeCommand c (W_REGISTER + TX_ADDR)
        (writeCommand c (W_REGISTER + RX_ADDR_P0) s.Base_Addrs 5 s.hw).data 5
        (writeCommand c (W_REGISTER + RX_ADDR_P0) s.Base_Addrs 5 s.hw).hw).hw⟩ : Driver σ)
      = ⟨b, t, p, r, m, run (l ++ [addressHw c b]) h⟩ := by
  subst hs
  rw [run_append, (writeCommand_data_address c _ _ _).2, (writeCommand_data_address c _ _ _).1]
  rfl

theorem nRF_Config_eq {σ : Type} (c : Chip σ) (mode : Mode) (s : Driver σ) :
    nRF_Config c mode s =
      { Base_Addrs := s.Base_Addrs, Temp_Addrs := s.Temp_Addrs, payload := s.payload,
        receiveBytesAvailable := s.receiveBytesAvailable, operationMode := mode,
        hw := run (configCommon c s.Base_Addrs ++ configBranch c mode) s.hw } := by
  unfold nRF_Config
  lift_lets
  intro s1 s2 s3 s4 s5 s6 s7 s8 s9 s10 s11 s12 s13 s14 w1 s15 w2 s16 s17 s18 s19 s20 s21 s22
    s23 s24 s25
  have n3 : s3 = ⟨s.Base_Addrs, s.Temp_Addrs, s.payload, s.receiveBytesAvailable, mode,
      run [fun h => setCE false (setCSN c true h), delay_ms 110] s.hw⟩ := rfl
  have e4 : s4 = withHw (rmwHw c CONFIG (fun d => d &&& 0xFD)) s3 := rfl
  have e5 : s5 = withHw (delay_ms 5) s4 := rfl
  have e6 : s6 = withHw (cmdHw c (W_REGISTER + STATUS) [0x7E, 0, 0, 0, 0, 0, 0, 0, 0, 0] 1) s5 :=
    rfl
  have e7 : s7 = withHw (cmdHw c FLUSH_TX [] 0) s6 := rfl
  have e8 : s8 = withHw (cmdHw c FLUSH_RX [] 0) s7 := rfl
  have e9 : s9 = withHw (rmwHw c EN_AA (fun d => d &&& 0xFE)) s8 := rfl
  have e10 : s10 = withHw (rmwHw c EN_RXADDR (fun d => d ||| 0x01)) s9 := rfl
  have e11 : s11 = withHw (rmwHw c SETUP_AW (fun d => (d ||| 0x01) &&& 0xFD)) s10 := rfl
  have e12 : s12 = withHw (cmdHw c (W_REGISTER + RF_CH) [1] 1) s11 := rfl
  have e13 : s13 = withHw (rmwHw c RF_SETUP (fun d => d ||| 0x06)) s12 := rfl
  have e14 : s14 = withHw (rmwHw c RF_SETUP (fun d => (d &&& 0xDF) &&& 0xF7)) s13 := rfl
  have e16 : s16 = ⟨w2.data, s14.Temp_Addrs, s14.payload, s14.receiveBytesAvailable,
      s14.operationMode, w2.hw⟩ := rfl
  have e17 : s17 = withHw (dynamicPayloadHw c) s16 := rfl
  have e18 : s18 = withHw (rmwHw c CONFIG (fun d => (d ||| 0x08) ||| 0x04)) s17 := rfl
  have e19 : s19 = withHw (rmwHw c CONFIG (fun d => ((d ||| 0x40) &&& 0xDF) &&& 0xEF)) s18 := rfl
  have e20 : s20 = withHw (rmwHw c CONFIG (fun d => d &&& 0xFE)) s19 := rfl
  have e21 : s21 = withHw (rmwHw c CONFIG (fun d => d ||| 0x02)) s20 := rfl
  have e22 : s22 = withHw (rmwHw c CONFIG (fun d => ((d &&& 0xBF) ||| 0x20) ||| 0x10)) s18 := rfl
  have e23 : s23 = withHw (rmwHw c CONFIG (fun d => d ||| 0x01)) s22 := rfl
  have e24 : s24 = withHw (rmwHw c CONFIG (fun d => d ||| 0x02)) s23 := rfl
  have e25 : s25 = withHw (delay_ms 5) s24 := rfl
  have n4 := e4.trans (withHw_run _ n3)
  have n5 := e5.trans (withHw_run _ n4)
  have n6 := e6.trans (withHw_run _ n5)
  have n7 := e7.trans (withHw_run _ n6)
  have n8 := e8.trans (withHw_run _ n7)
  have n9 := e9.trans (withHw_run _ n8)
  have n10 := e10.trans (withHw_run _ n9)
  have n11 := e11.trans (withHw_run _ n10)
  have n12 := e12.trans (withHw_run _ n11)
  have n13 := e13.trans (withHw_run _ n12)
  have n14 := e14.trans (withHw_run _ n13)
  have n16 := e16.trans (address_run c n14)
  have n17 := e17.trans (withHw_run _ n16)
  have n18 := e18.trans (withHw_run _ n17)
  have n19 := e19.trans (withHw_run _ n18)
  have n20 := e20.trans (withHw_run _ n19)
  have n21 := e21.trans (withHw_run _ n20)
  have n22 := e22.trans (withHw_run _ n18)
  have n23 := e23.trans (withHw_run _ n22)
  have n24 := e24.trans (withHw_run _ n23)
  have n25 := e25.trans (withHw_run _ n24)
  have t1 := withHw_run (delay_ms 100) n21
  have t2 := withHw_run (setCE true) n25
  clear_value s3 s4 s5 s6 s7 s8 s9 s10 s11 s12 s13 s14 s16 s17 s18 s19 s20 s21 s22 s23 s24 s25
  clear e4 e5 e6 e7 e8 e9 e10 e11 e12 e13 e14 e16 e17 e18 e19 e20 e21 e22 e23 e24 e25
  clear n3 n4 n5 n6 n7 n8 n9 n10 n11 n12 n13 n14 n16 n17 n18 n19 n20 n21 n22 n23 n24 n25
  cases mode
  · rw [if_pos rfl]
    refine t1.trans ?_
    simp only [configCommon, configBranch, List.append_assoc, List.cons_append, List.nil_append]
  · rw [if_neg (by decide), if_pos rfl]
    refine t2.trans ?_
    simp only [configCommon, configBranch, List.append_assoc, List.cons_append, List.nil_append]
/-- What holds in every reachable state: at most 32 bytes are reported
available, the mailbox buffer has its 33 bytes, and both address arrays hold
their initial bytes. -/
theorem reachable_invariant {σ : Type} (c : Chip σ) (s : Driver σ) (h : Reachable c s) :
    s.receiveBytesAvailable ≤ 32 ∧ s.payload.length = 33
      ∧ s.Base_Addrs = [0x00, 0x01, 0x03, 0x07, 0x00]
      ∧ s.Temp_Addrs = [0x00, 0x01, 0x03, 0x07, 0x00] := by
  induction h with
  | start hw => exact ⟨Nat.zero_le _, rfl, rfl, rfl⟩
  | chip s st _ ih => exact ih
  | config s mode _ ih =>
    rw [nRF_Config_eq]
    exact ih
  | mode s m _ ih => exact ih
  | crc s num _ ih => exact ih
  | powerUp s _ ih => exact ih
  | powerDown s _ ih => exact ih
  | baudRate s br _ ih => exact ih
  | autoAck s param _ ih => exact ih
  | rxPipe s param _ ih => exact ih
  | addressWidth s aw _ ih => exact ih
  | channel s ch _ ih =>
    unfold serRFChannel
    split
    · exact ih
    · exact ih
  | txPower s power _ ih => exact ih
  | dynamicPayload s param _ ih => exact ih
  | command s ins data size _ ih => exact ih
  | send s data size _ ih =>
    unfold sendData
    split
    · exact ih
    · exact ih
  | read s data size _ ih => exact ⟨by simp [readRxFIFO], ih.2⟩
  | status s _ ih => exact ih
  | interrupt s IRQ _ ih =>
    obtain ⟨h1, h2, h3, h4⟩ := ih
    unfold pin_change_isr0
    simp only [getStatus, clearInterruptFlag]
    repeat' split
    all_goals
      refine ⟨?_, ?_, h3, h4⟩
      · first
          | exact h1
          | exact Nat.zero_le _
          | assumption
          | (rename_i hc _; exact hc.1)
      · first
          | exact h2
          | (rw [writeCommand_data_length]; exact h2)
  | mask s RX_DR TX_DS MAX_RT _ ih => exact ih
  | clearFlag s RX_DR TX_DS MAX_RT _ ih => exact ih
/-! ## Claims on rejected calls and the channel setter -/

/-- C29: a call that `writeCommand` rejects (its `error` ends as
`PARAMETER_ERROR`, `UNKNOWN_COMMAND` or `BAD_COMMAND`) leaves the hardware as it
was, so there is no new event, chip-select and chip-enable keep their level and
the chip saw nothing; the buffer is unchanged and the returned status is 0. -/
theorem writeCommand_rejected_is_silent {σ : Type} (c : Chip σ) (ins : Nat) (b : List Nat)
    (n : Int) (hw : Hw σ) (hrej : (writeCommand c ins b n hw).error ≠ ErrorCode.OK) :
    (writeCommand c ins b n hw).hw = hw
      ∧ newEvents hw.trace (writeCommand c ins b n hw).hw.trace = []
      ∧ (writeCommand c ins b n hw).data = b
      ∧ (writeCommand c ins b n hw).returnValue.status = 0 := by
  obtain ⟨h1, h2, h3⟩ := writeCommand_of_rejected c ins b n hw hrej
  refine ⟨h1, ?_, h2, h3⟩
  rw [h1]
  simp [newEvents]

theorem writeCommand_rejected_is_silent_witness :
    (writeCommand scriptChip W_TX_PAYLOAD [1, 2] 33 (idle [14])).error ≠ ErrorCode.OK
      ∧ (writeCommand scriptChip W_TX_PAYLOAD [1, 2] 33 (idle [14])).hw = idle [14]
      ∧ newEvents (idle [14]).trace
          (writeCommand scriptChip W_TX_PAYLOAD [1, 2] 33 (idle [14])).hw.trace = []
      ∧ (writeCommand scriptChip W_TX_PAYLOAD [1, 2] 33 (idle [14])).data = [1, 2]
      ∧ (writeCommand scriptChip W_TX_PAYLOAD [1, 2] 33 (idle [14])).returnValue.status = 0 :=
  ⟨by decide,
    writeCommand_rejected_is_silent scriptChip W_TX_PAYLOAD [1, 2] 33 (idle [14]) (by decide)⟩

/-- C26: for `ch ≤ 125`, `serRFChannel(ch)` runs exactly one transaction, the
write of `ch` to RF_CH, and on the simulated chip RF_CH then holds `ch`; for
`ch ≥ 126` it returns the state it was given: no event, no register change. -/
theorem serRFChannel_range {σ : Type} (c : Chip σ) (s : Driver σ) (ch : Nat) :
    (ch ≤ 125 →
        transactions (newEvents s.hw.trace (serRFChannel c ch s).hw.trace)
          = [[W_REGISTER + RF_CH, ch]]
        ∧ ∀ t : Driver RegChip, (serRFChannel regChip ch t).hw.chip.regs RF_CH = ch)
      ∧ (126 ≤ ch → serRFChannel c ch s = s
          ∧ newEvents s.hw.trace (serRFChannel c ch s).hw.trace = []) := by
  have hR : RF_CH ∈ writeSingle := by decide
  refine ⟨fun h => ⟨?_, ?_⟩, fun h => ?_⟩
  · simp only [serRFChannel, h, if_true]
    have e := emits_writeOne c (W_REGISTER + RF_CH) [ch] s.hw
    rw [← writeCommand_write_single c RF_CH hR] at e
    simpa using e.transactions_newEvents
  · intro t
    simp only [serRFChannel, h, if_true]
    rw [regChip_write hR]
    simp
  · have h' : ¬ ch ≤ 125 := by omega
    simp [serRFChannel, h', newEvents]

theorem serRFChannel_range_witness :
    (76 : Nat) ≤ 125
      ∧ transactions (newEvents (Driver.init (idle [14, 0])).hw.trace
          (serRFChannel scriptChip 76 (Driver.init (idle [14, 0]))).hw.trace)
          = [[W_REGISTER + RF_CH, 76]]
      ∧ (126 : Nat) ≤ 200
      ∧ serRFChannel scriptChip 200 (Driver.init (idle [14, 0])) = Driver.init (idle [14, 0]) :=
  ⟨by decide,
    ((serRFChannel_range scriptChip (Driver.init (idle [14, 0])) 76).1 (by decide)).1,
    by decide,
    ((serRFChannel_range scriptChip (Driver.init (idle [14, 0])) 200).2 (by decide)).1⟩

/-! ## Timelines of the transaction blocks -/

theorem plays_commandOnly {σ : Type} (c : Chip σ) (ins : Nat) (b : List Nat) (hw : Hw σ) :
    Plays hw.trace (commandOnly c ins b hw).hw.trace [Step.txn [ins]] := by
  have h := plays_of_shape (shape_commandOnly c ins b hw)
  simpa [wireBytes] using h

theorem plays_readOne {σ : Type} (c : Chip σ) (ins : Nat) (b : List Nat) (hw : Hw σ) :
    Plays hw.trace (readOne c ins b hw).hw.trace [Step.txn [ins, NOP]] := by
  have h := plays_of_shape (shape_readOne c ins b hw)
  simpa using h

theorem plays_writeOne {σ : Type} (c : Chip σ) (ins : Nat) (b : List Nat) (hw : Hw σ) :
    Plays hw.trace (writeOne c ins b hw).hw.trace [Step.txn [ins, b.getD 0 0]] := by
  have h := plays_of_shape (shape_writeOne c ins b hw)
  simpa [wireBytes, List.range_succ] using h

theorem plays_writeMany {σ : Type} (c : Chip σ) (ins : Nat) (b : List Nat) (k : Nat)
    (hk : k ≤ 32767) (hw : Hw σ) :
    Plays hw.trace (writeMany c ins b (k : Int) hw).hw.trace [Step.txn (ins :: wireBytes k b)] := by
  have h := plays_of_shape (shape_writeMany c ins b (k : Int) hw)
  rw [loopCount_natCast k hk] at h
  simpa using h

theorem addressGuard_of_reachable {σ : Type} (c : Chip σ) (s : Driver σ) (h : Reachable c s) :
    addressGuard s := by
  obtain ⟨_, _, hb, ht⟩ := reachable_invariant c s h
  unfold addressGuard
  rw [hb, ht]
  exact ⟨rfl, rfl, rfl, rfl, rfl⟩

theorem sendData_of_guard {σ : Type} (c : Chip σ) (d : List Nat) (size : Int) (s : Driver σ)
    (hg : addressGuard s) :
    sendData c d size s = { s with hw := setCE false (delay_us (15 + 130) (setCE true
      (writeCommand c W_TX_PAYLOAD d size (writeCommand c FLUSH_TX [] 0 s.hw).hw).hw)) } := by
  unfold addressGuard at hg
  unfold sendData
  rw [if_pos hg]

theorem memcpy_getD_of_le (dst src : List Nat) (n i : Nat) (h : n ≤ i) :
    (memcpy dst src n).getD i 0 = dst.getD i 0 := by
  induction n with
  | zero => rfl
  | succ n ih =>
    simp only [memcpy]
    rw [List.getD_eq_getElem?_getD, List.getElem?_set_ne (by omega),
      ← List.getD_eq_getElem?_getD]
    exact ih (by omega)

/-- C28: in every reachable state - the state at program start, followed by any
run of the exported functions and of the interrupt handler, the chip changing
its state at will in between - `bytesAvailable()` is at most 32 and the mailbox
buffer has its 33 bytes; `readRxFIFO` therefore copies mailbox bytes only, and
leaves every byte of the destination from index 32 on as it was. -/
theorem bytesAvailable_le_32 {σ : Type} (c : Chip σ) (s : Driver σ) (h : Reachable c s) :
    bytesAvailable s ≤ 32 ∧ bytesAvailable s < s.payload.length
      ∧ ∀ (data : List Nat) (size i : Nat), 32 ≤ i →
          (readRxFIFO data size s).1.getD i 0 = data.getD i 0 := by
  obtain ⟨h1, h2, _, _⟩ := reachable_invariant c s h
  refine ⟨h1, ?_, ?_⟩
  · unfold bytesAvailable
    omega
  · intro data size i hi
    exact memcpy_getD_of_le data s.payload s.receiveBytesAvailable i (le_trans h1 hi)

theorem bytesAvailable_le_32_witness :
    Reachable scriptChip (pin_change_isr0 scriptChip false
        (nRF_Config scriptChip Mode.NRF24_RECEIVER (Driver.init (idle [14, 14, 7]))))
      ∧ bytesAvailable (pin_change_isr0 scriptChip false
          (nRF_Config scriptChip Mode.NRF24_RECEIVER (Driver.init (idle [14, 14, 7])))) ≤ 32 :=
  ⟨Reachable.interrupt _ _ (Reachable.config _ _ (Reachable.start _)),
    (bytesAvailable_le_32 scriptChip _
      (Reachable.interrupt _ _ (Reachable.config _ _ (Reachable.start _)))).1⟩

/-- C25: in every reachable state the address guard of `sendData` holds, and
for a length `L` from 0 to 32 the call `sendData(d, L)` adds exactly this to the
trace: a `FLUSH_TX` transaction, a `W_TX_PAYLOAD` transaction carrying the bytes
`d[L-1], ..., d[0]`, chip-enable raised, one delay of 145 microseconds,
chip-enable lowered. -/
theorem sendData_timeline {σ : Type} (c : Chip σ) (s : Driver σ) (d : List Nat) (L : Nat)
    (hs : Reachable c s) (hL : L ≤ 32) :
    addressGuard s
      ∧ timeline (newEvents s.hw.trace (sendData c d (L : Int) s).hw.trace)
        = [Step.txn [FLUSH_TX], Step.txn (W_TX_PAYLOAD :: wireBytes L d), Step.ce true,
            Step.delayUs 145, Step.ce false]
      ∧ (sendData c d (L : Int) s).hw.CE = false := by
  have hg := addressGuard_of_reachable c s hs
  refine ⟨hg, ?_, ?_⟩
  · rw [sendData_of_guard c d _ s hg]
    have hL' : (L : Int) ≤ 32 := by exact_mod_cast hL
    simp only [writeCommand_FLUSH_TX, writeCommand_W_TX_PAYLOAD c d (L : Int) hL']
    have e1 := plays_commandOnly c FLUSH_TX [] s.hw
    have e2 := plays_writeMany c W_TX_PAYLOAD d L (by omega) (commandOnly c FLUSH_TX [] s.hw).hw
    have e3 := plays_setCE true (writeMany c W_TX_PAYLOAD d (L : Int)
      (commandOnly c FLUSH_TX [] s.hw).hw).hw
    have e4 := plays_delay_us (15 + 130) (setCE true (writeMany c W_TX_PAYLOAD d (L : Int)
      (commandOnly c FLUSH_TX [] s.hw).hw).hw)
    have e5 := plays_setCE false (delay_us (15 + 130) (setCE true (writeMany c W_TX_PAYLOAD d
      (L : Int) (commandOnly c FLUSH_TX [] s.hw).hw).hw))
    exact plays_timeline_newEvents
      (plays_trans (plays_trans (plays_trans (plays_trans e1 e2) e3) e4) e5)
  · rw [sendData_of_guard c d _ s hg]
    rfl

theorem sendData_timeline_witness :
    Reachable scriptChip (nRF_Config scriptChip Mode.NRF24_TRANSMITTER (Driver.init (idle [])))
      ∧ timeline (newEvents
          (nRF_Config scriptChip Mode.NRF24_TRANSMITTER (Driver.init (idle []))).hw.trace
          (sendData scriptChip (List.replicate 32 0x73) ((32 : Nat) : Int)
            (nRF_Config scriptChip Mode.NRF24_TRANSMITTER (Driver.init (idle [])))).hw.trace)
        = [Step.txn [FLUSH_TX], Step.txn (W_TX_PAYLOAD :: wireBytes 32 (List.replicate 32 0x73)),
            Step.ce true, Step.delayUs 145, Step.ce false] :=
  ⟨Reachable.config _ _ (Reachable.start _),
    (sendData_timeline scriptChip _ (List.replicate 32 0x73) 32
      (Reachable.config _ _ (Reachable.start _)) (by decide)).2.1⟩

/-- C30: in every reachable state, for a length `L` above 32 the call
`sendData(d, L)` adds exactly this to the trace: a `FLUSH_TX` transaction,
chip-enable raised, one delay of 145 microseconds, chip-enable lowered.  The
call of `writeCommand` with `W_TX_PAYLOAD` in between ends with
`PARAMETER_ERROR` and adds no event; apart from the hardware the driver state
is as before. -/
theorem sendData_oversize {σ : Type} (c : Chip σ) (s : Driver σ) (d : List Nat) (L : Int)
    (hs : Reachable c s) (hL : 32 < L) :
    (writeCommand c W_TX_PAYLOAD d L (writeCommand c FLUSH_TX [] 0 s.hw).hw).error
        = ErrorCode.PARAMETER_ERROR
      ∧ newEvents (writeCommand c FLUSH_TX [] 0 s.hw).hw.trace
          (writeCommand c W_TX_PAYLOAD d L (writeCommand c FLUSH_TX [] 0 s.hw).hw).hw.trace = []
      ∧ timeline (newEvents s.hw.trace (sendData c d L s).hw.trace)
        = [Step.txn [FLUSH_TX], Step.ce true, Step.delayUs 145, Step.ce false]
      ∧ sendData c d L s = { s with hw := (sendData c d L s).hw } := by
  have hg := addressGuard_of_reachable c s hs
  have herr : (writeCommand c W_TX_PAYLOAD d L (writeCommand c FLUSH_TX [] 0 s.hw).hw).error
      = ErrorCode.PARAMETER_ERROR := by
    have hn : ¬ L ≤ 32 := by omega
    simp +decide [writeCommand, hn, finish]
  have hrej := writeCommand_of_rejected c W_TX_PAYLOAD d L (writeCommand c FLUSH_TX [] 0 s.hw).hw
    (by rw [herr]; decide)
  refine ⟨herr, ?_, ?_, ?_⟩
  · rw [hrej.1]
    simp [newEvents]
  · rw [sendData_of_guard c d _ s hg]
    rw [hrej.1]
    simp only [writeCommand_FLUSH_TX]
    have e1 := plays_commandOnly c FLUSH_TX [] s.hw
    have e3 := plays_setCE true (commandOnly c FLUSH_TX [] s.hw).hw
    have e4 := plays_delay_us (15 + 130) (setCE true (commandOnly c FLUSH_TX [] s.hw).hw)
    have e5 := plays_setCE false (delay_us (15 + 130) (setCE true
      (commandOnly c FLUSH_TX [] s.hw).hw))
    exact plays_timeline_newEvents (plays_trans (plays_trans (plays_trans e1 e3) e4) e5)
  · rw [sendData_of_guard c d _ s hg]

theorem sendData_oversize_witness :
    Reachable scriptChip (Driver.init (idle [14]))
      ∧ timeline (newEvents (Driver.init (idle [14])).hw.trace
          (sendData scriptChip (List.replicate 33 0x73) 33 (Driver.init (idle [14]))).hw.trace)
        = [Step.txn [FLUSH_TX], Step.ce true, Step.delayUs 145, Step.ce false] :=
  ⟨Reachable.start _,
    (sendData_oversize scriptChip _ (List.replicate 33 0x73) 33 (Reachable.start _)
      (by decide)).2.2.1⟩
/-! ## Outline of `nRF_Config` -/

theorem performs_run {σ : Type} : ∀ (fs : List (Hw σ → Hw σ)) (os : List (List Outline)),
    List.Forall₂ Performs fs os → Performs (run fs) os.flatten := by
  intro fs os h
  induction h with
  | nil =>
    intro hw
    exact ⟨[], plays_refl _, rfl⟩
  | cons hf _ ih =>
    intro hw
    obtain ⟨s1, p1, m1⟩ := hf hw
    obtain ⟨s2, p2, m2⟩ := ih (_)
    refine ⟨s1 ++ s2, ?_, ?_⟩
    · rw [run_cons]
      exact plays_trans p1 p2
    · rw [List.map_append, m1, m2]
      rfl

theorem performs_outline {σ : Type} {f : Hw σ → Hw σ} {o : List Outline} (h : Performs f o)
    (hw : Hw σ) : outline (newEvents hw.trace (f hw).trace) = o := by
  obtain ⟨steps, p, m⟩ := h hw
  unfold outline
  rw [plays_timeline_newEvents p, m]

theorem performs_start {σ : Type} (c : Chip σ) :
    Performs (fun h : Hw σ => setCE false (setCSN c true h)) [Outline.ce false] := by
  intro hw
  exact ⟨[] ++ [Step.ce false], plays_trans (plays_setCSN_true c hw) (plays_setCE false _), rfl⟩

theorem performs_delay_ms {σ : Type} (n : Nat) :
    Performs (delay_ms n : Hw σ → Hw σ) [Outline.delayMs n] := by
  intro hw
  exact ⟨_, plays_delay_ms n hw, rfl⟩

theorem performs_setCE {σ : Type} (v : Bool) :
    Performs (setCE v : Hw σ → Hw σ) [Outline.ce v] := by
  intro hw
  exact ⟨_, plays_setCE v hw, rfl⟩

theorem performs_rmwHw {σ : Type} (c : Chip σ) (reg : Nat) (h : reg ∈ writeSingle)
    (f : Nat → Nat) :
    Performs (rmwHw c reg f)
      [Outline.command (R_REGISTER + reg) 1, Outline.command (W_REGISTER + reg) 1] := by
  have hr : reg ∈ readSingle := by
    revert h
    simp only [readSingle, writeSingle, List.mem_cons, List.mem_singleton, List.not_mem_nil,
      or_false]
    tauto
  intro hw
  unfold rmwHw
  rw [writeCommand_write_single c reg h, writeCommand_read_single c reg hr]
  exact ⟨_, plays_trans (plays_readOne c _ _ hw) (plays_writeOne c _ _ _), rfl⟩

theorem performs_write_single {σ : Type} (c : Chip σ) (reg : Nat) (h : reg ∈ writeSingle)
    (data : List Nat) :
    Performs (cmdHw c (W_REGISTER + reg) data 1) [Outline.command (W_REGISTER + reg) 1] := by
  intro hw
  unfold cmdHw
  rw [writeCommand_write_single c reg h]
  exact ⟨_, plays_writeOne c _ _ hw, rfl⟩

theorem performs_flush {σ : Type} (c : Chip σ) (data : List Nat) :
    Performs (cmdHw c FLUSH_TX data 0) [Outline.command FLUSH_TX 0]
      ∧ Performs (cmdHw c FLUSH_RX data 0) [Outline.command FLUSH_RX 0] := by
  constructor
  · intro hw
    unfold cmdHw
    rw [writeCommand_FLUSH_TX]
    exact ⟨_, plays_commandOnly c _ _ hw, rfl⟩
  · intro hw
    unfold cmdHw
    rw [writeCommand_FLUSH_RX]
    exact ⟨_, plays_commandOnly c _ _ hw, rfl⟩

theorem writeCommand_address {σ : Type} (c : Chip σ) (data : List Nat) (hw : Hw σ) :
    writeCommand c (W_REGISTER + RX_ADDR_P0) data 5 hw
        = writeMany c (W_REGISTER + RX_ADDR_P0) data ((5 : Nat) : Int) hw
      ∧ writeCommand c (W_REGISTER + TX_ADDR) data 5 hw
        = writeMany c (W_REGISTER + TX_ADDR) data ((5 : Nat) : Int) hw := by
  constructor <;> simp +decide [writeCommand]

theorem performs_addressHw {σ : Type} (c : Chip σ) (base : List Nat) :
    Performs (addressHw c base)
      [Outline.command (W_REGISTER + RX_ADDR_P0) 5, Outline.command (W_REGISTER + TX_ADDR) 5] := by
  intro hw
  unfold addressHw
  rw [(writeCommand_address c _ _).2, (writeCommand_address c _ _).1]
  refine ⟨_, plays_trans (plays_writeMany c _ _ 5 (by decide) hw)
    (plays_writeMany c _ _ 5 (by decide) _), ?_⟩
  simp [Step.outline, wireBytes_len]

theorem performs_dynamicPayloadHw {σ : Type} (c : Chip σ) :
    Performs (dynamicPayloadHw c)
      [Outline.command (W_REGISTER + DYNPD) 1, Outline.command (W_REGISTER + FEATURE) 1] := by
  intro hw
  unfold dynamicPayloadHw
  rw [writeCommand_write_single c FEATURE (by decide),
    writeCommand_write_single c DYNPD (by decide)]
  exact ⟨_, plays_trans (plays_writeOne c _ _ hw) (plays_writeOne c _ _ _), rfl⟩

theorem performs_configCommon {σ : Type} (c : Chip σ) (base : List Nat) :
    Performs (run (configCommon c base)) outlineCommon := by
  have h := performs_run (configCommon c base)
    [[Outline.ce false], [Outline.delayMs 110],
     [Outline.command (R_REGISTER + CONFIG) 1, Outline.command (W_REGISTER + CONFIG) 1],
     [Outline.delayMs 5],
     [Outline.command (W_REGISTER + STATUS) 1],
     [Outline.command FLUSH_TX 0],
     [Outline.command FLUSH_RX 0],
     [Outline.command (R_REGISTER + EN_AA) 1, Outline.command (W_REGISTER + EN_AA) 1],
     [Outline.command (R_REGISTER + EN_RXADDR) 1, Outline.command (W_REGISTER + EN_RXADDR) 1],
     [Outline.command (R_REGISTER + SETUP_AW) 1, Outline.command (W_REGISTER + SETUP_AW) 1],
     [Outline.command (W_REGISTER + RF_CH) 1],
     [Outline.command (R_REGISTER + RF_SETUP) 1, Outline.command (W_REGISTER + RF_SETUP) 1],
     [Outline.command (R_REGISTER + RF_SETUP) 1, Outline.command (W_REGISTER + RF_SETUP) 1],
     [Outline.command (W_REGISTER + RX_ADDR_P0) 5, Outline.command (W_REGISTER + TX_ADDR) 5],
     [Outline.command (W_REGISTER + DYNPD) 1, Outline.command (W_REGISTER + FEATURE) 1],
     [Outline.command (R_REGISTER + CONFIG) 1, Outline.command (W_REGISTER + CONFIG) 1]]
    (by
      unfold configCommon
      refine List.Forall₂.cons (performs_start c) ?_
      refine List.Forall₂.cons (performs_delay_ms 110) ?_
      refine List.Forall₂.cons (performs_rmwHw c CONFIG (by decide) _) ?_
      refine List.Forall₂.cons (performs_delay_ms 5) ?_
      refine List.Forall₂.cons (performs_write_single c STATUS (by decide) _) ?_
      refine List.Forall₂.cons (performs_flush c []).1 ?_
      refine List.Forall₂.cons (performs_flush c []).2 ?_
      refine List.Forall₂.cons (performs_rmwHw c EN_AA (by decide) _) ?_
      refine List.Forall₂.cons (performs_rmwHw c EN_RXADDR (by decide) _) ?_
      refine List.Forall₂.cons (performs_rmwHw c SETUP_AW (by decide) _) ?_
      refine List.Forall₂.cons (performs_write_single c RF_CH (by decide) _) ?_
      refine List.Forall₂.cons (performs_rmwHw c RF_SETUP (by decide) _) ?_
      refine List.Forall₂.cons (performs_rmwHw c RF_SETUP (by decide) _) ?_
      refine List.Forall₂.cons (performs_addressHw c base) ?_
      refine List.Forall₂.cons (performs_dynamicPayloadHw c) ?_
      refine List.Forall₂.cons (performs_rmwHw c CONFIG (by decide) _) ?_
      exact List.Forall₂.nil)
  exact h

theorem performs_configBranch {σ : Type} (c : Chip σ) (mode : Mode) :
    Performs (run (configBranch c mode)) (outlineBranch mode) := by
  cases mode
  · have h := performs_run (configBranch c Mode.NRF24_TRANSMITTER)
      [[Outline.command (R_REGISTER + CONFIG) 1, Outline.command (W_REGISTER + CONFIG) 1],
       [Outline.command (R_REGISTER + CONFIG) 1, Outline.command (W_REGISTER + CONFIG) 1],
       [Outline.command (R_REGISTER + CONFIG) 1, Outline.command (W_REGISTER + CONFIG) 1],
       [Outline.delayMs 100]]
      (by
        unfold configBranch
        refine List.Forall₂.cons (performs_rmwHw c CONFIG (by decide) _) ?_
        refine List.Forall₂.cons (performs_rmwHw c CONFIG (by decide) _) ?_
        refine List.Forall₂.cons (performs_rmwHw c CONFIG (by decide) _) ?_
        refine List.Forall₂.cons (performs_delay_ms 100) ?_
        exact List.Forall₂.nil)
    exact h
  · have h := performs_run (configBranch c Mode.NRF24_RECEIVER)
      [[Outline.command (R_REGISTER + CONFIG) 1, Outline.command (W_REGISTER + CONFIG) 1],
       [Outline.command (R_REGISTER + CONFIG) 1, Outline.command (W_REGISTER + CONFIG) 1],
       [Outline.command (R_REGISTER + CONFIG) 1, Outline.command (W_REGISTER + CONFIG) 1],
       [Outline.delayMs 5], [Outline.ce true]]
      (by
        unfold configBranch
        refine List.Forall₂.cons (performs_rmwHw c CONFIG (by decide) _) ?_
        refine List.Forall₂.cons (performs_rmwHw c CONFIG (by decide) _) ?_
        refine List.Forall₂.cons (performs_rmwHw c CONFIG (by decide) _) ?_
        refine List.Forall₂.cons (performs_delay_ms 5) ?_
        refine List.Forall₂.cons (performs_setCE true) ?_
        exact List.Forall₂.nil)
    exact h

theorem performs_append {σ : Type} {f g : Hw σ → Hw σ} {o1 o2 : List Outline}
    (h1 : Performs f o1) (h2 : Performs g o2) : Performs (fun hw => g (f hw)) (o1 ++ o2) := by
  intro hw
  obtain ⟨s1, p1, m1⟩ := h1 hw
  obtain ⟨s2, p2, m2⟩ := h2 (f hw)
  exact ⟨s1 ++ s2, plays_trans p1 p2, by rw [List.map_append, m1, m2]⟩

theorem outline_of_nRF_Config {σ : Type} (c : Chip σ) (mode : Mode) (s : Driver σ) :
    outline (newEvents s.hw.trace (nRF_Config c mode s).hw.trace)
      = outlineCommon ++ outlineBranch mode := by
  rw [nRF_Config_eq]
  have h := performs_outline
    (performs_append (performs_configCommon c s.Base_Addrs) (performs_configBranch c mode)) s.hw
  rw [← h, run_append]

/-- Outline of `nRF_Config` (opcodes and numbers of data bytes only): for each
mode and against any chip, what `nRF_Config` adds to the
trace is, in this order and with nothing else: chip-enable lowered, 110 ms
delay, power down (read and write of CONFIG), 5 ms delay, write of STATUS,
`FLUSH_TX`, `FLUSH_RX`, read and write of EN_AA, of EN_RXADDR, of SETUP_AW,
write of RF_CH, read and write of RF_SETUP twice (power, data rate), write of
5 bytes to RX_ADDR_P0, of 5 bytes to TX_ADDR, write of DYNPD, of FEATURE, read
and write of CONFIG (CRC), then three more reads and writes of CONFIG
(interrupt mask, mode bit, power up) and, for the transmitter, a 100 ms delay,
for the receiver a 5 ms delay followed by chip-enable raised. -/
theorem nRF_Config_outline {σ : Type} (c : Chip σ) (s : Driver σ) :
    outline (newEvents s.hw.trace (nRF_Config c Mode.NRF24_TRANSMITTER s).hw.trace)
        = [Outline.ce false,
           Outline.delayMs 110,
           Outline.command (R_REGISTER + CONFIG) 1, Outline.command (W_REGISTER + CONFIG) 1,
           Outline.delayMs 5,
           Outline.command (W_REGISTER + STATUS) 1,
           Outline.command FLUSH_TX 0,
           Outline.command FLUSH_RX 0,
           Outline.command (R_REGISTER + EN_AA) 1, Outline.command (W_REGISTER + EN_AA) 1,
           Outline.command (R_REGISTER + EN_RXADDR) 1, Outline.command (W_REGISTER + EN_RXADDR) 1,
           Outline.command (R_REGISTER + SETUP_AW) 1, Outline.command (W_REGISTER + SETUP_AW) 1,
           Outline.command (W_REGISTER + RF_CH) 1,
           Outline.command (R_REGISTER + RF_SETUP) 1, Outline.command (W_REGISTER + RF_SETUP) 1,
           Outline.command (R_REGISTER + RF_SETUP) 1, Outline.command (W_REGISTER + RF_SETUP) 1,
           Outline.command (W_REGISTER + RX_ADDR_P0) 5,
           Outline.command (W_REGISTER + TX_ADDR) 5,
           Outline.command (W_REGISTER + DYNPD) 1,
           Outline.command (W_REGISTER + FEATURE) 1,
           Outline.command (R_REGISTER + CONFIG) 1, Outline.command (W_REGISTER + CONFIG) 1,
           Outline.command (R_REGISTER + CONFIG) 1, Outline.command (W_REGISTER + CONFIG) 1,
           Outline.command (R_REGISTER + CONFIG) 1, Outline.command (W_REGISTER + CONFIG) 1,
           Outline.command (R_REGISTER + CONFIG) 1, Outline.command (W_REGISTER + CONFIG) 1,
           Outline.delayMs 100]
      ∧ outline (newEvents s.hw.trace (nRF_Config c Mode.NRF24_RECEIVER s).hw.trace)
        = [Outline.ce false,
           Outline.delayMs 110,
           Outline.command (R_REGISTER + CONFIG) 1, Outline.command (W_REGISTER + CONFIG) 1,
           Outline.delayMs 5,
           Outline.command (W_REGISTER + STATUS) 1,
           Outline.command FLUSH_TX 0,
           Outline.command FLUSH_RX 0,
           Outline.command (R_REGISTER + EN_AA) 1, Outline.command (W_REGISTER + EN_AA) 1,
           Outline.command (R_REGISTER + EN_RXADDR) 1, Outline.command (W_REGISTER + EN_RXADDR) 1,
           Outline.command (R_REGISTER + SETUP_AW) 1, Outline.command (W_REGISTER + SETUP_AW) 1,
           Outline.command (W_REGISTER + RF_CH) 1,
           Outline.command (R_REGISTER + RF_SETUP) 1, Outline.command (W_REGISTER + RF_SETUP) 1,
           Outline.command (R_REGISTER + RF_SETUP) 1, Outline.command (W_REGISTER + RF_SETUP) 1,
           Outline.command (W_REGISTER + RX_ADDR_P0) 5,
           Outline.command (W_REGISTER + TX_ADDR) 5,
           Outline.command (W_REGISTER + DYNPD) 1,
           Outline.command (W_REGISTER + FEATURE) 1,
           Outline.command (R_REGISTER + CONFIG) 1, Outline.command (W_REGISTER + CONFIG) 1,
           Outline.command (R_REGISTER + CONFIG) 1, Outline.command (W_REGISTER + CONFIG) 1,
           Outline.command (R_REGISTER + CONFIG) 1, Outline.command (W_REGISTER + CONFIG) 1,
           Outline.command (R_REGISTER + CONFIG) 1, Outline.command (W_REGISTER + CONFIG) 1,
           Outline.delayMs 5,
           Outline.ce true] :=
  ⟨outline_of_nRF_Config c Mode.NRF24_TRANSMITTER s, outline_of_nRF_Config c Mode.NRF24_RECEIVER s⟩
/-! ## The hardware steps on the simulated chip -/

theorem rmwHw_regs {reg : Nat} (h : reg ∈ writeSingle) (f : Nat → Nat) (hw : Hw RegChip)
    (r : Nat) :
    (rmwHw regChip reg f hw).chip.regs r
      = if r = reg then f (hw.chip.regs reg % 256) else hw.chip.regs r := by
  have hr : reg ∈ readSingle := by
    revert h
    simp only [readSingle, writeSingle, List.mem_cons, List.mem_singleton, List.not_mem_nil,
      or_false]
    tauto
  unfold rmwHw
  rw [regChip_write h, (regChip_read h [] hw).1, (regChip_read h [] hw).2]
  rw [writeCommand_read_single regChip reg hr]
  simp [readOne, finish]

theorem cmdHw_write_regs {reg : Nat} (h : reg ∈ writeSingle) (data : List Nat)
    (hw : Hw RegChip) (r : Nat) :
    (cmdHw regChip (W_REGISTER + reg) data 1 hw).chip.regs r
      = if r = reg then data.getD 0 0 else hw.chip.regs r := by
  unfold cmdHw
  rw [regChip_write h]

theorem cmdHw_flush_regs (data : List Nat) (hw : Hw RegChip) :
    (cmdHw regChip FLUSH_TX data 0 hw).chip.regs = hw.chip.regs
      ∧ (cmdHw regChip FLUSH_RX data 0 hw).chip.regs = hw.chip.regs := by
  unfold cmdHw
  rw [writeCommand_FLUSH_TX, writeCommand_FLUSH_RX]
  exact ⟨rfl, rfl⟩

theorem dynamicPayloadHw_regs (hw : Hw RegChip) (r : Nat) :
    (dynamicPayloadHw regChip hw).chip.regs r
      = if r = FEATURE then 0x04 else if r = DYNPD then 0x01 else hw.chip.regs r := by
  unfold dynamicPayloadHw
  rw [regChip_write (by decide), regChip_write (by decide),
    writeCommand_write_single regChip DYNPD (by decide)]
  rfl

theorem addressHw_regs (base : List Nat) (hw : Hw RegChip) (r : Nat) (h1 : r ≠ RX_ADDR_P0)
    (h2 : r ≠ TX_ADDR) : (addressHw regChip base hw).chip.regs r = hw.chip.regs r := by
  unfold addressHw
  rw [(writeCommand_address regChip _ _).2, (writeCommand_address regChip _ _).1]
  simp only [writeMany, loopCount_natCast 5 (by decide), writeLoop, finish, setCSN, spi, regChip]
  have e1 : (W_REGISTER + TX_ADDR) &&& 31 = TX_ADDR := by decide
  have e2 : (W_REGISTER + RX_ADDR_P0) &&& 31 = RX_ADDR_P0 := by decide
  simp +decide [h1, h2, e1, e2]

theorem delay_ms_chip {σ : Type} (n : Nat) (hw : Hw σ) : (delay_ms n hw).chip = hw.chip := rfl

theorem setCE_chip {σ : Type} (v : Bool) (hw : Hw σ) : (setCE v hw).chip = hw.chip := rfl

theorem setCSN_regs (v : Bool) (hw : Hw RegChip) :
    (setCSN regChip v hw).chip.regs = hw.chip.regs := rfl
/-! ## Registers after `nRF_Config` on the simulated chip -/

theorem nRF_Config_regs (mode : Mode) (s : Driver RegChip) :
    (nRF_Config regChip mode s).hw.chip.regs EN_RXADDR = s.hw.chip.regs EN_RXADDR % 256 ||| 0x01
      ∧ (nRF_Config regChip mode s).hw.chip.regs SETUP_AW
          = (s.hw.chip.regs SETUP_AW % 256 ||| 0x01) &&& 0xFD
      ∧ (nRF_Config regChip mode s).hw.chip.regs RF_SETUP
          = (((s.hw.chip.regs RF_SETUP % 256 ||| 0x06) % 256) &&& 0xDF) &&& 0xF7 := by
  rw [nRF_Config_eq]
  dsimp only
  cases mode <;>
    simp +decide only [configCommon, configBranch, List.cons_append, List.nil_append, run_cons,
      run_nil, delay_ms_chip, setCE_chip, setCSN_regs, rmwHw_regs (show CONFIG ∈ writeSingle by decide),
      rmwHw_regs (show EN_AA ∈ writeSingle by decide),
      rmwHw_regs (show EN_RXADDR ∈ writeSingle by decide),
      rmwHw_regs (show SETUP_AW ∈ writeSingle by decide),
      rmwHw_regs (show RF_SETUP ∈ writeSingle by decide),
      cmdHw_write_regs (show STATUS ∈ writeSingle by decide),
      cmdHw_write_regs (show RF_CH ∈ writeSingle by decide),
      (cmdHw_flush_regs _ _).1, (cmdHw_flush_regs _ _).2, dynamicPayloadHw_regs,
      addressHw_regs, ne_eq, not_false_eq_true, if_true, if_false, and_self]

theorem nRF_Config_CONFIG_regs (s : Driver RegChip) :
    (nRF_Config regChip Mode.NRF24_TRANSMITTER s).hw.chip.regs CONFIG
        = (((((((s.hw.chip.regs CONFIG % 256 &&& 0xFD) % 256 ||| 0x08) ||| 0x04) % 256
            ||| 0x40) &&& 0xDF) &&& 0xEF) % 256 &&& 0xFE) % 256 ||| 0x02
      ∧ (nRF_Config regChip Mode.NRF24_RECEIVER s).hw.chip.regs CONFIG
        = (((((((s.hw.chip.regs CONFIG % 256 &&& 0xFD) % 256 ||| 0x08) ||| 0x04) % 256
            &&& 0xBF) ||| 0x20) ||| 0x10) % 256 ||| 0x01) % 256 ||| 0x02 := by
  rw [nRF_Config_eq, nRF_Config_eq]
  dsimp only
  simp +decide only [configCommon, configBranch, List.cons_append, List.nil_append, run_cons,
      run_nil, delay_ms_chip, setCE_chip, setCSN_regs, rmwHw_regs (show CONFIG ∈ writeSingle by decide),
      rmwHw_regs (show EN_AA ∈ writeSingle by decide),
      rmwHw_regs (show EN_RXADDR ∈ writeSingle by decide),
      rmwHw_regs (show SETUP_AW ∈ writeSingle by decide),
      rmwHw_regs (show RF_SETUP ∈ writeSingle by decide),
      cmdHw_write_regs (show STATUS ∈ writeSingle by decide),
      cmdHw_write_regs (show RF_CH ∈ writeSingle by decide),
      (cmdHw_flush_regs _ _).1, (cmdHw_flush_regs _ _).2, dynamicPayloadHw_regs,
      addressHw_regs, ne_eq, not_false_eq_true, if_true, if_false, and_self]
/-! ## Chip-enable and chip-select after `nRF_Config` -/

theorem readLoop_CE {σ : Type} (c : Chip σ) (k : Nat) : ∀ (data : List Nat) (hw : Hw σ),
    (readLoop c k data hw).2.CE = hw.CE := by
  induction k with
  | zero => intro data hw; rfl
  | succ k ih =>
    intro data hw
    simp only [readLoop]
    rw [ih]
    rfl

theorem writeLoop_CE {σ : Type} (c : Chip σ) (k : Nat) (data : List Nat) : ∀ hw : Hw σ,
    (writeLoop c k data hw).CE = hw.CE := by
  induction k with
  | zero => intro hw; rfl
  | succ k ih =>
    intro hw
    simp only [writeLoop]
    rw [ih]
    rfl

theorem writeCommand_CE {σ : Type} (c : Chip σ) (ins : Nat) (b : List Nat) (n : Int)
    (hw : Hw σ) : (writeCommand c ins b n hw).hw.CE = hw.CE := by
  by_cases hacc : (writeCommand c ins b n hw).error = ErrorCode.OK
  · rcases writeCommand_accepted_cases c ins b n hw hacc with
      ⟨_, _, he⟩ | ⟨_, _, he⟩ | ⟨_, _, he⟩ | ⟨_, _, he⟩ | ⟨_, _, he⟩
    · rw [he]; rfl
    · rw [he]; rfl
    · rw [he]
      simp only [readMany, finish, setCSN]
      rw [readLoop_CE]
      rfl
    · rw [he]
      simp only [writeMany, finish, setCSN]
      rw [writeLoop_CE]
      rfl
    · rw [he]; rfl
  · rw [(writeCommand_of_rejected c ins b n hw hacc).1]

theorem steps_CE {σ : Type} (c : Chip σ) (hw : Hw σ) :
    (∀ reg f, (rmwHw c reg f hw).CE = hw.CE)
      ∧ (∀ ins data n, (cmdHw c ins data n hw).CE = hw.CE)
      ∧ (∀ base, (addressHw c base hw).CE = hw.CE)
      ∧ (dynamicPayloadHw c hw).CE = hw.CE
      ∧ (∀ n, (delay_ms n hw).CE = hw.CE)
      ∧ (∀ v, (setCE v hw).CE = v) := by
  refine ⟨?_, ?_, ?_, ?_, fun _ => rfl, fun _ => rfl⟩
  · intro reg f
    unfold rmwHw
    rw [writeCommand_CE, writeCommand_CE]
  · intro ins data n
    unfold cmdHw
    rw [writeCommand_CE]
  · intro base
    unfold addressHw
    rw [writeCommand_CE, writeCommand_CE]
  · unfold dynamicPayloadHw
    rw [writeCommand_CE, writeCommand_CE]

theorem rmwHw_CSN {σ : Type} (c : Chip σ) (reg : Nat) (h : reg ∈ writeSingle) (f : Nat → Nat)
    (hw : Hw σ) : (rmwHw c reg f hw).CSN = true := by
  unfold rmwHw
  rw [writeCommand_write_single c reg h]
  rfl

theorem nRF_Config_lines {σ : Type} (c : Chip σ) (s : Driver σ) :
    ((nRF_Config c Mode.NRF24_TRANSMITTER s).hw.CE = false
        ∧ (nRF_Config c Mode.NRF24_TRANSMITTER s).hw.CSN = true)
      ∧ ((nRF_Config c Mode.NRF24_RECEIVER s).hw.CE = true
        ∧ (nRF_Config c Mode.NRF24_RECEIVER s).hw.CSN = true) := by
  have hce : ∀ (reg : Nat) (f : Nat → Nat) (hw : Hw σ), (rmwHw c reg f hw).CE = hw.CE :=
    fun reg f hw => (steps_CE c hw).1 reg f
  have hcmd : ∀ (ins : Nat) (data : List Nat) (n : Int) (hw : Hw σ),
      (cmdHw c ins data n hw).CE = hw.CE := fun ins data n hw => (steps_CE c hw).2.1 ins data n
  have hadr : ∀ (base : List Nat) (hw : Hw σ), (addressHw c base hw).CE = hw.CE :=
    fun base hw => (steps_CE c hw).2.2.1 base
  have hdyn : ∀ hw : Hw σ, (dynamicPayloadHw c hw).CE = hw.CE := fun hw => (steps_CE c hw).2.2.2.1
  have hdel : ∀ (n : Nat) (hw : Hw σ), (delay_ms n hw).CE = hw.CE := fun _ _ => rfl
  have hset : ∀ (v : Bool) (hw : Hw σ), (setCE v hw).CE = v := fun _ _ => rfl
  have hdelS : ∀ (n : Nat) (hw : Hw σ), (delay_ms n hw).CSN = hw.CSN := fun _ _ => rfl
  have hsetS : ∀ (v : Bool) (hw : Hw σ), (setCE v hw).CSN = hw.CSN := fun _ _ => rfl
  rw [nRF_Config_eq, nRF_Config_eq]
  dsimp only
  simp only [configCommon, configBranch, List.cons_append, List.nil_append, run_cons, run_nil,
    hce, hcmd, hadr, hdyn, hdel, hset, hdelS, hsetS,
    rmwHw_CSN c CONFIG (by decide), and_self]
/-! ## The configuration `nRF_Config` leaves in the registers -/

theorem land_of_mod (w m : Nat) (hm : 255 &&& m = m) : w &&& m = w % 256 &&& m := by
  have h256 : (256 : Nat) = 2 ^ 8 := by norm_num
  have h255 : (2 ^ 8 - 1 : Nat) = 255 := by norm_num
  rw [h256, ← Nat.and_pow_two_sub_one_eq_mod, Nat.and_assoc, h255, hm]

set_option maxRecDepth 1000000 in
theorem config_bits_transmitter : ∀ v, v < 256 →
    (((((((v &&& 0xFD) % 256 ||| 0x08) ||| 0x04) % 256 ||| 0x40) &&& 0xDF) &&& 0xEF) % 256
      &&& 0xFE) % 256 ||| 0x02 = (v &&& 0x80) ||| 0x4E := by
  decide

set_option maxRecDepth 1000000 in
theorem config_bits_receiver : ∀ v, v < 256 →
    (((((((v &&& 0xFD) % 256 ||| 0x08) ||| 0x04) % 256 &&& 0xBF) ||| 0x20) ||| 0x10) % 256
      ||| 0x01) % 256 ||| 0x02 = (v &&& 0x80) ||| 0x3F := by
  decide

set_option maxRecDepth 1000000 in
theorem power_bits : ∀ v, v < 256 →
    (((((v ||| 0x06) % 256) &&& 0xDF) &&& 0xF7) >>> 1) &&& 0b11 = 0b11 := by
  decide

set_option maxRecDepth 1000000 in
theorem pipe_bits : ∀ v, v < 256 →
    ((v ||| 0x01) &&& 0x01 = 0x01) ∧ ((v ||| 0x01) &&& 0xFE = v &&& 0xFE)
      ∧ ((v ||| 0x01) &&& 0x3E = 0 ↔ v &&& 0x3E = 0) := by
  decide

/-- C22 (not met by the code): on the simulated chip, for either mode and every
prior register file, `nRF_Config` leaves the low two bits of SETUP_AW at `01`,
the encoding of a 3 byte address, which differs from `11`, the encoding of a
5 byte address. -/
theorem nRF_Config_address_width (mode : Mode) (s : Driver RegChip) :
    (nRF_Config regChip mode s).hw.chip.regs SETUP_AW &&& 0b11
        = NRF24_AddressWidth.NRF24_3Byte.encoding
      ∧ NRF24_AddressWidth.NRF24_3Byte.encoding ≠ NRF24_AddressWidth.NRF24_5Byte.encoding := by
  refine ⟨?_, by decide⟩
  rw [(nRF_Config_regs mode s).2.1, land_three_of_mod]
  exact (addressWidth_bits (s.hw.chip.regs SETUP_AW % 256) (Nat.mod_lt _ (by norm_num))).1

/-- C23 (as stated, refuted): on the simulated chip with every register 0,
after `nRF_Config(NRF24_TRANSMITTER)` bits 2:1 of RF_SETUP are `11`, not the
`00` of `NRF24_m18dBm`. -/
theorem nRF_Config_power_not_minimum :
    ((nRF_Config regChip Mode.NRF24_TRANSMITTER
        (Driver.init (regChipWith (fun _ => 0)))).hw.chip.regs RF_SETUP >>> 1) &&& 0b11 = 0b11
      ∧ NRF24_TXPower.NRF24_m18dBm.encoding = 0b00 := by
  refine ⟨?_, rfl⟩
  rw [(nRF_Config_regs _ _).2.2]
  decide

/-- C23 (amended): on the simulated chip, for either mode and every prior
register file, after `nRF_Config` bits 2:1 of RF_SETUP are `11`, the encoding
of `NRF24_0dBm`, the highest of the four power levels. -/
theorem nRF_Config_power_is_0dBm (mode : Mode) (s : Driver RegChip) :
    ((nRF_Config regChip mode s).hw.chip.regs RF_SETUP >>> 1) &&& 0b11
      = NRF24_TXPower.NRF24_0dBm.encoding := by
  rw [(nRF_Config_regs mode s).2.2]
  exact power_bits (s.hw.chip.regs RF_SETUP % 256) (Nat.mod_lt _ (by norm_num))

/-- C24 (as stated, refuted): on the simulated chip with EN_RXADDR = `0x03`
(pipes 0 and 1 enabled), after `nRF_Config(NRF24_RECEIVER)` EN_RXADDR is still
`0x03`: of the bits 1 to 5, bit 1 is set, so pipe 1 is enabled as well. -/
theorem nRF_Config_keeps_pipe_1 :
    (nRF_Config regChip Mode.NRF24_RECEIVER
        (Driver.init (regChipWith (fun _ => 0x03)))).hw.chip.regs EN_RXADDR = 0x03
      ∧ (nRF_Config regChip Mode.NRF24_RECEIVER
          (Driver.init (regChipWith (fun _ => 0x03)))).hw.chip.regs EN_RXADDR &&& 0x3E = 0x02 := by
  rw [(nRF_Config_regs _ _).1]
  decide

/-- C24 (amended): on the simulated chip, for either mode and every prior
register file, after `nRF_Config` EN_RXADDR is the prior byte with bit 0 set:
bit 0 is set, bits 1 to 7 are as before, so bits 1 to 5 are clear afterwards
exactly when they were clear before. -/
theorem nRF_Config_enables_pipe_0 (mode : Mode) (s : Driver RegChip) :
    (nRF_Config regChip mode s).hw.chip.regs EN_RXADDR = s.hw.chip.regs EN_RXADDR % 256 ||| 0x01
      ∧ (nRF_Config regChip mode s).hw.chip.regs EN_RXADDR &&& 0x01 = 0x01
      ∧ (nRF_Config regChip mode s).hw.chip.regs EN_RXADDR &&& 0xFE
          = s.hw.chip.regs EN_RXADDR &&& 0xFE
      ∧ ((nRF_Config regChip mode s).hw.chip.regs EN_RXADDR &&& 0x3E = 0
          ↔ s.hw.chip.regs EN_RXADDR &&& 0x3E = 0) := by
  have h := pipe_bits (s.hw.chip.regs EN_RXADDR % 256) (Nat.mod_lt _ (by norm_num))
  rw [(nRF_Config_regs mode s).1, land_of_mod (s.hw.chip.regs EN_RXADDR) 0xFE (by decide),
    land_of_mod (s.hw.chip.regs EN_RXADDR) 0x3E (by decide)]
  exact ⟨rfl, h.1, h.2.1, h.2.2⟩

/-- C27: on the simulated chip, for every prior register file with CONFIG = `c`:
after `nRF_Config(NRF24_TRANSMITTER)` CONFIG is `(c & 0x80) | 0x4E` and
chip-enable is low; after `nRF_Config(NRF24_RECEIVER)` CONFIG is
`(c & 0x80) | 0x3F` and chip-enable is high; in both cases chip-select is
high. -/
theorem nRF_Config_leaves_CONFIG (s : Driver RegChip) :
    ((nRF_Config regChip Mode.NRF24_TRANSMITTER s).hw.chip.regs CONFIG
          = (s.hw.chip.regs CONFIG &&& 0x80) ||| 0x4E
        ∧ (nRF_Config regChip Mode.NRF24_TRANSMITTER s).hw.CE = false
        ∧ (nRF_Config regChip Mode.NRF24_TRANSMITTER s).hw.CSN = true)
      ∧ ((nRF_Config regChip Mode.NRF24_RECEIVER s).hw.chip.regs CONFIG
          = (s.hw.chip.regs CONFIG &&& 0x80) ||| 0x3F
        ∧ (nRF_Config regChip Mode.NRF24_RECEIVER s).hw.CE = true
        ∧ (nRF_Config regChip Mode.NRF24_RECEIVER s).hw.CSN = true) := by
  have hl := nRF_Config_lines regChip s
  have hr := nRF_Config_CONFIG_regs s
  have hv : s.hw.chip.regs CONFIG % 256 < 256 := Nat.mod_lt _ (by norm_num)
  refine ⟨⟨?_, hl.1.1, hl.1.2⟩, ⟨?_, hl.2.1, hl.2.2⟩⟩
  · rw [hr.1, land_of_mod (s.hw.chip.regs CONFIG) 0x80 (by decide)]
    exact config_bits_transmitter _ hv
  · rw [hr.2, land_of_mod (s.hw.chip.regs CONFIG) 0x80 (by decide)]
    exact config_bits_receiver _ hv

/-! ## The interrupt handler in Transmitter mode and the mailbox buffer -/

theorem writeCommand_emits_opcode {σ : Type} (c : Chip σ) (ins : Nat) (b : List Nat) (n : Int)
    (hw : Hw σ) :
    ∃ t, Emits hw.trace (writeCommand c ins b n hw).hw.trace t ∧ ∀ x ∈ t, x.headD 0 = ins := by
  by_cases hacc : (writeCommand c ins b n hw).error = ErrorCode.OK
  · obtain ⟨k, hk⟩ := writeCommand_shape_exists c ins b n hw hacc
    exact ⟨_, emits_of_shape hk, by simp⟩
  · rw [(writeCommand_of_rejected c ins b n hw hacc).1]
    exact ⟨[], Emits.refl _, by simp⟩

theorem emits_step_opcode {σ : Type} (c : Chip σ) (ins : Nat) (b : List Nat) (n : Int)
    (hw : Hw σ) (a : List BusEvent) (allowed : List Nat) (hins : ins ∈ allowed)
    (h : ∃ t, Emits a hw.trace t ∧ ∀ x ∈ t, x.headD 0 ∈ allowed) :
    ∃ t, Emits a (writeCommand c ins b n hw).hw.trace t ∧ ∀ x ∈ t, x.headD 0 ∈ allowed := by
  obtain ⟨t1, h1, k1⟩ := h
  obtain ⟨t2, h2, k2⟩ := writeCommand_emits_opcode c ins b n hw
  refine ⟨t1 ++ t2, h1.trans h2, ?_⟩
  intro x hx
  rcases List.mem_append.mp hx with hx | hx
  · exact k1 x hx
  · rw [k2 x hx]
    exact hins

theorem isr_transmitter_payload {σ : Type} (c : Chip σ) (IRQ : Bool) (s : Driver σ)
    (hm : s.operationMode = Mode.NRF24_TRANSMITTER) :
    (pin_change_isr0 c IRQ s).payload = s.payload := by
  unfold pin_change_isr0
  simp only [hm, if_true, getStatus, clearInterruptFlag]
  repeat' split
  all_goals rfl

theorem isr_transmitter_opcodes {σ : Type} (c : Chip σ) (IRQ : Bool) (s : Driver σ)
    (hm : s.operationMode = Mode.NRF24_TRANSMITTER) :
    ∃ t, Emits s.hw.trace (pin_change_isr0 c IRQ s).hw.trace t
      ∧ ∀ x ∈ t, x.headD 0 ∈ transmitterOpcodes := by
  unfold pin_change_isr0
  simp only [hm, if_true, getStatus, clearInterruptFlag]
  repeat' split
  all_goals
    try dsimp only
    repeat refine emits_step_opcode c _ _ _ _ _ _ (by decide) ?_
    exact ⟨[], Emits.refl _, by simp⟩

/-- C31: in Transmitter mode, whatever the pin level and the answers of the
chip, a run of the interrupt handler leaves the mailbox buffer as it was, and
every transaction it performs has one of the opcodes `NOP`, read of
FIFO_STATUS, `R_RX_PL_WID`, `FLUSH_RX`, write of STATUS, `FLUSH_TX`, never
`R_RX_PAYLOAD`.  A `readRxFIFO` that follows therefore copies the bytes the
buffer held before the interrupt: with `w` the availability after the
handler, the first `w` bytes of the old buffer. -/
theorem transmitter_isr_keeps_mailbox {σ : Type} (c : Chip σ) (IRQ : Bool)
    (s : Driver σ) (hm : s.operationMode = Mode.NRF24_TRANSMITTER) :
    (pin_change_isr0 c IRQ s).payload = s.payload
      ∧ (∀ x ∈ transactions (newEvents s.hw.trace (pin_change_isr0 c IRQ s).hw.trace),
          x.headD 0 ∈ transmitterOpcodes ∧ x.headD 0 ≠ R_RX_PAYLOAD)
      ∧ (∀ (data : List Nat) (size : Nat),
          (readRxFIFO data size (pin_change_isr0 c IRQ s)).1
            = memcpy data s.payload (bytesAvailable (pin_change_isr0 c IRQ s)))
      ∧ (∀ (data : List Nat) (size : Nat),
          bytesAvailable (pin_change_isr0 c IRQ s) ≤ data.length →
          bytesAvailable (pin_change_isr0 c IRQ s) ≤ s.payload.length →
          (readRxFIFO data size (pin_change_isr0 c IRQ s)).1
            = s.payload.take (bytesAvailable (pin_change_isr0 c IRQ s))
              ++ data.drop (bytesAvailable (pin_change_isr0 c IRQ s))) := by
  have hp := isr_transmitter_payload c IRQ s hm
  have hread : ∀ (data : List Nat) (size : Nat),
      (readRxFIFO data size (pin_change_isr0 c IRQ s)).1
        = memcpy data s.payload (bytesAvailable (pin_change_isr0 c IRQ s)) := by
    intro data size
    simp only [readRxFIFO, bytesAvailable, hp]
  refine ⟨hp, ?_, hread, ?_⟩
  · obtain ⟨t, ht, hk⟩ := isr_transmitter_opcodes c IRQ s hm
    rw [ht.transactions_newEvents]
    intro x hx
    refine ⟨hk x hx, ?_⟩
    intro h
    have := hk x hx
    rw [h] at this
    revert this
    decide
  · intro data size h1 h2
    rw [hread, memcpy_eq data s.payload _ h1 h2]

theorem transmitter_isr_keeps_mailbox_witness :
    staleTransmitter.operationMode = Mode.NRF24_TRANSMITTER
      ∧ bytesAvailable (pin_change_isr0 scriptChip false staleTransmitter) = 3
      ∧ (readRxFIFO [0, 0, 0, 0] 4 (pin_change_isr0 scriptChip false staleTransmitter)).1
          = [0xAA, 0xBB, 0xCC, 0]
      ∧ (pin_change_isr0 scriptChip false staleTransmitter).payload = staleTransmitter.payload :=
  ⟨rfl, by decide, by decide,
    (transmitter_isr_keeps_mailbox scriptChip false staleTransmitter rfl).1⟩

/-! ## Dialogue of the building blocks -/

theorem dialogueFrom_csn_false (o : Option (List (Nat × Nat))) (t : List BusEvent) :
    dialogueFrom o (BusEvent.csn false :: t) = dialogueFrom (some []) t := by
  cases o <;> rfl

theorem dialogueFrom_spi (x : List (Nat × Nat)) (m a : Nat) (t : List BusEvent) :
    dialogueFrom (some x) (BusEvent.spi m a :: t) = dialogueFrom (some (x ++ [(m, a)])) t := rfl

theorem dialogueFrom_csn_true (x : List (Nat × Nat)) (t : List BusEvent) :
    dialogueFrom (some x) (BusEvent.csn true :: t) = Talk.txn x :: dialogueFrom none t := rfl

theorem dialogueFrom_zipWith (mosi : List Nat) : ∀ (miso : List Nat) (x : List (Nat × Nat))
    (rest : List BusEvent), miso.length = mosi.length →
    dialogueFrom (some x) (List.zipWith BusEvent.spi mosi miso ++ rest)
      = dialogueFrom (some (x ++ List.zip mosi miso)) rest := by
  induction mosi with
  | nil =>
    intro miso x rest h
    simp
  | cons m t ih =>
    intro miso x rest h
    cases miso with
    | nil => simp at h
    | cons a miso =>
      rw [List.zipWith_cons_cons, List.cons_append, dialogueFrom_spi,
        ih miso (x ++ [(m, a)]) rest (by simpa using h)]
      simp

theorem says_refl (t : List BusEvent) : Says t t [] :=
  ⟨[], by simp, by simp⟩

theorem says_trans {a b d : List BusEvent} {t1 t2 : List Talk} (h1 : Says a b t1)
    (h2 : Says b d t2) : Says a d (t1 ++ t2) := by
  obtain ⟨e1, rfl, k1⟩ := h1
  obtain ⟨e2, rfl, k2⟩ := h2
  refine ⟨e1 ++ e2, by simp, ?_⟩
  intro rest
  rw [List.append_assoc, k1, k2, List.append_assoc]

theorem says_dialogue_newEvents {a b : List BusEvent} {t : List Talk} (h : Says a b t) :
    dialogue (newEvents a b) = t := by
  obtain ⟨e, rfl, k⟩ := h
  have := k []
  simpa [newEvents, dialogue, dialogueFrom] using this

theorem says_of_shape {σ : Type} {c : Chip σ} {ins : Nat} {b : List Nat} {k : Nat} {rd : Bool}
    {hw : Hw σ} {r : WriteResult σ} (h : TransactionShape c ins b k rd hw r) :
    ∃ miso : List Nat, miso.length = k
      ∧ (rd = true → k ≤ b.length →
          ∀ j, 1 ≤ j → j ≤ k → r.data.getD (k - j) 0 = miso.getD (j - 1) 0)
      ∧ Says hw.trace r.hw.trace
        [Talk.txn ((ins, opcodeAnswer c ins hw)
          :: List.zip (if rd = true then List.replicate k NOP else wireBytes k b) miso)] := by
  obtain ⟨miso, hlen, htr, _, _, _, hget⟩ := h
  refine ⟨miso, hlen, hget, _, htr, ?_⟩
  intro rest
  have hl : miso.length
      = (if rd = true then List.replicate k NOP else wireBytes k b).length := by
    cases rd <;> simp [hlen, wireBytes_len]
  rw [List.cons_append, List.cons_append, List.append_assoc, dialogueFrom_csn_false,
    dialogueFrom_spi, dialogueFrom_zipWith _ miso _ _ hl, List.singleton_append,
    dialogueFrom_csn_true]
  simp

/-! ## Scripts of the hardware steps -/

theorem enacts_follows {σ : Type} {f : Hw σ → Hw σ} {es : List Expect} (h : Enacts f es)
    (hw : Hw σ) : follows es (dialogue (newEvents hw.trace (f hw).trace)) = true := by
  obtain ⟨talks, p, m⟩ := h hw
  rw [says_dialogue_newEvents p]
  have := m [] []
  simpa [follows] using this

theorem enacts_append {σ : Type} {f g : Hw σ → Hw σ} {e1 e2 : List Expect}
    (h1 : Enacts f e1) (h2 : Enacts g e2) : Enacts (fun hw => g (f hw)) (e1 ++ e2) := by
  intro hw
  obtain ⟨s1, p1, m1⟩ := h1 hw
  obtain ⟨s2, p2, m2⟩ := h2 (f hw)
  refine ⟨s1 ++ s2, says_trans p1 p2, ?_⟩
  intro more ts
  rw [List.append_assoc, List.append_assoc, m1, m2]

theorem enacts_run {σ : Type} : ∀ (fs : List (Hw σ → Hw σ)) (ess : List (List Expect)),
    List.Forall₂ Enacts fs ess → Enacts (run fs) ess.flatten := by
  intro fs ess h
  induction h with
  | nil =>
    intro hw
    exact ⟨[], says_refl _, fun more ts => rfl⟩
  | cons hf _ ih =>
    intro hw
    obtain ⟨s1, p1, m1⟩ := hf hw
    obtain ⟨s2, p2, m2⟩ := ih (_)
    refine ⟨s1 ++ s2, ?_, ?_⟩
    · rw [run_cons]
      exact says_trans p1 p2
    · intro more ts
      rw [List.flatten_cons, List.append_assoc, List.append_assoc, m1, m2]

theorem enacts_start {σ : Type} (c : Chip σ) :
    Enacts (fun h : Hw σ => setCE false (setCSN c true h)) [Expect.ce false] := by
  intro hw
  refine ⟨[Talk.ce false], ⟨[BusEvent.csn true, BusEvent.ce false], by simp [setCE, setCSN],
    by intro rest; simp [dialogueFrom]⟩, ?_⟩
  intro more ts
  simp [follows]

theorem enacts_delay_ms {σ : Type} (n : Nat) :
    Enacts (delay_ms n : Hw σ → Hw σ) [Expect.delayMs n] := by
  intro hw
  refine ⟨[Talk.delayMs n], ⟨[BusEvent.delay_ms n], by simp [delay_ms],
    by intro rest; simp [dialogueFrom]⟩, ?_⟩
  intro more ts
  simp [follows]

theorem enacts_setCE {σ : Type} (v : Bool) :
    Enacts (setCE v : Hw σ → Hw σ) [Expect.ce v] := by
  intro hw
  refine ⟨[Talk.ce v], ⟨[BusEvent.ce v], by simp [setCE],
    by intro rest; simp [dialogueFrom]⟩, ?_⟩
  intro more ts
  simp [follows]

theorem says_readOne {σ : Type} (c : Chip σ) (ins : Nat) (hw : Hw σ) :
    Says hw.trace (readOne c ins [0] hw).hw.trace
      [Talk.txn [(ins, opcodeAnswer c ins hw), (NOP, (readOne c ins [0] hw).data.getD 0 0)]] := by
  obtain ⟨miso, hlen, hget, hs⟩ := says_of_shape (shape_readOne c ins [0] hw)
  have hv := hget rfl (by simp) 1 (le_refl _) (le_refl _)
  match miso, hlen with
  | [v], _ =>
    simp only [Nat.sub_self, List.getD_cons_zero] at hv
    rw [hv]
    simpa using hs

theorem says_writeOne {σ : Type} (c : Chip σ) (ins : Nat) (data : List Nat) (hw : Hw σ) :
    ∃ a, Says hw.trace (writeOne c ins data hw).hw.trace
      [Talk.txn [(ins, opcodeAnswer c ins hw), (data.getD 0 0, a)]] := by
  obtain ⟨miso, hlen, _, hs⟩ := says_of_shape (shape_writeOne c ins data hw)
  match miso, hlen with
  | [a], _ =>
    exact ⟨a, by simpa [wireBytes, List.range_succ] using hs⟩

theorem says_commandOnly {σ : Type} (c : Chip σ) (ins : Nat) (data : List Nat) (hw : Hw σ) :
    Says hw.trace (commandOnly c ins data hw).hw.trace
      [Talk.txn [(ins, opcodeAnswer c ins hw)]] := by
  obtain ⟨miso, hlen, _, hs⟩ := says_of_shape (shape_commandOnly c ins data hw)
  match miso, hlen with
  | [], _ => simpa [wireBytes] using hs

theorem says_writeMany {σ : Type} (c : Chip σ) (ins : Nat) (data : List Nat) (k : Nat)
    (hk : k ≤ 32767) (hw : Hw σ) :
    ∃ miso : List Nat, miso.length = k
      ∧ Says hw.trace (writeMany c ins data (k : Int) hw).hw.trace
        [Talk.txn ((ins, opcodeAnswer c ins hw) :: List.zip (wireBytes k data) miso)] := by
  have h := shape_writeMany c ins data (k : Int) hw
  rw [loopCount_natCast k hk] at h
  obtain ⟨miso, hlen, _, hs⟩ := says_of_shape h
  exact ⟨miso, hlen, by simpa using hs⟩

theorem follows_update (reg : Nat) (f : Nat → Nat) (a v b d : Nat) (more : List Expect)
    (ts : List Talk) :
    follows ([Expect.update reg f] ++ more)
        ([Talk.txn [(R_REGISTER + reg, a), (NOP, v)], Talk.txn [(W_REGISTER + reg, b), (f v, d)]]
          ++ ts)
      = follows more ts := by
  simp [follows]

theorem follows_write (reg : Nat) (a : Nat) (bs : List (Nat × Nat)) (more : List Expect)
    (ts : List Talk) :
    follows ([Expect.write reg (bs.map Prod.fst)] ++ more)
        ([Talk.txn ((W_REGISTER + reg, a) :: bs)] ++ ts)
      = follows more ts := by
  simp [follows]

theorem follows_command (ins a : Nat) (more : List Expect) (ts : List Talk) :
    follows ([Expect.command ins] ++ more) ([Talk.txn [(ins, a)]] ++ ts) = follows more ts := by
  simp [follows]

theorem enacts_rmwHw {σ : Type} (c : Chip σ) (reg : Nat) (h : reg ∈ writeSingle)
    (f : Nat → Nat) : Enacts (rmwHw c reg f) [Expect.update reg f] := by
  have hr : reg ∈ readSingle := by
    revert h
    simp only [readSingle, writeSingle, List.mem_cons, List.mem_singleton, List.not_mem_nil,
      or_false]
    tauto
  intro hw
  unfold rmwHw
  rw [writeCommand_write_single c reg h, writeCommand_read_single c reg hr]
  have p1 := says_readOne c (R_REGISTER + reg) hw
  obtain ⟨a, p2⟩ := says_writeOne c (W_REGISTER + reg)
    ((readOne c (R_REGISTER + reg) [0] hw).data.set 0
      (f ((readOne c (R_REGISTER + reg) [0] hw).data.getD 0 0)))
    (readOne c (R_REGISTER + reg) [0] hw).hw
  have hw0 : ((readOne c (R_REGISTER + reg) [0] hw).data.set 0
      (f ((readOne c (R_REGISTER + reg) [0] hw).data.getD 0 0))).getD 0 0
      = f ((readOne c (R_REGISTER + reg) [0] hw).data.getD 0 0) := by
    simp [readOne, finish]
  rw [hw0] at p2
  refine ⟨_, says_trans p1 p2, ?_⟩
  intro more ts
  exact follows_update reg f _ _ _ _ more ts

theorem enacts_write_single {σ : Type} (c : Chip σ) (reg : Nat) (h : reg ∈ writeSingle)
    (data : List Nat) :
    Enacts (cmdHw c (W_REGISTER + reg) data 1) [Expect.write reg [data.getD 0 0]] := by
  intro hw
  unfold cmdHw
  rw [writeCommand_write_single c reg h]
  obtain ⟨a, p⟩ := says_writeOne c (W_REGISTER + reg) data hw
  refine ⟨_, p, ?_⟩
  intro more ts
  exact follows_write reg _ [(data.getD 0 0, a)] more ts

theorem enacts_flush {σ : Type} (c : Chip σ) (data : List Nat) :
    Enacts (cmdHw c FLUSH_TX data 0) [Expect.command FLUSH_TX]
      ∧ Enacts (cmdHw c FLUSH_RX data 0) [Expect.command FLUSH_RX] := by
  constructor
  · intro hw
    unfold cmdHw
    rw [writeCommand_FLUSH_TX]
    exact ⟨_, says_commandOnly c _ _ hw, fun more ts => follows_command _ _ more ts⟩
  · intro hw
    unfold cmdHw
    rw [writeCommand_FLUSH_RX]
    exact ⟨_, says_commandOnly c _ _ hw, fun more ts => follows_command _ _ more ts⟩

theorem map_fst_zip_wireBytes (k : Nat) (data miso : List Nat) (h : miso.length = k) :
    (List.zip (wireBytes k data) miso).map Prod.fst = wireBytes k data := by
  apply List.map_fst_zip
  rw [wireBytes_len, h]

theorem enacts_addressHw {σ : Type} (c : Chip σ) (base : List Nat) :
    Enacts (addressHw c base)
      [Expect.write RX_ADDR_P0 (wireBytes 5 base), Expect.write TX_ADDR (wireBytes 5 base)] := by
  intro hw
  unfold addressHw
  rw [(writeCommand_address c _ _).2, (writeCommand_address c _ _).1]
  obtain ⟨m1, l1, p1⟩ := says_writeMany c (W_REGISTER + RX_ADDR_P0) base 5 (by decide) hw
  obtain ⟨m2, l2, p2⟩ := says_writeMany c (W_REGISTER + TX_ADDR)
    (writeMany c (W_REGISTER + RX_ADDR_P0) base ((5 : Nat) : Int) hw).data 5 (by decide)
    (writeMany c (W_REGISTER + RX_ADDR_P0) base ((5 : Nat) : Int) hw).hw
  have hd : (writeMany c (W_REGISTER + RX_ADDR_P0) base ((5 : Nat) : Int) hw).data = base := rfl
  rw [hd] at p2
  refine ⟨_, says_trans p1 p2, ?_⟩
  intro more ts
  have f1 := follows_write RX_ADDR_P0 (opcodeAnswer c (W_REGISTER + RX_ADDR_P0) hw)
    (List.zip (wireBytes 5 base) m1)
  have f2 := follows_write TX_ADDR (opcodeAnswer c (W_REGISTER + TX_ADDR)
      (writeMany c (W_REGISTER + RX_ADDR_P0) base ((5 : Nat) : Int) hw).hw)
    (List.zip (wireBytes 5 base) m2)
  rw [map_fst_zip_wireBytes 5 base m1 l1] at f1
  rw [map_fst_zip_wireBytes 5 base m2 l2] at f2
  have e1 : [Expect.write RX_ADDR_P0 (wireBytes 5 base), Expect.write TX_ADDR (wireBytes 5 base)]
      ++ more = [Expect.write RX_ADDR_P0 (wireBytes 5 base)]
        ++ ([Expect.write TX_ADDR (wireBytes 5 base)] ++ more) := rfl
  rw [e1, List.append_assoc, f1, f2]

theorem enacts_dynamicPayloadHw {σ : Type} (c : Chip σ) :
    Enacts (dynamicPayloadHw c) [Expect.write DYNPD [0x01], Expect.write FEATURE [0x04]] := by
  intro hw
  unfold dynamicPayloadHw
  rw [writeCommand_write_single c FEATURE (by decide),
    writeCommand_write_single c DYNPD (by decide)]
  obtain ⟨a1, p1⟩ := says_writeOne c (W_REGISTER + DYNPD) [(0 ||| 0x01) &&& 0x3F] hw
  obtain ⟨a2, p2⟩ := says_writeOne c (W_REGISTER + FEATURE)
    ((writeOne c (W_REGISTER + DYNPD) [(0 ||| 0x01) &&& 0x3F] hw).data.set 0
      ((0 ||| 0x04) &&& 0x07))
    (writeOne c (W_REGISTER + DYNPD) [(0 ||| 0x01) &&& 0x3F] hw).hw
  refine ⟨_, says_trans p1 p2, ?_⟩
  intro more ts
  have f1 := follows_write DYNPD (opcodeAnswer c (W_REGISTER + DYNPD) hw) [(0x01, a1)]
  have f2 := follows_write FEATURE (opcodeAnswer c (W_REGISTER + FEATURE)
      (writeOne c (W_REGISTER + DYNPD) [(0 ||| 0x01) &&& 0x3F] hw).hw) [(0x04, a2)]
  have e1 : [Expect.write DYNPD [0x01], Expect.write FEATURE [0x04]] ++ more
      = [Expect.write DYNPD [0x01]] ++ ([Expect.write FEATURE [0x04]] ++ more) := rfl
  rw [e1, List.append_assoc]
  exact (f1 _ _).trans (f2 more ts)

theorem enacts_configCommon {σ : Type} (c : Chip σ) (base : List Nat) :
    Enacts (run (configCommon c base)) (scriptCommon base) := by
  have h := enacts_run (configCommon c base)
    [[Expect.ce false], [Expect.delayMs 110],
     [Expect.update CONFIG (fun d => d &&& 0xFD)],
     [Expect.delayMs 5],
     [Expect.write STATUS [0x7E]],
     [Expect.command FLUSH_TX],
     [Expect.command FLUSH_RX],
     [Expect.update EN_AA (fun d => d &&& 0xFE)],
     [Expect.update EN_RXADDR (fun d => d ||| 0x01)],
     [Expect.update SETUP_AW (fun d => (d ||| 0x01) &&& 0xFD)],
     [Expect.write RF_CH [1]],
     [Expect.update RF_SETUP (fun d => d ||| 0x06)],
     [Expect.update RF_SETUP (fun d => (d &&& 0xDF) &&& 0xF7)],
     [Expect.write RX_ADDR_P0 (wireBytes 5 base), Expect.write TX_ADDR (wireBytes 5 base)],
     [Expect.write DYNPD [0x01], Expect.write FEATURE [0x04]],
     [Expect.update CONFIG (fun d => (d ||| 0x08) ||| 0x04)]]
    (by
      unfold configCommon
      refine List.Forall₂.cons (enacts_start c) ?_
      refine List.Forall₂.cons (enacts_delay_ms 110) ?_
      refine List.Forall₂.cons (enacts_rmwHw c CONFIG (by decide) _) ?_
      refine List.Forall₂.cons (enacts_delay_ms 5) ?_
      refine List.Forall₂.cons (enacts_write_single c STATUS (by decide) _) ?_
      refine List.Forall₂.cons (enacts_flush c []).1 ?_
      refine List.Forall₂.cons (enacts_flush c []).2 ?_
      refine List.Forall₂.cons (enacts_rmwHw c EN_AA (by decide) _) ?_
      refine List.Forall₂.cons (enacts_rmwHw c EN_RXADDR (by decide) _) ?_
      refine List.Forall₂.cons (enacts_rmwHw c SETUP_AW (by decide) _) ?_
      refine List.Forall₂.cons (enacts_write_single c RF_CH (by decide) _) ?_
      refine List.Forall₂.cons (enacts_rmwHw c RF_SETUP (by decide) _) ?_
      refine List.Forall₂.cons (enacts_rmwHw c RF_SETUP (by decide) _) ?_
      refine List.Forall₂.cons (enacts_addressHw c base) ?_
      refine List.Forall₂.cons (enacts_dynamicPayloadHw c) ?_
      refine List.Forall₂.cons (enacts_rmwHw c CONFIG (by decide) _) ?_
      exact List.Forall₂.nil)
  exact h

theorem enacts_configBranch {σ : Type} (c : Chip σ) (mode : Mode) :
    Enacts (run (configBranch c mode)) (scriptBranch mode) := by
  cases mode
  · have h := enacts_run (configBranch c Mode.NRF24_TRANSMITTER)
      [[Expect.update CONFIG (fun d => ((d ||| 0x40) &&& 0xDF) &&& 0xEF)],
       [Expect.update CONFIG (fun d => d &&& 0xFE)],
       [Expect.update CONFIG (fun d => d ||| 0x02)],
       [Expect.delayMs 100]]
      (by
        unfold configBranch
        refine List.Forall₂.cons (enacts_rmwHw c CONFIG (by decide) _) ?_
        refine List.Forall₂.cons (enacts_rmwHw c CONFIG (by decide) _) ?_
        refine List.Forall₂.cons (enacts_rmwHw c CONFIG (by decide) _) ?_
        refine List.Forall₂.cons (enacts_delay_ms 100) ?_
        exact List.Forall₂.nil)
    exact h
  · have h := enacts_run (configBranch c Mode.NRF24_RECEIVER)
      [[Expect.update CONFIG (fun d => ((d &&& 0xBF) ||| 0x20) ||| 0x10)],
       [Expect.update CONFIG (fun d => d ||| 0x01)],
       [Expect.update CONFIG (fun d => d ||| 0x02)],
       [Expect.delayMs 5], [Expect.ce true]]
      (by
        unfold configBranch
        refine List.Forall₂.cons (enacts_rmwHw c CONFIG (by decide) _) ?_
        refine List.Forall₂.cons (enacts_rmwHw c CONFIG (by decide) _) ?_
        refine List.Forall₂.cons (enacts_rmwHw c CONFIG (by decide) _) ?_
        refine List.Forall₂.cons (enacts_delay_ms 5) ?_
        refine List.Forall₂.cons (enacts_setCE true) ?_
        exact List.Forall₂.nil)
    exact h

theorem nRF_Config_enacts {σ : Type} (c : Chip σ) (mode : Mode) (s : Driver σ) :
    follows (scriptCommon s.Base_Addrs ++ scriptBranch mode)
      (dialogue (newEvents s.hw.trace (nRF_Config c mode s).hw.trace)) = true := by
  rw [nRF_Config_eq]
  have h := enacts_follows
    (enacts_append (enacts_configCommon c s.Base_Addrs) (enacts_configBranch c mode)) s.hw
  rw [← h, run_append]
/-- C21: for each mode, against any chip and from any state, what `nRF_Config`
adds to the trace is exactly this script, entry by entry, in this order and
with nothing else (an update is a read of the register directly followed by the
write of the given function of the byte read): chip-enable lowered; 110 ms
delay; power down: CONFIG updated by clearing bit 1; 5 ms delay; `0x7E` written
to STATUS; `FLUSH_TX`; `FLUSH_RX`; EN_AA updated by clearing bit 0; EN_RXADDR
updated by setting bit 0; SETUP_AW updated by setting bit 0 and clearing bit 1;
`1` written to RF_CH; RF_SETUP updated by setting bits 2 and 1 (power), then
updated by clearing bits 5 and 3 (data rate); the 5 bytes of `Base_Addrs`
written to RX_ADDR_P0, then to TX_ADDR, byte 4 first; `0x01` written to DYNPD,
then `0x04` to FEATURE; CONFIG updated by setting bits 3 and 2 (CRC); then for
the transmitter CONFIG updated by setting bit 6 and clearing bits 5 and 4
(interrupt mask), by clearing bit 0 (mode), by setting bit 1 (power up), and a
100 ms delay; for the receiver CONFIG updated by clearing bit 6 and setting
bits 5 and 4, by setting bit 0, by setting bit 1, a 5 ms delay, and only then
chip-enable raised. -/
theorem nRF_Config_follows_script {σ : Type} (c : Chip σ) (s : Driver σ) :
    follows
        [Expect.ce false,
         Expect.delayMs 110,
         Expect.update CONFIG (fun d => d &&& 0xFD),
         Expect.delayMs 5,
         Expect.write STATUS [0x7E],
         Expect.command FLUSH_TX,
         Expect.command FLUSH_RX,
         Expect.update EN_AA (fun d => d &&& 0xFE),
         Expect.update EN_RXADDR (fun d => d ||| 0x01),
         Expect.update SETUP_AW (fun d => (d ||| 0x01) &&& 0xFD),
         Expect.write RF_CH [1],
         Expect.update RF_SETUP (fun d => d ||| 0x06),
         Expect.update RF_SETUP (fun d => (d &&& 0xDF) &&& 0xF7),
         Expect.write RX_ADDR_P0 (wireBytes 5 s.Base_Addrs),
         Expect.write TX_ADDR (wireBytes 5 s.Base_Addrs),
         Expect.write DYNPD [0x01],
         Expect.write FEATURE [0x04],
         Expect.update CONFIG (fun d => (d ||| 0x08) ||| 0x04),
         Expect.update CONFIG (fun d => ((d ||| 0x40) &&& 0xDF) &&& 0xEF),
         Expect.update CONFIG (fun d => d &&& 0xFE),
         Expect.update CONFIG (fun d => d ||| 0x02),
         Expect.delayMs 100]
        (dialogue (newEvents s.hw.trace (nRF_Config c Mode.NRF24_TRANSMITTER s).hw.trace))
        = true
      ∧ follows
        [Expect.ce false,
         Expect.delayMs 110,
         Expect.update CONFIG (fun d => d &&& 0xFD),
         Expect.delayMs 5,
         Expect.write STATUS [0x7E],
         Expect.command FLUSH_TX,
         Expect.command FLUSH_RX,
         Expect.update EN_AA (fun d => d &&& 0xFE),
         Expect.update EN_RXADDR (fun d => d ||| 0x01),
         Expect.update SETUP_AW (fun d => (d ||| 0x01) &&& 0xFD),
         Expect.write RF_CH [1],
         Expect.update RF_SETUP (fun d => d ||| 0x06),
         Expect.update RF_SETUP (fun d => (d &&& 0xDF) &&& 0xF7),
         Expect.write RX_ADDR_P0 (wireBytes 5 s.Base_Addrs),
         Expect.write TX_ADDR (wireBytes 5 s.Base_Addrs),
         Expect.write DYNPD [0x01],
         Expect.write FEATURE [0x04],
         Expect.update CONFIG (fun d => (d ||| 0x08) ||| 0x04),
         Expect.update CONFIG (fun d => ((d &&& 0xBF) ||| 0x20) ||| 0x10),
         Expect.update CONFIG (fun d => d ||| 0x01),
         Expect.update CONFIG (fun d => d ||| 0x02),
         Expect.delayMs 5,
         Expect.ce true]
        (dialogue (newEvents s.hw.trace (nRF_Config c Mode.NRF24_RECEIVER s).hw.trace))
        = true :=
  ⟨nRF_Config_enacts c Mode.NRF24_TRANSMITTER s, nRF_Config_enacts c Mode.NRF24_RECEIVER s⟩

end NRF24
